import Mathlib

/-!
# XMouseD (SAGA eXtended Mouse Driver): the daemon of `src/xmoused.c`

A shallow embedding of the newer daemon variant, `xmoused.c`:

* the profile table `s_adaptiveModes` and the adaptive polling state machine
  `daemon_GetAdaptiveInterval`;
* the body of the timer branch of `daemon()` (wheel and button sampling, event
  injection, re-arming of the timer);
* the body of the message branch of `daemon()` (QUIT, SET_CONFIG, GET_STATUS,
  unknown commands);
* `daemon_Init`, `daemon_Cleanup` and the top level of `daemon()`;
* the client: `parseHexDigit`, `parseArguments`, `_start` and `sendDaemonMessage`;
* of the older variant `xmouse.c`: the profile table, `getAdaptiveInterval` and the
  wheel delta of `daemon_processWheel`.

Conventions.

* C globals become fields of a state record and keep their C names.
* `ULONG` values are natural numbers; every `ULONG` addition that the source
  performs is reduced modulo `2^32`.  `UBYTE` casts are reductions modulo `256`.
* A `BYTE` (signed char) is represented by its raw bit pattern `0..255`; the
  source only ever compares two `BYTE`s for equality or converts them through
  `(unsigned char)`.
* A local variable that the source reads without having assigned it has an
  indeterminate value; that value is an explicit input of the model.
* Everything the daemon does to the outside (replies, timer requests, injected
  input events) is appended to a trace, oldest effect first.
* The build flag `RELEASE` is a Boolean parameter.  The debug console
  (`s_debugCon`, `DebugLog`, `DebugLogF`, `s_pollCount`) only writes text and is
  not modelled.
-/

namespace XMouseD

/-! ## Constants of `xmoused.c` -/

def XMSG_CMD_QUIT : Nat := 0
def XMSG_CMD_SET_CONFIG : Nat := 1
def XMSG_CMD_GET_STATUS : Nat := 2

def START_MODE_TOGGLE : Nat := 0
def START_MODE_START : Nat := 1
def START_MODE_STOP : Nat := 2
def START_MODE_CONFIG : Nat := 3
def START_MODE_STATUS : Nat := 4

def CONFIG_WHEEL_ENABLED : Nat := 0x01
def CONFIG_BUTTONS_ENABLED : Nat := 0x02
def CONFIG_INTERVAL_SHIFT : Nat := 4
def CONFIG_INTERVAL_MASK : Nat := 0x30
def CONFIG_FIXED_MODE : Nat := 0x40
def CONFIG_FEATURES_MASK : Nat := CONFIG_WHEEL_ENABLED ||| CONFIG_BUTTONS_ENABLED
def CONFIG_DEBUG_MODE : Nat := 0x80
def DEFAULT_CONFIG_BYTE : Nat := 0x13

def SAGA_BUTTON4_MASK : Nat := 0x0100
def SAGA_BUTTON5_MASK : Nat := 0x0200

def POLL_STATE_IDLE : Nat := 0
def POLL_STATE_ACTIVE : Nat := 1
def POLL_STATE_BURST : Nat := 2
def POLL_STATE_TO_IDLE : Nat := 3

/-- Number of values of a `ULONG`. -/
def ULONG_RANGE : Nat := 4294967296

/-! ## Profiles -/

/-- The C struct `AdaptiveMode`. -/
structure AdaptiveMode where
  adaptiveName : String
  normalName : String
  idleUs : Nat
  activeUs : Nat
  burstUs : Nat
  stepDecUs : Nat
  stepIncUs : Nat
  activeThreshold : Nat
  idleThreshold : Nat
deriving DecidableEq, Repr

/-- The table `s_adaptiveModes`, indexed by bits 4-5 of the configuration byte. -/
def s_adaptiveModes : List AdaptiveMode :=
  [ { adaptiveName := "COMFORT", normalName := "MODERATE", idleUs := 150000, activeUs := 60000,
      burstUs := 20000, stepDecUs := 1100, stepIncUs := 15000,
      activeThreshold := 500000, idleThreshold := 500000 },
    { adaptiveName := "BALANCED", normalName := "ACTIVE", idleUs := 100000, activeUs := 30000,
      burstUs := 10000, stepDecUs := 600, stepIncUs := 1200,
      activeThreshold := 500000, idleThreshold := 1500000 },
    { adaptiveName := "REACTIVE", normalName := "INTENSIVE", idleUs := 50000, activeUs := 15000,
      burstUs := 5000, stepDecUs := 500, stepIncUs := 250,
      activeThreshold := 500000, idleThreshold := 3000000 },
    { adaptiveName := "ECO", normalName := "PASSIVE", idleUs := 200000, activeUs := 80000,
      burstUs := 40000, stepDecUs := 2000, stepIncUs := 4000,
      activeThreshold := 500000, idleThreshold := 1500000 } ]

/-- The entry `s_adaptiveModes[i]` for an index `i` that the source has reduced
to `0..3` (`% 4`, or the two-bit field of the configuration byte). -/
def modeAt (i : Nat) : AdaptiveMode :=
  match i with
  | 0 => s_adaptiveModes.get ⟨0, by decide⟩
  | 1 => s_adaptiveModes.get ⟨1, by decide⟩
  | 2 => s_adaptiveModes.get ⟨2, by decide⟩
  | _ => s_adaptiveModes.get ⟨3, by decide⟩

/-! ## The adaptive polling state machine -/

/-- The "adaptive state variables" of `xmoused.c`: `s_activeMode` (the table
entry the pointer refers to), `s_adaptiveState`, `s_adaptiveInterval` and
`s_adaptiveInactive`. -/
structure Adaptive where
  s_activeMode : AdaptiveMode
  s_adaptiveState : Nat
  s_adaptiveInterval : Nat
  s_adaptiveInactive : Nat
deriving DecidableEq, Repr

/-- The `switch (s_adaptiveState)` of `daemon_GetAdaptiveInterval`: the values of
`s_adaptiveState` and `s_adaptiveInterval` after it, from their values before it and
from `s_adaptiveInactive` as already updated by the accumulation step. -/
def adaptiveSwitch (mode : AdaptiveMode) (hadActivity : Bool)
    (s_adaptiveState s_adaptiveInterval s_adaptiveInactive : Nat) : Nat × Nat :=
  if s_adaptiveState = POLL_STATE_IDLE then
    if hadActivity then (POLL_STATE_ACTIVE, mode.activeUs)
    else (s_adaptiveState, s_adaptiveInterval)
  else if s_adaptiveState = POLL_STATE_ACTIVE then
    if hadActivity then
      -- descend toward BURST
      let interval1 :=
        if s_adaptiveInterval > mode.burstUs then
          (if s_adaptiveInterval > mode.stepDecUs then s_adaptiveInterval - mode.stepDecUs
           else mode.burstUs)
        else s_adaptiveInterval
      -- reached BURST floor?
      if interval1 ≤ mode.burstUs then (POLL_STATE_BURST, mode.burstUs)
      else (s_adaptiveState, interval1)
    else
      if s_adaptiveInactive ≥ mode.activeThreshold then (POLL_STATE_TO_IDLE, s_adaptiveInterval)
      else (s_adaptiveState, s_adaptiveInterval)
  else if s_adaptiveState = POLL_STATE_BURST then
    if !hadActivity then
      if s_adaptiveInactive ≥ mode.idleThreshold then (POLL_STATE_TO_IDLE, s_adaptiveInterval)
      else (s_adaptiveState, s_adaptiveInterval)
    else (s_adaptiveState, s_adaptiveInterval)
  else if s_adaptiveState = POLL_STATE_TO_IDLE then
    if hadActivity then
      -- return to ACTIVE
      let interval1 :=
        if s_adaptiveInterval > mode.activeUs then mode.activeUs else s_adaptiveInterval
      (POLL_STATE_ACTIVE, interval1)
    else
      -- ascend toward IDLE, clamped to the idleUs ceiling
      let interval1 :=
        if s_adaptiveInterval < mode.idleUs then
          (if (s_adaptiveInterval + mode.stepIncUs) % ULONG_RANGE > mode.idleUs then mode.idleUs
           else (s_adaptiveInterval + mode.stepIncUs) % ULONG_RANGE)
        else s_adaptiveInterval
      -- reached IDLE ceiling?
      if interval1 ≥ mode.idleUs then (POLL_STATE_IDLE, mode.idleUs)
      else (s_adaptiveState, interval1)
  else (s_adaptiveState, s_adaptiveInterval)

/-- The function `daemon_GetAdaptiveInterval(hadActivity)`: the returned interval and
the adaptive state variables after the call.  First the inactive time is reset or
increased by the current interval (a `ULONG` addition), then the switch runs. -/
def daemon_GetAdaptiveInterval (hadActivity : Bool) (a : Adaptive) : Nat × Adaptive :=
  let mode := a.s_activeMode
  let inactive :=
    if hadActivity then 0
    else (a.s_adaptiveInactive + a.s_adaptiveInterval) % ULONG_RANGE
  let r := adaptiveSwitch mode hadActivity a.s_adaptiveState a.s_adaptiveInterval inactive
  (r.2, { s_activeMode := mode, s_adaptiveState := r.1, s_adaptiveInterval := r.2,
          s_adaptiveInactive := inactive })

/-- The adaptive state variables as the adaptive branch of `daemon_Init` leaves them for
table entry `i`: state IDLE, interval `idleUs`, nothing accumulated. -/
def adaptiveStart (i : Nat) : Adaptive :=
  { s_activeMode := modeAt i, s_adaptiveState := POLL_STATE_IDLE,
    s_adaptiveInterval := (modeAt i).idleUs, s_adaptiveInactive := 0 }

/-- The adaptive state variables after one timer tick per activity flag of the list, in
order: each tick calls `daemon_GetAdaptiveInterval` once. -/
def runTicks (a : Adaptive) : List Bool → Adaptive
  | [] => a
  | f :: fs => runTicks (daemon_GetAdaptiveInterval f a).2 fs

/-- The transition rules of spec section 4.1 for the state and the interval, written
from the words of the specification (not from the source).  `accumulator` is the
accumulator as already updated for this call.  `IDLE + activity -> ACTIVE @ activeUs`;
`ACTIVE + activity`: interval `max(burstUs, interval - stepDecUs)`, and BURST at `burstUs`
once that is at most `burstUs`; `ACTIVE + no activity`: TO_IDLE with the interval
unchanged once the accumulator has reached `activeThreshold`; `BURST + activity`: BURST
at `burstUs`; `BURST + no activity`: TO_IDLE once the accumulator has reached
`idleThreshold`; `TO_IDLE + activity`: ACTIVE at `min(interval, activeUs)`;
`TO_IDLE + no activity`: interval `min(idleUs, interval + stepIncUs)`, and IDLE at
`idleUs` once that is at least `idleUs`; otherwise nothing changes.  The subtraction is
the truncated one of the natural numbers, which under `max(burstUs, _)` gives the same
value as the subtraction of the integers. -/
def specTransition (p : AdaptiveMode) (hadActivity : Bool) (state interval accumulator : Nat) :
    Nat × Nat :=
  if state = POLL_STATE_IDLE ∧ hadActivity = true then (POLL_STATE_ACTIVE, p.activeUs)
  else if state = POLL_STATE_ACTIVE ∧ hadActivity = true then
    (if max p.burstUs (interval - p.stepDecUs) ≤ p.burstUs then (POLL_STATE_BURST, p.burstUs)
     else (POLL_STATE_ACTIVE, max p.burstUs (interval - p.stepDecUs)))
  else if state = POLL_STATE_ACTIVE ∧ hadActivity = false ∧ accumulator ≥ p.activeThreshold then
    (POLL_STATE_TO_IDLE, interval)
  else if state = POLL_STATE_BURST ∧ hadActivity = true then (POLL_STATE_BURST, p.burstUs)
  else if state = POLL_STATE_BURST ∧ hadActivity = false ∧ accumulator ≥ p.idleThreshold then
    (POLL_STATE_TO_IDLE, interval)
  else if state = POLL_STATE_TO_IDLE ∧ hadActivity = true then
    (POLL_STATE_ACTIVE, min interval p.activeUs)
  else if state = POLL_STATE_TO_IDLE ∧ hadActivity = false then
    (if min p.idleUs (interval + p.stepIncUs) ≥ p.idleUs then (POLL_STATE_IDLE, p.idleUs)
     else (POLL_STATE_TO_IDLE, min p.idleUs (interval + p.stepIncUs)))
  else (state, interval)

/-- The step of spec section 4.1 with the accumulator rule read over the unbounded
numbers: reset to 0 on activity, else increased by the interval in effect before the
call.  Result: state, interval, accumulator. -/
def specStep (p : AdaptiveMode) (hadActivity : Bool) (state interval accumulator : Nat) :
    Nat × Nat × Nat :=
  let accumulator1 := if hadActivity then 0 else accumulator + interval
  ((specTransition p hadActivity state interval accumulator1).1,
   (specTransition p hadActivity state interval accumulator1).2, accumulator1)

/-- The step of spec section 4.1 with the accumulator a 32-bit counter: reset to 0 on
activity, else increased by the interval in effect before the call modulo `2^32`.
Result: state, interval, accumulator. -/
def specStep32 (p : AdaptiveMode) (hadActivity : Bool) (state interval accumulator : Nat) :
    Nat × Nat × Nat :=
  let accumulator1 := if hadActivity then 0 else (accumulator + interval) % ULONG_RANGE
  ((specTransition p hadActivity state interval accumulator1).1,
   (specTransition p hadActivity state interval accumulator1).2, accumulator1)

/-- What the proofs use of a profile: `burstUs < activeUs < idleUs`, positive steps and
thresholds, and no `ULONG` overflow one increment above `idleUs`.  All four table
entries have it. -/
def ModeOK (m : AdaptiveMode) : Prop :=
  m.burstUs < m.activeUs ∧ m.activeUs < m.idleUs ∧ 0 < m.stepDecUs ∧ 0 < m.stepIncUs
  ∧ 0 < m.activeThreshold ∧ 0 < m.idleThreshold
  ∧ m.idleUs + m.stepIncUs < ULONG_RANGE

/-- The invariant of the adaptive state variables in adaptive mode under profile `m`. -/
def SchedInv (m : AdaptiveMode) (a : Adaptive) : Prop :=
  a.s_activeMode = m ∧
  ((a.s_adaptiveState = POLL_STATE_IDLE ∧ a.s_adaptiveInterval = m.idleUs)
   ∨ (a.s_adaptiveState = POLL_STATE_ACTIVE ∧ m.burstUs ≤ a.s_adaptiveInterval
        ∧ a.s_adaptiveInterval ≤ m.activeUs ∧ a.s_adaptiveInactive < m.activeThreshold)
   ∨ (a.s_adaptiveState = POLL_STATE_BURST ∧ a.s_adaptiveInterval = m.burstUs
        ∧ a.s_adaptiveInactive < m.idleThreshold)
   ∨ (a.s_adaptiveState = POLL_STATE_TO_IDLE ∧ m.burstUs ≤ a.s_adaptiveInterval
        ∧ a.s_adaptiveInterval < m.idleUs))

/-- A ceiling of the accumulator outside IDLE, as a function of the current interval:
both thresholds, one `activeUs`, and one `idleUs` for every step of the ascent from
`burstUs` to the current interval and one more. -/
def accCeiling (m : AdaptiveMode) (interval : Nat) : Nat :=
  m.activeThreshold + m.idleThreshold + m.activeUs
    + m.idleUs * ((interval - m.burstUs) / m.stepIncUs + 1)

/-- The accumulator is below its ceiling in every state but IDLE. -/
def AccInv (m : AdaptiveMode) (a : Adaptive) : Prop :=
  a.s_adaptiveState = POLL_STATE_IDLE
  ∨ a.s_adaptiveInactive ≤ accCeiling m a.s_adaptiveInterval

/-- The ceiling of the accumulator at `idleUs`, plus one more interval, fits a `ULONG`.
All four table entries have it. -/
def ModeNoWrap (m : AdaptiveMode) : Prop :=
  accCeiling m m.idleUs + m.idleUs < ULONG_RANGE

/-- An upper bound, for profile 1 (BALANCED), on the number of further no-activity ticks
after which the scheduler is IDLE: in ACTIVE and BURST the ticks until the accumulator
reaches the threshold at the smallest interval of the profile, plus the ticks of the
ascent from the current interval to `idleUs`. -/
def ticksToIdle (a : Adaptive) : Nat :=
  if a.s_adaptiveState = POLL_STATE_IDLE then 0
  else if a.s_adaptiveState = POLL_STATE_ACTIVE then
    (500000 - a.s_adaptiveInactive + 9999) / 10000 + (100000 - a.s_adaptiveInterval + 1199) / 1200
  else if a.s_adaptiveState = POLL_STATE_BURST then
    (1500000 - a.s_adaptiveInactive + 9999) / 10000 + 75
  else (100000 - a.s_adaptiveInterval + 1199) / 1200

/-! ## The wheel and button sampler of the timer branch -/

/-- The wrap-corrected wheel delta of the timer branch of `daemon()`, taken when the
counter has moved: `(int)(unsigned char)current - (int)(unsigned char)last`, minus 256
when above 127, plus 256 when below -128. -/
def wheelDelta (s_lastWHCounter currentWHCounter : Nat) : Int :=
  let currentWHDelta : Int := (currentWHCounter : Int) - (s_lastWHCounter : Int)
  if currentWHDelta ≠ 0 then
    if currentWHDelta > 127 then currentWHDelta - 256
    else if currentWHDelta < -128 then currentWHDelta + 256
    else currentWHDelta
  else currentWHDelta

/-- The wheel delta of `daemon_processWheel` in the older variant `xmouse.c`, computed
there when the counter read differs from `s_lastCounter`:
`(int)(unsigned char)current - (int)(unsigned char)s_lastCounter`, minus 256 when above
127, plus 256 when below -128. -/
def daemon_processWheel_delta (s_lastCounter current : Nat) : Int :=
  let delta : Int := (current : Int) - (s_lastCounter : Int)
  if delta > 127 then delta - 256
  else if delta < -128 then delta + 256
  else delta

/-- What one timer tick reads from outside the daemon state: the two hardware registers,
`PeekQualifier()`, and the indeterminate values that the locals `hadWHActivity`,
`hadBTActivity`, `currentBTState`, `currentWHCounter` and `currentWHDelta` hold when
the tick never assigns them (the wheel block assigns the wheel locals only when the wheel
is enabled, the button block the button locals only when the buttons are enabled). -/
structure TickEnv where
  SAGA_WHEELCOUNTER : Nat
  SAGA_MOUSE_BUTTONS : Nat
  PeekQualifier : Nat
  hadWHActivity : Bool
  hadBTActivity : Bool
  currentBTState : Nat
  currentWHCounter : Nat
  currentWHDelta : Int
deriving DecidableEq, Repr

/-- The locals of the timer branch after sampling. -/
structure TickLocals where
  hadActivity : Bool
  hadWHActivity : Bool
  hadBTActivity : Bool
  currentBTState : Nat
  currentWHCounter : Nat
  currentWHDelta : Int
deriving DecidableEq, Repr

/-- The struct `InputEvent` as far as the daemon fills it (`ie_NextEvent` is always
`NULL`). -/
structure InputEvent where
  ie_Class : Nat
  ie_SubClass : Nat
  ie_Code : Nat
  ie_Qualifier : Nat
  ie_X : Int
  ie_Y : Int
  tv_secs : Nat
  tv_micro : Nat
deriving DecidableEq, Repr

/-! Constants of the system headers `devices/inputevent.h` and `newmouse.h`. -/

def IECLASS_RAWKEY : Nat := 0x01
def IECLASS_NEWMOUSE : Nat := 0x16
def IECODE_UP_PREFIX : Nat := 0x80
def NM_WHEEL_UP : Nat := 0x7A
def NM_WHEEL_DOWN : Nat := 0x7B
def NM_BUTTON_FOURTH : Nat := 0x7E
def NM_BUTTON_FIFTH : Nat := 0x7F

/-- The struct `XMouseMsg`: `command` is a `UBYTE`, `value` and `result` are `ULONG`s. -/
structure XMouseMsg where
  command : Nat
  value : Nat
  result : Nat
deriving DecidableEq, Repr

/-- The resources `daemon_Init` acquires. -/
inductive Res
  | dosLibrary
  | publicPort
  | portName
  | inputPort
  | inputReq
  | inputDevice
  | timerPort
  | timerReq
  | timerDevice
deriving DecidableEq, Repr

/-- What the daemon does to the outside. -/
inductive Effect
  | ReplyMsg (msg : XMouseMsg)
  | SendIO_timer (tv_secs tv_micro : Nat)
  | AbortIO_timer
  | WaitIO_timer
  | DoIO_input (ev : InputEvent)
  | acquire (r : Res)
  | release (r : Res)
deriving DecidableEq, Repr

/-- The handles of the daemon: `true` stands for a non-NULL pointer (for the two
devices: the request's `io_Device` is set). -/
structure Handles where
  DOSBase : Bool
  s_PublicPort : Bool
  s_InputPort : Bool
  s_InputReq : Bool
  inputDevice : Bool
  s_TimerPort : Bool
  s_TimerReq : Bool
  timerDevice : Bool
deriving DecidableEq, Repr

/-- The state of the daemon process: the globals of `xmoused.c`, the local `quit` of
`daemon()`, and the trace of effects so far. -/
structure Daemon where
  handles : Handles
  s_lastWHCounter : Nat
  s_lastWHDelta : Int
  s_lastBTState : Nat
  s_pollInterval : Nat
  s_configByte : Nat
  s_eventBuf : InputEvent
  adaptive : Adaptive
  quit : Bool
  trace : List Effect
deriving DecidableEq, Repr

/-- Appends one effect to the trace. -/
def Daemon.emit (d : Daemon) (e : Effect) : Daemon :=
  { d with trace := d.trace ++ [e] }

/-- The function `daemon_TimerStart(micros)`. -/
def daemon_TimerStart (micros : Nat) (d : Daemon) : Daemon :=
  d.emit (Effect.SendIO_timer (micros / 1000000) (micros % 1000000))

/-- The function `injectEvent(&s_eventBuf)`. -/
def injectEvent (d : Daemon) : Daemon :=
  d.emit (Effect.DoIO_input d.s_eventBuf)

/-- One iteration of the loop of `daemon_ProcessWheel`: a RAWKEY event, then a NEWMOUSE
event. -/
def wheelPair (d : Daemon) : Daemon :=
  let d1 := injectEvent { d with s_eventBuf := { d.s_eventBuf with ie_Class := IECLASS_RAWKEY } }
  injectEvent { d1 with s_eventBuf := { d1.s_eventBuf with ie_Class := IECLASS_NEWMOUSE } }

/-- The function `daemon_ProcessWheel(delta)`. -/
def daemon_ProcessWheel (delta : Int) (d : Daemon) : Daemon :=
  if delta = 0 then d
  else
    let code : Nat := if delta > 0 then NM_WHEEL_UP else NM_WHEEL_DOWN
    let count : Nat := (if delta > 0 then delta else -delta).toNat
    let d1 : Daemon := { d with s_eventBuf := { d.s_eventBuf with ie_Code := code } }
    Nat.iterate wheelPair count d1

/-- The two injections of one changed button in `daemon_ProcessButtons`. -/
def buttonPair (code : Nat) (d : Daemon) : Daemon :=
  let d0 : Daemon := { d with s_eventBuf := { d.s_eventBuf with ie_Code := code } }
  let d1 := injectEvent { d0 with s_eventBuf := { d0.s_eventBuf with ie_Class := IECLASS_RAWKEY } }
  injectEvent { d1 with s_eventBuf := { d1.s_eventBuf with ie_Class := IECLASS_NEWMOUSE } }

/-- The function `daemon_ProcessButtons(state)`. -/
def daemon_ProcessButtons (state : Nat) (d : Daemon) : Daemon :=
  let changed : Nat := state ^^^ d.s_lastBTState
  if changed ≠ 0 then
    let d4 : Daemon :=
      if changed &&& SAGA_BUTTON4_MASK ≠ 0 then
        buttonPair (NM_BUTTON_FOURTH ||| (if state &&& SAGA_BUTTON4_MASK ≠ 0 then 0 else IECODE_UP_PREFIX)) d
      else d
    if changed &&& SAGA_BUTTON5_MASK ≠ 0 then
      buttonPair (NM_BUTTON_FIFTH ||| (if state &&& SAGA_BUTTON5_MASK ≠ 0 then 0 else IECODE_UP_PREFIX)) d4
    else d4
  else d

/-- The sampling part of the timer branch of `daemon()`: the wheel block, the button
block and `hadActivity = hadWHActivity || hadBTActivity`. -/
def tickSample (env : TickEnv) (d : Daemon) : TickLocals :=
  let wh : Nat × Int × Bool :=
    if d.s_configByte &&& CONFIG_WHEEL_ENABLED ≠ 0 then
      let currentWHCounter := env.SAGA_WHEELCOUNTER % 256
      if d.s_lastWHCounter ≠ currentWHCounter then
        (currentWHCounter, wheelDelta d.s_lastWHCounter currentWHCounter, true)
      else
        (currentWHCounter, 0, decide (d.s_lastWHDelta ≠ 0))
    else (env.currentWHCounter % 256, env.currentWHDelta, env.hadWHActivity)
  let bt : Nat × Bool :=
    if d.s_configByte &&& CONFIG_BUTTONS_ENABLED ≠ 0 then
      let currentBTState :=
        (env.SAGA_MOUSE_BUTTONS % 65536) &&& (SAGA_BUTTON4_MASK ||| SAGA_BUTTON5_MASK)
      (currentBTState, decide (currentBTState ≠ d.s_lastBTState) || decide (currentBTState ≠ 0))
    else (env.currentBTState % 65536, env.hadBTActivity)
  { hadActivity := wh.2.2 || bt.2, hadWHActivity := wh.2.2, hadBTActivity := bt.2,
    currentBTState := bt.1, currentWHCounter := wh.1, currentWHDelta := wh.2.1 }

/-- The injection part of the timer branch of `daemon()`: when there was activity, the
event buffer is initialised (with `PeekQualifier()`), then `daemon_ProcessWheel` runs if
`hadWHActivity` and `daemon_ProcessButtons` runs if `hadBTActivity`. -/
def tickInject (env : TickEnv) (l : TickLocals) (d : Daemon) : Daemon :=
  if l.hadActivity then
    let d0 : Daemon :=
      { d with s_eventBuf :=
          { d.s_eventBuf with ie_SubClass := 0, ie_Qualifier := env.PeekQualifier,
                              ie_X := 0, ie_Y := 0, tv_secs := 0, tv_micro := 0 } }
    let dw := if l.hadWHActivity then daemon_ProcessWheel l.currentWHDelta d0 else d0
    if l.hadBTActivity then daemon_ProcessButtons l.currentBTState dw else dw
  else d

/-- The timer branch of `daemon()` (the body of `if (signals & timerSig)`): sampling,
injection, then the timer is restarted, in fixed mode with `s_pollInterval` as it is, in
adaptive mode with the result of `daemon_GetAdaptiveInterval(hadActivity)`, and last the
samples are stored. -/
def daemon_timerTick (env : TickEnv) (d : Daemon) : Daemon :=
  let l := tickSample env d
  let d1 := tickInject env l d
  -- update adaptive interval and restart timer
  let d2 : Daemon :=
    if d1.s_configByte &&& CONFIG_FIXED_MODE ≠ 0 then
      daemon_TimerStart d1.s_pollInterval d1
    else
      let r := daemon_GetAdaptiveInterval l.hadActivity d1.adaptive
      daemon_TimerStart r.1 { d1 with adaptive := r.2, s_pollInterval := r.1 }
  -- update last values
  { d2 with s_lastWHCounter := l.currentWHCounter, s_lastWHDelta := l.currentWHDelta,
            s_lastBTState := l.currentBTState }

/-! ## The message branch -/

/-- The `case XMSG_CMD_SET_CONFIG` of the message switch of `daemon()` up to its `break`:
the new configuration byte is stored, and when the profile index or the fixed/adaptive
bit changed the adaptive system is reinitialised and the timer restarted. -/
def daemon_setConfig (RELEASE : Bool) (value : Nat) (d : Daemon) : Daemon :=
  let oldConfig := d.s_configByte
  let newConfig0 := value % 256
  let oldInterval := (oldConfig &&& CONFIG_INTERVAL_MASK) >>> CONFIG_INTERVAL_SHIFT
  let newInterval := (newConfig0 &&& CONFIG_INTERVAL_MASK) >>> CONFIG_INTERVAL_SHIFT
  -- RELEASE builds force the debug bit to 0
  let newConfig := if RELEASE then newConfig0 &&& (255 - CONFIG_DEBUG_MODE) else newConfig0
  let d1 : Daemon := { d with s_configByte := newConfig }
  if oldInterval ≠ newInterval ∨ (oldConfig ^^^ newConfig) &&& CONFIG_FIXED_MODE ≠ 0 then
    let modeIndex := (newConfig &&& CONFIG_INTERVAL_MASK) >>> CONFIG_INTERVAL_SHIFT
    let mode := modeAt (modeIndex % 4)
    let d2 : Daemon :=
      if newConfig &&& CONFIG_FIXED_MODE ≠ 0 then
        -- normal mode: use burstUs
        { d1 with adaptive := { s_activeMode := mode,
                                s_adaptiveState := d1.adaptive.s_adaptiveState,
                                s_adaptiveInterval := mode.burstUs,
                                s_adaptiveInactive := 0 },
                  s_pollInterval := mode.burstUs }
      else
        -- adaptive mode: start from idle
        { d1 with adaptive := { s_activeMode := mode,
                                s_adaptiveState := POLL_STATE_IDLE,
                                s_adaptiveInterval := mode.idleUs,
                                s_adaptiveInactive := 0 },
                  s_pollInterval := mode.idleUs }
    -- restart timer with new interval
    daemon_TimerStart d2.s_pollInterval
      ((d2.emit Effect.AbortIO_timer).emit Effect.WaitIO_timer)
  else d1

/-- The body of the `while ((msg = GetMsg(s_PublicPort)))` loop of `daemon()` for one
message: the `switch (msg->command)` and the `ReplyMsg`. -/
def daemon_handleMessage (RELEASE : Bool) (msg : XMouseMsg) (d : Daemon) : Daemon :=
  if msg.command = XMSG_CMD_QUIT then
    ({ d with quit := true }).emit (Effect.ReplyMsg { msg with result := 0 })
  else if msg.command = XMSG_CMD_SET_CONFIG then
    (daemon_setConfig RELEASE msg.value d).emit (Effect.ReplyMsg { msg with result := 0 })
  else if msg.command = XMSG_CMD_GET_STATUS then
    d.emit (Effect.ReplyMsg { msg with result := d.s_configByte })
  else
    d.emit (Effect.ReplyMsg { msg with result := 0xFFFFFFFF })

/-- The message loop of one wake-up: every pending message, in arrival order. -/
def daemon_drainMessages (RELEASE : Bool) (msgs : List XMouseMsg) (d : Daemon) : Daemon :=
  msgs.foldl (fun acc m => daemon_handleMessage RELEASE m acc) d

/-- One wake-up of the daemon: the signals `Wait` returned, the messages pending on the
public port, and what a tick would read. -/
structure Wake where
  ctrlC : Bool
  portSig : Bool
  timerSig : Bool
  msgs : List XMouseMsg
  env : TickEnv
deriving DecidableEq, Repr

/-- One iteration of the `for (;;)` loop of `daemon()`: the state after it and whether
the loop was left by `break`. -/
def daemon_loopBody (RELEASE : Bool) (w : Wake) (d : Daemon) : Daemon × Bool :=
  if w.ctrlC then (d, true)
  else
    let d1 := if w.portSig then daemon_drainMessages RELEASE w.msgs d else d
    if w.portSig && d1.quit then (d1, true)
    else
      let d2 := if w.timerSig then daemon_timerTick w.env d1 else d1
      (d2, false)

/-! ## Start-up of the daemon -/

/-- What `daemon_Init` gets from the system: whether each acquisition succeeds, and the
two hardware registers as read at start-up. -/
structure InitEnv where
  OpenLibrary_dos : Bool
  CreateMsgPort_public : Bool
  CreateMsgPort_input : Bool
  CreateIORequest_input : Bool
  OpenDevice_input : Bool
  CreateMsgPort_timer : Bool
  CreateIORequest_timer : Bool
  OpenDevice_timer : Bool
  SAGA_MOUSE_BUTTONS : Nat
  SAGA_WHEELCOUNTER : Nat
deriving DecidableEq, Repr

/-- The last part of `daemon_Init`, reached when every resource has been acquired: the
hardware samples, the default configuration for a zero byte, and the adaptive polling
system. -/
def daemon_InitState (env : InitEnv) (d : Daemon) : Daemon :=
  -- ensure config byte is set
  let configByte := if d.s_configByte = 0 then DEFAULT_CONFIG_BYTE else d.s_configByte
  let d1 : Daemon :=
    { d with s_lastBTState :=
               (env.SAGA_MOUSE_BUTTONS % 65536) &&& (SAGA_BUTTON4_MASK ||| SAGA_BUTTON5_MASK),
             s_lastWHCounter := env.SAGA_WHEELCOUNTER % 256,
             s_lastWHDelta := 0,
             s_configByte := configByte }
  -- initialize adaptive polling system
  let modeIndex := ((configByte &&& CONFIG_INTERVAL_MASK) >>> CONFIG_INTERVAL_SHIFT) % 4
  let mode := modeAt modeIndex
  if configByte &&& CONFIG_FIXED_MODE ≠ 0 then
    { d1 with adaptive := { s_activeMode := mode, s_adaptiveState := POLL_STATE_IDLE,
                            s_adaptiveInterval := mode.burstUs, s_adaptiveInactive := 0 },
              s_pollInterval := mode.burstUs }
  else
    { d1 with adaptive := { s_activeMode := mode, s_adaptiveState := POLL_STATE_IDLE,
                            s_adaptiveInterval := mode.idleUs, s_adaptiveInactive := 0 },
              s_pollInterval := mode.idleUs }

/-- The acquisitions of `daemon_Init`, in source order, up to the first one that fails:
whether all succeeded, the handles afterwards, and the acquisitions and releases made.
A failing `CreateIORequest` or `OpenDevice` releases, inside `daemon_Init`, the port (and
request) of the same device and resets their pointers; a failing `CreateMsgPort` or
`OpenLibrary` only stores `NULL`. -/
def daemon_InitResources (env : InitEnv) (h : Handles) : Bool × Handles × List Effect :=
  if !env.OpenLibrary_dos then
    (false, { h with DOSBase := false }, [])
  else if !env.CreateMsgPort_public then
    (false, { h with DOSBase := true, s_PublicPort := false },
     [Effect.acquire Res.dosLibrary])
  else if !env.CreateMsgPort_input then
    (false, { h with DOSBase := true, s_PublicPort := true, s_InputPort := false },
     [Effect.acquire Res.dosLibrary, Effect.acquire Res.publicPort, Effect.acquire Res.portName])
  else if !env.CreateIORequest_input then
    (false, { h with DOSBase := true, s_PublicPort := true, s_InputPort := false,
                     s_InputReq := false },
     [Effect.acquire Res.dosLibrary, Effect.acquire Res.publicPort, Effect.acquire Res.portName,
      Effect.acquire Res.inputPort, Effect.release Res.inputPort])
  else if !env.OpenDevice_input then
    (false, { h with DOSBase := true, s_PublicPort := true, s_InputPort := false,
                     s_InputReq := false },
     [Effect.acquire Res.dosLibrary, Effect.acquire Res.publicPort, Effect.acquire Res.portName,
      Effect.acquire Res.inputPort, Effect.acquire Res.inputReq,
      Effect.release Res.inputReq, Effect.release Res.inputPort])
  else if !env.CreateMsgPort_timer then
    (false, { h with DOSBase := true, s_PublicPort := true, s_InputPort := true,
                     s_InputReq := true, inputDevice := true, s_TimerPort := false },
     [Effect.acquire Res.dosLibrary, Effect.acquire Res.publicPort, Effect.acquire Res.portName,
      Effect.acquire Res.inputPort, Effect.acquire Res.inputReq, Effect.acquire Res.inputDevice])
  else if !env.CreateIORequest_timer then
    (false, { h with DOSBase := true, s_PublicPort := true, s_InputPort := true,
                     s_InputReq := true, inputDevice := true, s_TimerPort := false,
                     s_TimerReq := false },
     [Effect.acquire Res.dosLibrary, Effect.acquire Res.publicPort, Effect.acquire Res.portName,
      Effect.acquire Res.inputPort, Effect.acquire Res.inputReq, Effect.acquire Res.inputDevice,
      Effect.acquire Res.timerPort, Effect.release Res.timerPort])
  else if !env.OpenDevice_timer then
    (false, { h with DOSBase := true, s_PublicPort := true, s_InputPort := true,
                     s_InputReq := true, inputDevice := true, s_TimerPort := false,
                     s_TimerReq := false },
     [Effect.acquire Res.dosLibrary, Effect.acquire Res.publicPort, Effect.acquire Res.portName,
      Effect.acquire Res.inputPort, Effect.acquire Res.inputReq, Effect.acquire Res.inputDevice,
      Effect.acquire Res.timerPort, Effect.acquire Res.timerReq,
      Effect.release Res.timerReq, Effect.release Res.timerPort])
  else
    (true, { DOSBase := true, s_PublicPort := true, s_InputPort := true, s_InputReq := true,
             inputDevice := true, s_TimerPort := true, s_TimerReq := true, timerDevice := true },
     [Effect.acquire Res.dosLibrary, Effect.acquire Res.publicPort, Effect.acquire Res.portName,
      Effect.acquire Res.inputPort, Effect.acquire Res.inputReq, Effect.acquire Res.inputDevice,
      Effect.acquire Res.timerPort, Effect.acquire Res.timerReq, Effect.acquire Res.timerDevice])

/-- The function `daemon_Init()`: its return value and the state it leaves.  It returns
`FALSE` at the first acquisition that fails, before touching any other global. -/
def daemon_Init (env : InitEnv) (d : Daemon) : Bool × Daemon :=
  let r := daemon_InitResources env d.handles
  let d1 : Daemon := { d with handles := r.2.1, trace := d.trace ++ r.2.2 }
  if r.1 then (true, daemon_InitState env d1) else (false, d1)

/-- The state of a freshly loaded program image before `daemon()` runs: every static of
`xmoused.c` has its initialiser (zero, `NULL`, `POLL_STATE_IDLE`), except
`s_configByte`, which the starting client has set.  The pointer `s_activeMode` is `NULL`
and is not read before `daemon_Init` assigns it; the record holds table entry 0 there. -/
def loaded (s_configByte : Nat) : Daemon :=
  { handles := { DOSBase := false, s_PublicPort := false, s_InputPort := false,
                 s_InputReq := false, inputDevice := false, s_TimerPort := false,
                 s_TimerReq := false, timerDevice := false },
    s_lastWHCounter := 0, s_lastWHDelta := 0, s_lastBTState := 0, s_pollInterval := 0,
    s_configByte := s_configByte,
    s_eventBuf := { ie_Class := 0, ie_SubClass := 0, ie_Code := 0, ie_Qualifier := 0,
                    ie_X := 0, ie_Y := 0, tv_secs := 0, tv_micro := 0 },
    adaptive := { s_activeMode := modeAt 0, s_adaptiveState := POLL_STATE_IDLE,
                  s_adaptiveInterval := 0, s_adaptiveInactive := 0 },
    quit := false, trace := [] }

/-- One event of the running daemon: a control message taken from the public port, or a
timer tick. -/
inductive DaemonInput
  | message (msg : XMouseMsg)
  | tick (env : TickEnv)
deriving DecidableEq, Repr

/-- The daemon state after one event. -/
def daemon_step (RELEASE : Bool) (d : Daemon) : DaemonInput → Daemon
  | DaemonInput.message msg => daemon_handleMessage RELEASE msg d
  | DaemonInput.tick env => daemon_timerTick env d

/-- The daemon state after a sequence of events, in order. -/
def daemon_run (RELEASE : Bool) (d : Daemon) (inputs : List DaemonInput) : Daemon :=
  inputs.foldl (daemon_step RELEASE) d

/-- The running daemon: the state after `daemon_Init` from state `d0` (taken to have
succeeded), the first `daemon_TimerStart(s_pollInterval)` of `daemon()`, and a sequence
of events. -/
def running (RELEASE : Bool) (ienv : InitEnv) (d0 : Daemon) (inputs : List DaemonInput) : Daemon :=
  daemon_run RELEASE
    (daemon_TimerStart (daemon_Init ienv d0).2.s_pollInterval (daemon_Init ienv d0).2) inputs

/-- A start-up environment in which every acquisition succeeds and both hardware
registers read 0. -/
def initOk : InitEnv :=
  { OpenLibrary_dos := true, CreateMsgPort_public := true, CreateMsgPort_input := true,
    CreateIORequest_input := true, OpenDevice_input := true, CreateMsgPort_timer := true,
    CreateIORequest_timer := true, OpenDevice_timer := true,
    SAGA_MOUSE_BUTTONS := 0, SAGA_WHEELCOUNTER := 0 }

/-- A tick environment in which both hardware registers read 0 and nothing is
indeterminate in a harmful way: the unassigned locals hold 0 and `FALSE`. -/
def tickQuiet : TickEnv :=
  { SAGA_WHEELCOUNTER := 0, SAGA_MOUSE_BUTTONS := 0, PeekQualifier := 0,
    hadWHActivity := false, hadBTActivity := false, currentBTState := 0,
    currentWHCounter := 0, currentWHDelta := 0 }

/-- State `d1` differs from `d` at most in the event buffer and by input events
injected, i.e. appended to the trace. -/
def InjectsOnly (d d1 : Daemon) : Prop :=
  ∃ evs : List InputEvent,
    d1 = { d with s_eventBuf := d1.s_eventBuf, trace := d.trace ++ evs.map Effect.DoIO_input }

/-- The timer requests sent in a trace (`SendIO` of `s_TimerReq`), in order, each by
its delay in microseconds. -/
def timerArms : List Effect → List Nat
  | [] => []
  | Effect.SendIO_timer tv_secs tv_micro :: t => (tv_secs * 1000000 + tv_micro) :: timerArms t
  | _ :: t => timerArms t

/-- The control messages replied in a trace (`ReplyMsg`), in order, each as it was
replied. -/
def repliedMsgs : List Effect → List XMouseMsg
  | [] => []
  | Effect.ReplyMsg msg :: t => msg :: repliedMsgs t
  | _ :: t => repliedMsgs t

/-- The input events injected in a trace (`DoIO` of `s_InputReq`), in order. -/
def injectedEvents : List Effect → List InputEvent
  | [] => []
  | Effect.DoIO_input ev :: t => ev :: injectedEvents t
  | _ :: t => injectedEvents t

/-- Whether a sequence of effects sends the timer request while it is in flight.  The
flag says whether the request is in flight before the first effect; a `SendIO` puts it
in flight, a `WaitIO` returns once it is no longer in flight. -/
def armsWhileInFlight : Bool → List Effect → Bool
  | _, [] => false
  | inFlight, Effect.SendIO_timer _ _ :: t => inFlight || armsWhileInFlight true t
  | _, Effect.WaitIO_timer :: t => armsWhileInFlight false t
  | inFlight, _ :: t => armsWhileInFlight inFlight t

/-- The profile index in bits 4-5 of a configuration byte, as the source computes it. -/
def modeIndexOf (configByte : Nat) : Nat :=
  ((configByte &&& CONFIG_INTERVAL_MASK) >>> CONFIG_INTERVAL_SHIFT) % 4

/-- The invariant that ties the poll interval and the active profile to the configuration
byte: the active profile is the table entry of bits 4-5; in fixed mode the poll interval
is its `burstUs`, in adaptive mode it is the scheduler's current interval. -/
def ModeInv (d : Daemon) : Prop :=
  d.adaptive.s_activeMode = modeAt (modeIndexOf d.s_configByte)
  ∧ (d.s_configByte &&& CONFIG_FIXED_MODE ≠ 0 →
       d.s_pollInterval = (modeAt (modeIndexOf d.s_configByte)).burstUs)
  ∧ (d.s_configByte &&& CONFIG_FIXED_MODE = 0 →
       d.s_pollInterval = d.adaptive.s_adaptiveInterval)

/-- The character value of a hexadecimal digit (`0-9`, `A-F`, `a-f`), as the text of the
claims reads a digit; defined apart from `parseHexDigit`. -/
def hexValue (c : Nat) : Nat :=
  if c ≤ 57 then c - 48 else if c ≤ 70 then c - 55 else c - 87

/-- The characters that are hexadecimal digits, in either case. -/
def isHexDigit (c : Nat) : Prop :=
  (48 ≤ c ∧ c ≤ 57) ∨ (65 ≤ c ∧ c ≤ 70) ∨ (97 ≤ c ∧ c ≤ 102)

/-! ## The client: `parseHexDigit`, `parseArguments`, `_start` -/

/-- The function `parseHexDigit(c)`. -/
def parseHexDigit (c : Nat) : Int :=
  if 48 ≤ c ∧ c ≤ 57 then (c : Int) - 48
  else if 65 ≤ c ∧ c ≤ 70 then (c : Int) - 65 + 10
  else if 97 ≤ c ∧ c ≤ 102 then (c : Int) - 97 + 10
  else -1

/-- What the client does to the outside. -/
inductive ClientEffect
  | Print (text : String)
  | PrintF (text : String) (arg : Nat)
  | PrintUnknownArgument (args : List Nat)
  | sendDaemonMessage (cmd value : Nat)
  | CreateNewProcTags (started : Bool)
deriving DecidableEq, Repr

def MSG_DAEMON_NOT_RUNNING : String := "daemon is not running"
def MSG_DAEMON_RUNNING : String := "daemon running (config: 0x%02lx)"
def MSG_DAEMON_STOPPED : String := "daemon stopped"
def MSG_DAEMON_START_FAILED : String := "failed to start daemon"
def MSG_CONFIG_UPDATED : String := "config updated to 0x%02lx"
def MSG_ERR_GET_STATUS_FAILED : String := "ERROR: Failed to get daemon status"
def MSG_ERR_UPDATE_CONFIG : String := "ERROR: Failed to update daemon config"
def MSG_ERR_STOP_DAEMON : String := "ERROR: Failed to stop daemon"

/-! Constants of the system header `dos/dos.h`. -/

def RETURN_OK : Nat := 0
def RETURN_WARN : Nat := 5
def RETURN_FAIL : Nat := 20

/-- The character `p[k]` of a C string given by its characters before the terminating
NUL. -/
def charAt (p : List Nat) (k : Nat) : Nat := p.getD k 0

/-- The function `parseArguments()`: the start mode it returns, the value of
`s_configByte` after the call, and what it printed.  The argument string `args` is the
result of `GetArgStr()`, as the list of its character codes. -/
def parseArguments (RELEASE : Bool) (args : List Nat) (s_configByte : Nat) :
    Nat × Nat × List ClientEffect :=
  -- skip leading spaces
  let p := args.dropWhile (fun c => c == 32 || c == 9)
  if charAt p 0 = 0 ∨ charAt p 0 = 10 then
    (START_MODE_TOGGLE, DEFAULT_CONFIG_BYTE, [])
  else if charAt p 0 ||| 32 = 115 ∧ charAt p 1 ||| 32 = 116 ∧ charAt p 2 ||| 32 = 111
      ∧ charAt p 3 ||| 32 = 112 then
    (START_MODE_STOP, s_configByte, [])
  else if (charAt p 0 ||| 32 = 115 ∧ charAt p 1 ||| 32 = 116 ∧ charAt p 2 ||| 32 = 97
      ∧ charAt p 3 ||| 32 = 114 ∧ charAt p 4 ||| 32 = 116)
      ∧ (charAt p 5 = 0 ∨ charAt p 5 = 32 ∨ charAt p 5 = 9 ∨ charAt p 5 = 10) then
    (START_MODE_START, DEFAULT_CONFIG_BYTE, [])
  else if charAt p 0 ||| 32 = 115 ∧ charAt p 1 ||| 32 = 116 ∧ charAt p 2 ||| 32 = 97
      ∧ charAt p 3 ||| 32 = 116 ∧ charAt p 4 ||| 32 = 117 ∧ charAt p 5 ||| 32 = 115 then
    (START_MODE_STATUS, s_configByte, [])
  else
    let hi := parseHexDigit (charAt p 2)
    let lo := parseHexDigit (charAt p 3)
    if (charAt p 0 = 48 ∧ (charAt p 1 = 120 ∨ charAt p 1 = 88)) ∧ (hi ≥ 0 ∧ lo ≥ 0) then
      let configByte0 := ((hi.toNat <<< 4) ||| lo.toNat) % 256
      let configByte := if RELEASE then configByte0 &&& (255 - CONFIG_DEBUG_MODE) else configByte0
      if configByte &&& CONFIG_FEATURES_MASK = 0 then
        (START_MODE_STOP, s_configByte, [])
      else
        (START_MODE_CONFIG, configByte, [])
    else
      (START_MODE_TOGGLE, s_configByte, [ClientEffect.PrintUnknownArgument args])

/-- What `_start` gets from the system: whether `dos.library` opens, the argument
string, whether `FindPort(DAEMON_PORT_NAME)` finds a port, the value a call of
`sendDaemonMessage` returns for a command and a value, and whether `CreateNewProcTags`
creates the daemon process. -/
structure StartEnv where
  OpenLibrary_dos : Bool
  args : List Nat
  FindPort : Bool
  sendDaemonMessage : Nat → Nat → Nat
  CreateNewProcTags : Bool

/-- The function `_start()`: the exit code, the value of `s_configByte` at the end, and
what it did, in order. -/
def _start (RELEASE : Bool) (env : StartEnv) (s_configByte : Nat) :
    Nat × Nat × List ClientEffect :=
  if !env.OpenLibrary_dos then (RETURN_FAIL, s_configByte, [])
  else
    let r := parseArguments RELEASE env.args s_configByte
    let startMode := r.1
    let cfg := r.2.1
    let eff := r.2.2
    let existingPort := env.FindPort
    if startMode = START_MODE_STOP ∧ existingPort = false then
      (RETURN_OK, cfg, eff ++ [ClientEffect.Print MSG_DAEMON_NOT_RUNNING])
    else if startMode = START_MODE_STATUS ∨ (startMode = START_MODE_START ∧ existingPort = true) then
      if existingPort = false then
        (RETURN_WARN, cfg, eff ++ [ClientEffect.Print MSG_DAEMON_NOT_RUNNING])
      else
        let status := env.sendDaemonMessage XMSG_CMD_GET_STATUS 0
        let eff1 := eff ++ [ClientEffect.sendDaemonMessage XMSG_CMD_GET_STATUS 0]
        if status ≠ 0xFFFFFFFF then
          (RETURN_OK, cfg, eff1 ++ [ClientEffect.PrintF MSG_DAEMON_RUNNING status])
        else
          (RETURN_FAIL, cfg, eff1 ++ [ClientEffect.Print MSG_ERR_GET_STATUS_FAILED])
    else if startMode = START_MODE_CONFIG ∧ existingPort = true then
      let result := env.sendDaemonMessage XMSG_CMD_SET_CONFIG cfg
      let eff1 := eff ++ [ClientEffect.sendDaemonMessage XMSG_CMD_SET_CONFIG cfg]
      if result = 0 then
        (RETURN_OK, cfg, eff1 ++ [ClientEffect.PrintF MSG_CONFIG_UPDATED cfg])
      else
        (RETURN_FAIL, cfg, eff1 ++ [ClientEffect.Print MSG_ERR_UPDATE_CONFIG])
    else if (startMode = START_MODE_STOP ∨ startMode = START_MODE_TOGGLE) ∧ existingPort = true then
      let result := env.sendDaemonMessage XMSG_CMD_QUIT 0
      let eff1 := eff ++ [ClientEffect.sendDaemonMessage XMSG_CMD_QUIT 0]
      if result = 0 then
        (RETURN_OK, cfg, eff1 ++ [ClientEffect.Print MSG_DAEMON_STOPPED])
      else
        (RETURN_FAIL, cfg, eff1 ++ [ClientEffect.Print MSG_ERR_STOP_DAEMON])
    else if env.CreateNewProcTags then
      (RETURN_OK, cfg, eff ++ [ClientEffect.CreateNewProcTags true,
                               ClientEffect.PrintF MSG_DAEMON_RUNNING cfg])
    else
      (RETURN_FAIL, cfg, eff ++ [ClientEffect.CreateNewProcTags false,
                                 ClientEffect.Print MSG_DAEMON_START_FAILED])

/-- The wheel deltas that consecutive timer ticks compute (`currentWHDelta`), one per
tick, in order; each tick runs on the state the tick before left. -/
def tickDeltas (d : Daemon) : List TickEnv → List Int
  | [] => []
  | env :: envs => (tickSample env d).currentWHDelta :: tickDeltas (daemon_timerTick env d) envs

/-- The wheel counter moves by `m` steps between two ticks, with fewer than 128 steps in
either direction, for each `m` of the list in turn: the register read by each tick is
the reading before it plus `m`, modulo 256. -/
def wheelMoves (reading : Nat) : List Int → List TickEnv → Bool
  | [], [] => true
  | m :: ms, env :: envs =>
      decide (-128 < m) && decide (m < 128)
        && decide (((env.SAGA_WHEELCOUNTER % 256 : Nat) : Int) = ((reading : Int) + m) % 256)
        && wheelMoves (env.SAGA_WHEELCOUNTER % 256) ms envs
  | _, _ => false

/-- The step of spec section 4.1 over the unbounded numbers (`specStep`), once per
activity flag of the list, in order, on the triple state, interval, accumulator. -/
def specRun (p : AdaptiveMode) (s : Nat × Nat × Nat) : List Bool → Nat × Nat × Nat
  | [] => s
  | f :: fs => specRun p (specStep p f s.1 s.2.1 s.2.2) fs

/-- The code agrees with the unbounded step: same state and interval, the accumulator
equal modulo `2^32`, and equal outright when the state reached is not IDLE. -/
def AgreesWith (a : Adaptive) (s : Nat × Nat × Nat) : Prop :=
  a.s_adaptiveState = s.1 ∧ a.s_adaptiveInterval = s.2.1
  ∧ a.s_adaptiveInactive = s.2.2 % ULONG_RANGE
  ∧ (a.s_adaptiveState ≠ POLL_STATE_IDLE → a.s_adaptiveInactive = s.2.2)

/-! ## The older variant `xmouse.c`: profile table and scheduler -/

/-- The C struct `AdaptiveMode` of `xmouse.c`. -/
structure xmouse_AdaptiveMode where
  dynamicName : String
  fixedName : String
  idleUs : Nat
  activeUs : Nat
  burstUs : Nat
  stepDecUs : Nat
  stepIncUs : Nat
  activeThreshold : Nat
  idleThreshold : Nat
deriving DecidableEq, Repr

/-- The table `s_adaptiveModes` of `xmouse.c`. -/
def xmouse_s_adaptiveModes : List xmouse_AdaptiveMode :=
  [ { dynamicName := "COMFORT", fixedName := "MODERATE", idleUs := 150000, activeUs := 60000,
      burstUs := 20000, stepDecUs := 1100, stepIncUs := 15000,
      activeThreshold := 500000, idleThreshold := 500000 },
    { dynamicName := "BALANCED", fixedName := "ACTIVE", idleUs := 100000, activeUs := 30000,
      burstUs := 10000, stepDecUs := 600, stepIncUs := 1200,
      activeThreshold := 500000, idleThreshold := 1500000 },
    { dynamicName := "REACTIVE", fixedName := "INTENSIVE", idleUs := 50000, activeUs := 15000,
      burstUs := 5000, stepDecUs := 500, stepIncUs := 250,
      activeThreshold := 500000, idleThreshold := 3000000 },
    { dynamicName := "ECO", fixedName := "PASSIVE", idleUs := 200000, activeUs := 80000,
      burstUs := 40000, stepDecUs := 2000, stepIncUs := 4000,
      activeThreshold := 500000, idleThreshold := 1500000 } ]

/-- The entry `s_adaptiveModes[i]` of `xmouse.c` for an index reduced to `0..3`. -/
def xmouse_modeAt (i : Nat) : xmouse_AdaptiveMode :=
  match i with
  | 0 => xmouse_s_adaptiveModes.get ⟨0, by decide⟩
  | 1 => xmouse_s_adaptiveModes.get ⟨1, by decide⟩
  | 2 => xmouse_s_adaptiveModes.get ⟨2, by decide⟩
  | _ => xmouse_s_adaptiveModes.get ⟨3, by decide⟩

/-- The adaptive state variables of `xmouse.c`: `s_activeMode`, `s_adaptiveState`,
`s_adaptiveInterval` and `s_adaptiveInactive`. -/
structure xmouse_Adaptive where
  s_activeMode : xmouse_AdaptiveMode
  s_adaptiveState : Nat
  s_adaptiveInterval : Nat
  s_adaptiveInactive : Nat
deriving DecidableEq, Repr

/-- The function `getAdaptiveInterval(hadActivity)` of `xmouse.c`: the returned interval
and the adaptive state variables after the call. -/
def getAdaptiveInterval (hadActivity : Bool) (a : xmouse_Adaptive) : Nat × xmouse_Adaptive :=
  let mode := a.s_activeMode
  -- accumulate inactive time by adding current poll interval
  let inactive :=
    if hadActivity then 0 else (a.s_adaptiveInactive + a.s_adaptiveInterval) % ULONG_RANGE
  -- state machine
  let r : Nat × Nat :=
    if a.s_adaptiveState = POLL_STATE_IDLE then
      if hadActivity then (POLL_STATE_ACTIVE, mode.activeUs)
      else (a.s_adaptiveState, a.s_adaptiveInterval)
    else if a.s_adaptiveState = POLL_STATE_ACTIVE then
      if hadActivity then
        let iv :=
          if a.s_adaptiveInterval > mode.burstUs then
            (if a.s_adaptiveInterval > mode.stepDecUs then a.s_adaptiveInterval - mode.stepDecUs
             else mode.burstUs)
          else a.s_adaptiveInterval
        if iv ≤ mode.burstUs then (POLL_STATE_BURST, mode.burstUs)
        else (a.s_adaptiveState, iv)
      else
        if inactive ≥ mode.activeThreshold then (POLL_STATE_TO_IDLE, a.s_adaptiveInterval)
        else (a.s_adaptiveState, a.s_adaptiveInterval)
    else if a.s_adaptiveState = POLL_STATE_BURST then
      if !hadActivity then
        if inactive ≥ mode.idleThreshold then (POLL_STATE_TO_IDLE, a.s_adaptiveInterval)
        else (a.s_adaptiveState, a.s_adaptiveInterval)
      else (a.s_adaptiveState, a.s_adaptiveInterval)
    else if a.s_adaptiveState = POLL_STATE_TO_IDLE then
      if hadActivity then
        (POLL_STATE_ACTIVE,
         if a.s_adaptiveInterval > mode.activeUs then mode.activeUs else a.s_adaptiveInterval)
      else
        let iv :=
          if a.s_adaptiveInterval < mode.idleUs then
            (if (a.s_adaptiveInterval + mode.stepIncUs) % ULONG_RANGE > mode.idleUs
             then mode.idleUs
             else (a.s_adaptiveInterval + mode.stepIncUs) % ULONG_RANGE)
          else a.s_adaptiveInterval
        if iv ≥ mode.idleUs then (POLL_STATE_IDLE, mode.idleUs)
        else (a.s_adaptiveState, iv)
    else (a.s_adaptiveState, a.s_adaptiveInterval)
  (r.2, { s_activeMode := mode, s_adaptiveState := r.1, s_adaptiveInterval := r.2,
          s_adaptiveInactive := inactive })

/-- The timing constants of a profile of `xmouse.c` and of a profile of `xmoused.c` are
the same. -/
def SameTiming (pm : xmouse_AdaptiveMode) (m : AdaptiveMode) : Prop :=
  pm.idleUs = m.idleUs ∧ pm.activeUs = m.activeUs ∧ pm.burstUs = m.burstUs
  ∧ pm.stepDecUs = m.stepDecUs ∧ pm.stepIncUs = m.stepIncUs
  ∧ pm.activeThreshold = m.activeThreshold ∧ pm.idleThreshold = m.idleThreshold

/-! ## Teardown and the top level of `daemon()` -/

/-- The effects of `daemon_Cleanup()` for given handles, in source order: the timer
(request aborted and awaited when `CheckIO` finds it still in progress, device closed,
request deleted, port deleted), the input device, the public port (`RemPort`, then
`DeleteMsgPort`), `dos.library`.  Each step is taken only for a non-NULL pointer. -/
def daemon_CleanupEffects (CheckIO_inProgress : Bool) (h : Handles) : List Effect :=
  (if h.s_TimerReq then
     (if h.timerDevice then
        (if CheckIO_inProgress then [Effect.AbortIO_timer, Effect.WaitIO_timer] else [])
          ++ [Effect.release Res.timerDevice]
      else [])
       ++ [Effect.release Res.timerReq]
   else [])
  ++ (if h.s_TimerPort then [Effect.release Res.timerPort] else [])
  ++ (if h.s_InputReq then
        (if h.inputDevice then [Effect.release Res.inputDevice] else [])
          ++ [Effect.release Res.inputReq]
      else [])
  ++ (if h.s_InputPort then [Effect.release Res.inputPort] else [])
  ++ (if h.s_PublicPort then [Effect.release Res.portName, Effect.release Res.publicPort]
      else [])
  ++ (if h.DOSBase then [Effect.release Res.dosLibrary] else [])

/-- The function `daemon_Cleanup()`. -/
def daemon_Cleanup (CheckIO_inProgress : Bool) (d : Daemon) : Daemon :=
  { d with trace := d.trace ++ daemon_CleanupEffects CheckIO_inProgress d.handles }

/-- The `for (;;)` loop of `daemon()` over the wake-ups that occur, in order: the state
when the loop is left by `break`, or the state reached when the list is used up and the
daemon waits on. -/
def daemon_loop (RELEASE : Bool) : List Wake → Daemon → Daemon × Bool
  | [], d => (d, false)
  | w :: ws, d =>
      if (daemon_loopBody RELEASE w d).2 then ((daemon_loopBody RELEASE w d).1, true)
      else daemon_loop RELEASE ws (daemon_loopBody RELEASE w d).1

/-- The function `daemon()`: `daemon_Init`, on success the first
`daemon_TimerStart(s_pollInterval)` and the loop, and `daemon_Cleanup` once the loop is
left or at once when `daemon_Init` failed.  The result is the final state and whether
`daemon()` has returned. -/
def daemon (RELEASE : Bool) (env : InitEnv) (wakes : List Wake) (CheckIO_inProgress : Bool)
    (d : Daemon) : Daemon × Bool :=
  if (daemon_Init env d).1 then
    let l := daemon_loop RELEASE wakes
      (daemon_TimerStart (daemon_Init env d).2.s_pollInterval (daemon_Init env d).2)
    if l.2 then (daemon_Cleanup CheckIO_inProgress l.1, true) else (l.1, false)
  else (daemon_Cleanup CheckIO_inProgress (daemon_Init env d).2, true)

/-- The resources held after a sequence of effects, starting from the list `held`;
`none` when a resource is acquired while held or released while not held. -/
def heldAfter : List Res → List Effect → Option (List Res)
  | held, [] => some held
  | held, Effect.acquire r :: t => if r ∈ held then none else heldAfter (r :: held) t
  | held, Effect.release r :: t => if r ∈ held then heldAfter (held.erase r) t else none
  | held, _ :: t => heldAfter held t

/-- Whether every effect of a list is an acquisition or a release of a resource (so
none is a timer request, a reply or an injected event). -/
def onlyResourceEffects (effects : List Effect) : Bool :=
  effects.all (fun e =>
    match e with
    | Effect.acquire _ => true
    | Effect.release _ => true
    | _ => false)

/-! ## The client: `sendDaemonMessage` -/

def DAEMON_REPLY_TIMEOUT : Nat := 2

def MSG_ERR_DAEMON_TIMEOUT : String := "ERROR: Daemon not responding (timeout)"

/-- The resources `sendDaemonMessage` creates. -/
inductive SendRes
  | replyPort
  | timerPort
  | timerReq
  | timerDevice
  | msg
deriving DecidableEq, Repr

/-- What `sendDaemonMessage` does to the outside. -/
inductive SendEffect
  | acquire (r : SendRes)
  | release (r : SendRes)
  | PutMsg (command value : Nat)
  | SendIO_timer (tv_secs tv_micro : Nat)
  | Wait
  | GetMsg_replyPort
  | GetMsg_timerPort
  | AbortIO_timer
  | WaitIO_timer
  | Print (text : String)
deriving DecidableEq, Repr

/-- What `sendDaemonMessage` gets from the system: whether each creation succeeds, which
of its two signals `Wait` returns, and the value of `msg->result` after `Wait` (written
by the daemon when it has replied). -/
structure SendEnv where
  CreateMsgPort_reply : Bool
  CreateMsgPort_timer : Bool
  CreateIORequest_timer : Bool
  OpenDevice_timer : Bool
  AllocMem_msg : Bool
  replySig : Bool
  timerSig : Bool
  msg_result : Nat
deriving DecidableEq, Repr

/-- The function `sendDaemonMessage(port, cmd, value)`: the value returned and what it
did, in order.  After the label `cleanup` the message is freed, the device closed (when
the request's `io_Device` is set, i.e. `OpenDevice` succeeded), and request and ports
are deleted, each only if it was created. -/
def sendDaemonMessage (env : SendEnv) (cmd value : Nat) : Nat × List SendEffect :=
  if !env.CreateMsgPort_reply then (0xFFFFFFFF, [])
  else if !env.CreateMsgPort_timer then
    (0xFFFFFFFF, [SendEffect.acquire SendRes.replyPort, SendEffect.release SendRes.replyPort])
  else if !env.CreateIORequest_timer then
    (0xFFFFFFFF, [SendEffect.acquire SendRes.replyPort, SendEffect.acquire SendRes.timerPort,
                  SendEffect.release SendRes.timerPort, SendEffect.release SendRes.replyPort])
  else if !env.OpenDevice_timer then
    (0xFFFFFFFF, [SendEffect.acquire SendRes.replyPort, SendEffect.acquire SendRes.timerPort,
                  SendEffect.acquire SendRes.timerReq,
                  SendEffect.release SendRes.timerReq, SendEffect.release SendRes.timerPort,
                  SendEffect.release SendRes.replyPort])
  else if !env.AllocMem_msg then
    (0xFFFFFFFF, [SendEffect.acquire SendRes.replyPort, SendEffect.acquire SendRes.timerPort,
                  SendEffect.acquire SendRes.timerReq, SendEffect.acquire SendRes.timerDevice,
                  SendEffect.release SendRes.timerDevice, SendEffect.release SendRes.timerReq,
                  SendEffect.release SendRes.timerPort, SendEffect.release SendRes.replyPort])
  else
    let sent : List SendEffect :=
      [SendEffect.acquire SendRes.replyPort, SendEffect.acquire SendRes.timerPort,
       SendEffect.acquire SendRes.timerReq, SendEffect.acquire SendRes.timerDevice,
       SendEffect.acquire SendRes.msg,
       -- send message to daemon
       SendEffect.PutMsg (cmd % 256) (value % ULONG_RANGE),
       -- setup timeout
       SendEffect.SendIO_timer DAEMON_REPLY_TIMEOUT 0,
       -- wait for reply or timeout
       SendEffect.Wait]
    let cleanup : List SendEffect :=
      [SendEffect.release SendRes.msg, SendEffect.release SendRes.timerDevice,
       SendEffect.release SendRes.timerReq, SendEffect.release SendRes.timerPort,
       SendEffect.release SendRes.replyPort]
    if env.replySig then
      -- reply received before timeout
      (env.msg_result,
       sent ++ [SendEffect.GetMsg_replyPort, SendEffect.AbortIO_timer, SendEffect.WaitIO_timer]
         ++ cleanup)
    else if env.timerSig then
      -- timeout: daemon did not respond
      (0xFFFFFFFF,
       sent ++ [SendEffect.GetMsg_timerPort, SendEffect.Print MSG_ERR_DAEMON_TIMEOUT] ++ cleanup)
    else (0xFFFFFFFF, sent ++ cleanup)

/-! # Theorems -/

/-! ## The state machine: one call, case by case -/

theorem modeAt_cases (i : Nat) :
    modeAt i = modeAt 0 ∨ modeAt i = modeAt 1 ∨ modeAt i = modeAt 2 ∨ modeAt i = modeAt 3 := by
  match i with
  | 0 => exact Or.inl rfl
  | 1 => exact Or.inr (Or.inl rfl)
  | 2 => exact Or.inr (Or.inr (Or.inl rfl))
  | (n + 3) => exact Or.inr (Or.inr (Or.inr rfl))

theorem modeOK_modeAt (i : Nat) : ModeOK (modeAt i) := by
  rcases modeAt_cases i with h | h | h | h <;> rw [h] <;> unfold ModeOK <;> decide

theorem step_idle_act (m : AdaptiveMode) (iv acc : Nat) :
    daemon_GetAdaptiveInterval true ⟨m, 0, iv, acc⟩ = (m.activeUs, ⟨m, 1, m.activeUs, 0⟩) := rfl

theorem step_idle_noact (m : AdaptiveMode) (iv acc : Nat) :
    daemon_GetAdaptiveInterval false ⟨m, 0, iv, acc⟩
      = (iv, ⟨m, 0, iv, (acc + iv) % 4294967296⟩) := rfl

theorem step_active_act (m : AdaptiveMode) (iv acc : Nat) :
    daemon_GetAdaptiveInterval true ⟨m, 1, iv, acc⟩
      = if iv ≤ m.burstUs + m.stepDecUs
        then (m.burstUs, ⟨m, 2, m.burstUs, 0⟩)
        else (iv - m.stepDecUs, ⟨m, 1, iv - m.stepDecUs, 0⟩) := by
  simp only [daemon_GetAdaptiveInterval, adaptiveSwitch, POLL_STATE_IDLE, POLL_STATE_ACTIVE,
    POLL_STATE_BURST, POLL_STATE_TO_IDLE, ULONG_RANGE]
  simp
  split_ifs <;> first | rfl | omega

theorem step_active_noact (m : AdaptiveMode) (iv acc : Nat) :
    daemon_GetAdaptiveInterval false ⟨m, 1, iv, acc⟩
      = (iv, ⟨m, if (acc + iv) % 4294967296 ≥ m.activeThreshold then 3 else 1, iv,
              (acc + iv) % 4294967296⟩) := by
  simp only [daemon_GetAdaptiveInterval, adaptiveSwitch, POLL_STATE_IDLE, POLL_STATE_ACTIVE,
    POLL_STATE_BURST, POLL_STATE_TO_IDLE, ULONG_RANGE]
  simp
  split_ifs <;> first | rfl | omega

theorem step_burst_act (m : AdaptiveMode) (iv acc : Nat) :
    daemon_GetAdaptiveInterval true ⟨m, 2, iv, acc⟩ = (iv, ⟨m, 2, iv, 0⟩) := rfl

theorem step_burst_noact (m : AdaptiveMode) (iv acc : Nat) :
    daemon_GetAdaptiveInterval false ⟨m, 2, iv, acc⟩
      = (iv, ⟨m, if (acc + iv) % 4294967296 ≥ m.idleThreshold then 3 else 2, iv,
              (acc + iv) % 4294967296⟩) := by
  simp only [daemon_GetAdaptiveInterval, adaptiveSwitch, POLL_STATE_IDLE, POLL_STATE_ACTIVE,
    POLL_STATE_BURST, POLL_STATE_TO_IDLE, ULONG_RANGE]
  simp
  split_ifs <;> first | rfl | omega

theorem step_toidle_act (m : AdaptiveMode) (iv acc : Nat) :
    daemon_GetAdaptiveInterval true ⟨m, 3, iv, acc⟩
      = (if iv > m.activeUs then m.activeUs else iv,
         ⟨m, 1, if iv > m.activeUs then m.activeUs else iv, 0⟩) := rfl

theorem step_toidle_noact (m : AdaptiveMode) (iv acc : Nat)
    (h : iv < m.idleUs) (hw : m.idleUs + m.stepIncUs < 4294967296) :
    daemon_GetAdaptiveInterval false ⟨m, 3, iv, acc⟩
      = if m.idleUs ≤ iv + m.stepIncUs
        then (m.idleUs, ⟨m, 0, m.idleUs, (acc + iv) % 4294967296⟩)
        else (iv + m.stepIncUs, ⟨m, 3, iv + m.stepIncUs, (acc + iv) % 4294967296⟩) := by
  have e : (iv + m.stepIncUs) % 4294967296 = iv + m.stepIncUs := Nat.mod_eq_of_lt (by omega)
  simp only [daemon_GetAdaptiveInterval, adaptiveSwitch, POLL_STATE_IDLE, POLL_STATE_ACTIVE,
    POLL_STATE_BURST, POLL_STATE_TO_IDLE, ULONG_RANGE, e]
  simp
  split_ifs <;> first | rfl | omega

theorem daemon_GetAdaptiveInterval_fst (f : Bool) (a : Adaptive) :
    (daemon_GetAdaptiveInterval f a).1 = (daemon_GetAdaptiveInterval f a).2.s_adaptiveInterval :=
  rfl

theorem daemon_GetAdaptiveInterval_mode (f : Bool) (a : Adaptive) :
    (daemon_GetAdaptiveInterval f a).2.s_activeMode = a.s_activeMode := rfl

/-! ## Runs of ticks -/

theorem runTicks_append (a : Adaptive) (xs ys : List Bool) :
    runTicks a (xs ++ ys) = runTicks (runTicks a xs) ys := by
  induction xs generalizing a with
  | nil => rfl
  | cons x xs ih => simp [runTicks, ih]

theorem runTicks_replicate_succ (a : Adaptive) (f : Bool) (k : Nat) :
    runTicks a (List.replicate (k + 1) f)
      = (daemon_GetAdaptiveInterval f (runTicks a (List.replicate k f))).2 := by
  rw [List.replicate_succ', runTicks_append]
  rfl

/-! ## The invariant of the adaptive state variables -/

theorem schedInv_step (m : AdaptiveMode) (hm : ModeOK m) (f : Bool) (a : Adaptive)
    (h : SchedInv m a) : SchedInv m (daemon_GetAdaptiveInterval f a).2 := by
  obtain ⟨mm, st, iv, acc⟩ := a
  obtain ⟨h1, h2, h3, h4, h5, h6, h7⟩ := hm
  obtain ⟨hmode, h⟩ := h
  simp only at hmode
  subst hmode
  simp only [POLL_STATE_IDLE, POLL_STATE_ACTIVE, POLL_STATE_BURST, POLL_STATE_TO_IDLE,
    ULONG_RANGE] at h h7
  unfold SchedInv
  simp only [POLL_STATE_IDLE, POLL_STATE_ACTIVE, POLL_STATE_BURST, POLL_STATE_TO_IDLE]
  rcases h with ⟨rfl, h⟩ | ⟨rfl, h⟩ | ⟨rfl, h⟩ | ⟨rfl, h⟩ <;> cases f
  · rw [step_idle_noact]; simp; omega
  · rw [step_idle_act]; simp; omega
  · rw [step_active_noact]; simp; split_ifs <;> simp <;> omega
  · rw [step_active_act]; split_ifs <;> simp <;> omega
  · rw [step_burst_noact]; simp; split_ifs <;> simp <;> omega
  · rw [step_burst_act]; simp; omega
  · rw [step_toidle_noact _ _ _ h.2 h7]; split_ifs <;> simp <;> omega
  · rw [step_toidle_act]; simp; split_ifs <;> omega

theorem schedInv_start (i : Nat) : SchedInv (modeAt i) (adaptiveStart i) :=
  ⟨rfl, Or.inl ⟨rfl, rfl⟩⟩

theorem schedInv_runTicks (m : AdaptiveMode) (hm : ModeOK m) (flags : List Bool) (a : Adaptive)
    (h : SchedInv m a) : SchedInv m (runTicks a flags) := by
  induction flags generalizing a with
  | nil => exact h
  | cons f fs ih => exact ih _ (schedInv_step m hm f a h)

/-! ## No activity from IDLE -/

theorem idle_noactivity_run (m : AdaptiveMode) (acc n : Nat) (hacc : acc < 4294967296) :
    runTicks ⟨m, 0, m.idleUs, acc⟩ (List.replicate n false)
      = ⟨m, 0, m.idleUs, (acc + n * m.idleUs) % 4294967296⟩ := by
  induction n with
  | zero => simp [runTicks, Nat.mod_eq_of_lt hacc]
  | succ k ih =>
    rw [runTicks_replicate_succ, ih, step_idle_noact]
    have e : (k + 1) * m.idleUs = k * m.idleUs + m.idleUs := by ring
    rw [e]
    simp only [Adaptive.mk.injEq, true_and]
    omega

theorem idle_noactivity_state (m : AdaptiveMode) (acc n : Nat) :
    ∃ acc1, runTicks ⟨m, 0, m.idleUs, acc⟩ (List.replicate n false) = ⟨m, 0, m.idleUs, acc1⟩ := by
  induction n with
  | zero => exact ⟨acc, rfl⟩
  | succ k ih =>
    obtain ⟨acc1, h⟩ := ih
    exact ⟨(acc1 + m.idleUs) % 4294967296, by rw [runTicks_replicate_succ, h, step_idle_noact]⟩

/-- C4. Idempotence of inactivity in IDLE: for every profile `m`, every accumulator value
`acc` and every `n`, after `n` consecutive calls of `daemon_GetAdaptiveInterval` with
`hadActivity = false` from state IDLE at `idleUs` the state is IDLE, the interval is
`idleUs` and the profile is unchanged, and the next such call returns `idleUs`. -/
theorem idle_noactivity_stays_idle (m : AdaptiveMode) (acc n : Nat) :
    (runTicks ⟨m, POLL_STATE_IDLE, m.idleUs, acc⟩ (List.replicate n false)).s_adaptiveState
        = POLL_STATE_IDLE
    ∧ (runTicks ⟨m, POLL_STATE_IDLE, m.idleUs, acc⟩ (List.replicate n false)).s_adaptiveInterval
        = m.idleUs
    ∧ (runTicks ⟨m, POLL_STATE_IDLE, m.idleUs, acc⟩ (List.replicate n false)).s_activeMode = m
    ∧ (daemon_GetAdaptiveInterval false
        (runTicks ⟨m, POLL_STATE_IDLE, m.idleUs, acc⟩ (List.replicate n false))).1 = m.idleUs := by
  obtain ⟨acc1, h⟩ := idle_noactivity_state m acc n
  simp only [POLL_STATE_IDLE]
  rw [h, step_idle_noact]
  exact ⟨rfl, rfl, rfl, rfl⟩

/-! ## Continuous activity from IDLE -/

theorem activity_run (m : AdaptiveMode) (h : m.burstUs < m.activeUs) (acc k : Nat) :
    runTicks ⟨m, 0, m.idleUs, acc⟩ (List.replicate (k + 1) true)
      = if k * m.stepDecUs < m.activeUs - m.burstUs
        then ⟨m, 1, m.activeUs - k * m.stepDecUs, 0⟩ else ⟨m, 2, m.burstUs, 0⟩ := by
  induction k with
  | zero =>
    have h0 : 0 * m.stepDecUs < m.activeUs - m.burstUs := by omega
    rw [if_pos h0]
    simp [runTicks, step_idle_act]
  | succ k ih =>
    rw [runTicks_replicate_succ, ih]
    have e : (k + 1) * m.stepDecUs = k * m.stepDecUs + m.stepDecUs := by ring
    rw [e]
    generalize k * m.stepDecUs = x
    by_cases hx : x < m.activeUs - m.burstUs
    · rw [if_pos hx, step_active_act]
      split_ifs
      · omega
      · rfl
      · dsimp only
        rw [Nat.sub_sub]
      · omega
    · rw [if_neg hx, step_burst_act, if_neg (by omega)]

theorem ceil_mul_ge (x s : Nat) (hs : 0 < s) : x ≤ (x + s - 1) / s * s := by
  have h1 := Nat.div_add_mod (x + s - 1) s
  have h2 := Nat.mod_lt (x + s - 1) hs
  rw [Nat.mul_comm] at h1
  generalize (x + s - 1) / s * s = q at *
  omega

theorem activity_tick (m : AdaptiveMode) (h : m.burstUs < m.activeUs) (acc k : Nat) :
    daemon_GetAdaptiveInterval true (runTicks ⟨m, 0, m.idleUs, acc⟩ (List.replicate k true))
      = if k * m.stepDecUs < m.activeUs - m.burstUs
        then (m.activeUs - k * m.stepDecUs, ⟨m, 1, m.activeUs - k * m.stepDecUs, 0⟩)
        else (m.burstUs, ⟨m, 2, m.burstUs, 0⟩) := by
  have h1 := activity_run m h acc k
  rw [runTicks_replicate_succ] at h1
  have h2 := daemon_GetAdaptiveInterval_fst true
    (runTicks ⟨m, 0, m.idleUs, acc⟩ (List.replicate k true))
  rw [h1] at h2
  split_ifs at h1 h2 ⊢ with hc
  · exact Prod.ext h2 h1
  · exact Prod.ext h2 h1

/-- C3. Continuous activity from IDLE, for each built-in profile `modeAt i` and every
accumulator value.  Tick `k + 1` is the call
`daemon_GetAdaptiveInterval true (runTicks start (replicate k true))`.
(1) Tick 1 returns `activeUs` and leaves ACTIVE at `activeUs`.
(2) Whenever tick `k + 2` returns more than `burstUs`, it returns exactly the value of
tick `k + 1` lowered by `stepDecUs`.
(3) From tick `ceil((activeUs - burstUs) / stepDecUs) + 1` on, every tick returns
`burstUs` and leaves BURST at `burstUs`.
(4) No tick returns less than `burstUs`.
(5) For profile 2: tick `k + 1` with `k < 20` returns `15000 - 500 * k` in state ACTIVE,
and tick 21 returns 5000 in state BURST. -/
theorem continuous_activity_reaches_burst (i acc : Nat) :
    (daemon_GetAdaptiveInterval true ⟨modeAt i, POLL_STATE_IDLE, (modeAt i).idleUs, acc⟩
        = ((modeAt i).activeUs, ⟨modeAt i, POLL_STATE_ACTIVE, (modeAt i).activeUs, 0⟩))
    ∧ (∀ k, (daemon_GetAdaptiveInterval true
              (runTicks ⟨modeAt i, POLL_STATE_IDLE, (modeAt i).idleUs, acc⟩
                (List.replicate (k + 1) true))).1 > (modeAt i).burstUs →
          (daemon_GetAdaptiveInterval true
              (runTicks ⟨modeAt i, POLL_STATE_IDLE, (modeAt i).idleUs, acc⟩
                (List.replicate (k + 1) true))).1 + (modeAt i).stepDecUs
            = (daemon_GetAdaptiveInterval true
              (runTicks ⟨modeAt i, POLL_STATE_IDLE, (modeAt i).idleUs, acc⟩
                (List.replicate k true))).1)
    ∧ (∀ j, daemon_GetAdaptiveInterval true
              (runTicks ⟨modeAt i, POLL_STATE_IDLE, (modeAt i).idleUs, acc⟩
                (List.replicate
                  (((modeAt i).activeUs - (modeAt i).burstUs + (modeAt i).stepDecUs - 1)
                      / (modeAt i).stepDecUs + j) true))
            = ((modeAt i).burstUs, ⟨modeAt i, POLL_STATE_BURST, (modeAt i).burstUs, 0⟩))
    ∧ (∀ k, (modeAt i).burstUs ≤ (daemon_GetAdaptiveInterval true
              (runTicks ⟨modeAt i, POLL_STATE_IDLE, (modeAt i).idleUs, acc⟩
                (List.replicate k true))).1)
    ∧ (∀ k, k < 20 → daemon_GetAdaptiveInterval true
              (runTicks ⟨modeAt 2, POLL_STATE_IDLE, 50000, acc⟩ (List.replicate k true))
            = (15000 - 500 * k, ⟨modeAt 2, POLL_STATE_ACTIVE, 15000 - 500 * k, 0⟩))
    ∧ daemon_GetAdaptiveInterval true
              (runTicks ⟨modeAt 2, POLL_STATE_IDLE, 50000, acc⟩ (List.replicate 20 true))
            = (5000, ⟨modeAt 2, POLL_STATE_BURST, 5000, 0⟩) := by
  obtain ⟨hba, -, hs, -⟩ := modeOK_modeAt i
  simp only [POLL_STATE_IDLE, POLL_STATE_ACTIVE, POLL_STATE_BURST]
  refine ⟨rfl, ?_, ?_, ?_, ?_, ?_⟩
  · intro k
    rw [activity_tick _ hba, activity_tick _ hba]
    have e : (k + 1) * (modeAt i).stepDecUs = k * (modeAt i).stepDecUs + (modeAt i).stepDecUs := by
      ring
    rw [e]
    generalize k * (modeAt i).stepDecUs = x
    split_ifs <;> simp only <;> omega
  · intro j
    rw [activity_tick _ hba]
    have h1 := ceil_mul_ge ((modeAt i).activeUs - (modeAt i).burstUs) (modeAt i).stepDecUs hs
    rw [Nat.add_mul]
    rw [if_neg (by omega)]
  · intro k
    rw [activity_tick _ hba]
    split_ifs <;> simp only <;> omega
  · intro k hk
    have h2 : (modeAt 2).burstUs < (modeAt 2).activeUs := by decide
    have h := activity_tick (modeAt 2) h2 acc k
    have hc : k * (modeAt 2).stepDecUs < (modeAt 2).activeUs - (modeAt 2).burstUs := by
      show k * 500 < 15000 - 5000
      omega
    rw [if_pos hc] at h
    rw [show (modeAt 2).idleUs = 50000 from rfl, show (modeAt 2).activeUs = 15000 from rfl,
      show (modeAt 2).stepDecUs = 500 from rfl, Nat.mul_comm k 500] at h
    exact h
  · have h2 : (modeAt 2).burstUs < (modeAt 2).activeUs := by decide
    have h := activity_tick (modeAt 2) h2 acc 20
    rw [if_neg (by decide)] at h
    exact h

/-! ## The code against the rules of spec section 4.1 -/

theorem step_eq_specStep32 (m : AdaptiveMode) (hm : ModeOK m) (f : Bool) (a : Adaptive)
    (h : SchedInv m a) :
    ((daemon_GetAdaptiveInterval f a).2.s_adaptiveState,
     (daemon_GetAdaptiveInterval f a).2.s_adaptiveInterval,
     (daemon_GetAdaptiveInterval f a).2.s_adaptiveInactive)
      = specStep32 m f a.s_adaptiveState a.s_adaptiveInterval a.s_adaptiveInactive := by
  obtain ⟨mm, st, iv, acc⟩ := a
  obtain ⟨h1, h2, h3, h4, h5, h6, h7⟩ := hm
  obtain ⟨hmode, h⟩ := h
  simp only at hmode
  subst hmode
  simp only [POLL_STATE_IDLE, POLL_STATE_ACTIVE, POLL_STATE_BURST, POLL_STATE_TO_IDLE,
    ULONG_RANGE] at h h7
  simp only [specStep32, specTransition, POLL_STATE_IDLE, POLL_STATE_ACTIVE, POLL_STATE_BURST,
    POLL_STATE_TO_IDLE, ULONG_RANGE]
  rcases h with ⟨rfl, h⟩ | ⟨rfl, h⟩ | ⟨rfl, h⟩ | ⟨rfl, h⟩ <;> cases f
  · rw [step_idle_noact]; simp
  · rw [step_idle_act]; simp
  · rw [step_active_noact]; simp; split_ifs <;> simp
  · rw [step_active_act]; simp; split_ifs <;> simp <;> omega
  · rw [step_burst_noact]; simp; split_ifs <;> simp
  · rw [step_burst_act]; simp; omega
  · rw [step_toidle_noact _ _ _ h.2 h7]; simp; split_ifs <;> simp <;> omega
  · rw [step_toidle_act]; simp; split_ifs <;> simp <;> omega

/-! ## The accumulator does not wrap outside IDLE -/

theorem modeNoWrap_modeAt (i : Nat) : ModeNoWrap (modeAt i) := by
  rcases modeAt_cases i with h | h | h | h <;> rw [h] <;> unfold ModeNoWrap accCeiling <;> decide

theorem accCeiling_mono (m : AdaptiveMode) (iv : Nat) (h : iv ≤ m.idleUs) :
    accCeiling m iv ≤ accCeiling m m.idleUs := by
  unfold accCeiling
  have h1 : (iv - m.burstUs) / m.stepIncUs ≤ (m.idleUs - m.burstUs) / m.stepIncUs :=
    Nat.div_le_div_right (by omega)
  have h2 := Nat.mul_le_mul_left m.idleUs (Nat.add_le_add_right h1 1)
  omega

theorem accCeiling_step (m : AdaptiveMode) (iv : Nat) (hs : 0 < m.stepIncUs)
    (hb : m.burstUs ≤ iv) :
    accCeiling m (iv + m.stepIncUs) = accCeiling m iv + m.idleUs := by
  unfold accCeiling
  have e : iv + m.stepIncUs - m.burstUs = (iv - m.burstUs) + m.stepIncUs := by omega
  rw [e, Nat.add_div_right _ hs]
  have e2 : m.idleUs * ((iv - m.burstUs) / m.stepIncUs + 1 + 1)
      = m.idleUs * ((iv - m.burstUs) / m.stepIncUs + 1) + m.idleUs := by
    rw [Nat.mul_add, Nat.mul_one]
  rw [e2]
  omega

theorem accCeiling_ge (m : AdaptiveMode) (iv : Nat) :
    m.activeThreshold + m.idleThreshold + m.activeUs + m.idleUs ≤ accCeiling m iv := by
  unfold accCeiling
  have h : m.idleUs * 1 ≤ m.idleUs * ((iv - m.burstUs) / m.stepIncUs + 1) :=
    Nat.mul_le_mul_left m.idleUs (Nat.le_add_left 1 _)
  rw [Nat.mul_one] at h
  omega

theorem accInv_step (m : AdaptiveMode) (hm : ModeOK m) (f : Bool) (a : Adaptive)
    (h : SchedInv m a) (hacc : AccInv m a) : AccInv m (daemon_GetAdaptiveInterval f a).2 := by
  obtain ⟨mm, st, iv, acc⟩ := a
  obtain ⟨h1, h2, h3, h4, h5, h6, h7⟩ := hm
  obtain ⟨hmode, h⟩ := h
  simp only at hmode
  subst hmode
  simp only [POLL_STATE_IDLE, POLL_STATE_ACTIVE, POLL_STATE_BURST, POLL_STATE_TO_IDLE,
    ULONG_RANGE] at h h7
  unfold AccInv at hacc ⊢
  simp only [POLL_STATE_IDLE] at hacc ⊢
  have hle : (acc + iv) % 4294967296 ≤ acc + iv := Nat.mod_le _ _
  rcases h with ⟨rfl, h⟩ | ⟨rfl, h⟩ | ⟨rfl, h⟩ | ⟨rfl, h⟩ <;> cases f
  · rw [step_idle_noact]; exact Or.inl rfl
  · rw [step_idle_act]; exact Or.inr (Nat.zero_le _)
  · rw [step_active_noact]
    have hg := accCeiling_ge mm iv
    exact Or.inr (by simp only; omega)
  · rw [step_active_act]
    split_ifs <;> exact Or.inr (Nat.zero_le _)
  · rw [step_burst_noact]
    have hg := accCeiling_ge mm iv
    exact Or.inr (by simp only; omega)
  · rw [step_burst_act]; exact Or.inr (Nat.zero_le _)
  · rw [step_toidle_noact _ _ _ h.2 h7]
    split_ifs
    · exact Or.inl rfl
    · have hc := accCeiling_step mm iv h4 h.1
      rcases hacc with hz | hb
      · exact absurd hz (by decide)
      · exact Or.inr (by simp only at hb ⊢; omega)
  · rw [step_toidle_act]; exact Or.inr (Nat.zero_le _)

theorem accInv_runTicks (m : AdaptiveMode) (hm : ModeOK m) (flags : List Bool) (a : Adaptive)
    (h : SchedInv m a) (hacc : AccInv m a) : AccInv m (runTicks a flags) := by
  induction flags generalizing a with
  | nil => exact hacc
  | cons f fs ih => exact ih _ (schedInv_step m hm f a h) (accInv_step m hm f a h hacc)

theorem no_wrap_outside_idle (m : AdaptiveMode) (hm : ModeOK m) (hw : ModeNoWrap m)
    (a : Adaptive) (h : SchedInv m a) (hacc : AccInv m a)
    (hs : a.s_adaptiveState ≠ POLL_STATE_IDLE) :
    a.s_adaptiveInactive + a.s_adaptiveInterval < 4294967296 := by
  obtain ⟨h1, h2, -⟩ := hm
  unfold ModeNoWrap at hw
  simp only [ULONG_RANGE] at hw
  rcases hacc with hz | hb
  · exact absurd hz hs
  · have hiv : a.s_adaptiveInterval ≤ m.idleUs := by
      rcases h.2 with ⟨hz, -⟩ | ⟨-, -, hx, -⟩ | ⟨-, hx, -⟩ | ⟨-, -, hx⟩
      · exact absurd hz hs
      · omega
      · omega
      · omega
    have hmono := accCeiling_mono m _ hiv
    omega

/-! ## Sustained inactivity under profile 1 (BALANCED) -/

theorem balanced_idleUs : (modeAt 1).idleUs = 100000 := rfl
theorem balanced_activeUs : (modeAt 1).activeUs = 30000 := rfl
theorem balanced_burstUs : (modeAt 1).burstUs = 10000 := rfl
theorem balanced_stepIncUs : (modeAt 1).stepIncUs = 1200 := rfl
theorem balanced_activeThreshold : (modeAt 1).activeThreshold = 500000 := rfl
theorem balanced_idleThreshold : (modeAt 1).idleThreshold = 1500000 := rfl

theorem ticksToIdle_le (a : Adaptive) (h : SchedInv (modeAt 1) a) : ticksToIdle a ≤ 225 := by
  obtain ⟨mm, st, iv, acc⟩ := a
  obtain ⟨-, h⟩ := h
  simp only [balanced_idleUs, balanced_activeUs, balanced_burstUs, balanced_activeThreshold,
    balanced_idleThreshold, POLL_STATE_IDLE, POLL_STATE_ACTIVE, POLL_STATE_BURST,
    POLL_STATE_TO_IDLE] at h
  simp only [ticksToIdle, POLL_STATE_IDLE, POLL_STATE_ACTIVE, POLL_STATE_BURST]
  rcases h with ⟨rfl, h⟩ | ⟨rfl, h⟩ | ⟨rfl, h⟩ | ⟨rfl, h⟩ <;> simp <;> omega

theorem ticksToIdle_zero (a : Adaptive) (h : SchedInv (modeAt 1) a) (h0 : ticksToIdle a = 0) :
    a.s_adaptiveState = 0 ∧ a.s_adaptiveInterval = 100000 := by
  obtain ⟨mm, st, iv, acc⟩ := a
  obtain ⟨-, h⟩ := h
  simp only [balanced_idleUs, balanced_activeUs, balanced_burstUs, balanced_activeThreshold,
    balanced_idleThreshold, POLL_STATE_IDLE, POLL_STATE_ACTIVE, POLL_STATE_BURST,
    POLL_STATE_TO_IDLE] at h
  simp only [ticksToIdle, POLL_STATE_IDLE, POLL_STATE_ACTIVE, POLL_STATE_BURST] at h0
  rcases h with ⟨rfl, h⟩ | ⟨rfl, h⟩ | ⟨rfl, h⟩ | ⟨rfl, h⟩ <;> simp at h0 ⊢ <;> omega

theorem ticksToIdle_step (a : Adaptive) (h : SchedInv (modeAt 1) a) :
    ticksToIdle (daemon_GetAdaptiveInterval false a).2 ≤ ticksToIdle a - 1 := by
  obtain ⟨mm, st, iv, acc⟩ := a
  obtain ⟨hmode, h⟩ := h
  simp only at hmode
  subst hmode
  simp only [balanced_idleUs, balanced_activeUs, balanced_burstUs, balanced_activeThreshold,
    balanced_idleThreshold, POLL_STATE_IDLE, POLL_STATE_ACTIVE, POLL_STATE_BURST,
    POLL_STATE_TO_IDLE] at h
  rcases h with ⟨rfl, h⟩ | ⟨rfl, h⟩ | ⟨rfl, h⟩ | ⟨rfl, h⟩
  · rw [step_idle_noact]
    simp [ticksToIdle, POLL_STATE_IDLE]
  · rw [step_active_noact]
    simp only [balanced_activeThreshold, ticksToIdle, POLL_STATE_IDLE, POLL_STATE_ACTIVE,
      POLL_STATE_BURST]
    have e : (acc + iv) % 4294967296 = acc + iv := Nat.mod_eq_of_lt (by omega)
    rw [e]
    split_ifs <;> simp <;> omega
  · rw [step_burst_noact]
    simp only [balanced_idleThreshold, ticksToIdle, POLL_STATE_IDLE, POLL_STATE_ACTIVE,
      POLL_STATE_BURST]
    have e : (acc + iv) % 4294967296 = acc + iv := Nat.mod_eq_of_lt (by omega)
    rw [e]
    split_ifs <;> simp <;> omega
  · rw [step_toidle_noact _ _ _ (by rw [balanced_idleUs]; exact h.2) (by decide)]
    simp only [balanced_idleUs, balanced_stepIncUs]
    split_ifs with hc
    · simp [ticksToIdle, POLL_STATE_IDLE]
    · simp only [ticksToIdle, POLL_STATE_IDLE, POLL_STATE_ACTIVE, POLL_STATE_BURST]
      simp
      omega

theorem balanced_idle_within (n : Nat) (a : Adaptive) (h : SchedInv (modeAt 1) a)
    (hn : ticksToIdle a ≤ n) :
    (runTicks a (List.replicate n false)).s_adaptiveState = 0
    ∧ (runTicks a (List.replicate n false)).s_adaptiveInterval = 100000 := by
  induction n generalizing a with
  | zero => exact ticksToIdle_zero a h (by omega)
  | succ n ih =>
    have hs := ticksToIdle_step a h
    exact ih _ (schedInv_step _ (modeOK_modeAt 1) false a h) (by omega)

/-! ## Frame properties of the timer branch -/

theorem timerArms_append (xs ys : List Effect) :
    timerArms (xs ++ ys) = timerArms xs ++ timerArms ys := by
  induction xs with
  | nil => rfl
  | cons x xs ih => cases x <;> simp [timerArms, ih]

theorem timerArms_inputs (evs : List InputEvent) :
    timerArms (evs.map Effect.DoIO_input) = [] := by
  induction evs with
  | nil => rfl
  | cons e es ih => simpa [timerArms] using ih

theorem InjectsOnly.refl (d : Daemon) : InjectsOnly d d :=
  ⟨[], by simp⟩

theorem InjectsOnly.trans {a b c : Daemon} (h1 : InjectsOnly a b) (h2 : InjectsOnly b c) :
    InjectsOnly a c := by
  obtain ⟨e1, h1⟩ := h1
  obtain ⟨e2, h2⟩ := h2
  refine ⟨e1 ++ e2, ?_⟩
  rw [h2, h1]
  simp

theorem InjectsOnly.fields {d d1 : Daemon} (h : InjectsOnly d d1) :
    d1.s_configByte = d.s_configByte ∧ d1.s_pollInterval = d.s_pollInterval
    ∧ d1.adaptive = d.adaptive ∧ d1.quit = d.quit ∧ d1.handles = d.handles
    ∧ d1.s_lastWHCounter = d.s_lastWHCounter ∧ d1.s_lastWHDelta = d.s_lastWHDelta
    ∧ d1.s_lastBTState = d.s_lastBTState
    ∧ timerArms d1.trace = timerArms d.trace := by
  obtain ⟨evs, h⟩ := h
  rw [h]
  simp [timerArms_append, timerArms_inputs]

theorem injectsOnly_wheelPair (d : Daemon) : InjectsOnly d (wheelPair d) :=
  ⟨[{ d.s_eventBuf with ie_Class := IECLASS_RAWKEY },
    { d.s_eventBuf with ie_Class := IECLASS_NEWMOUSE }], by
    simp [wheelPair, injectEvent, Daemon.emit]⟩

theorem injectsOnly_buttonPair (code : Nat) (d : Daemon) : InjectsOnly d (buttonPair code d) :=
  ⟨[{ d.s_eventBuf with ie_Code := code, ie_Class := IECLASS_RAWKEY },
    { d.s_eventBuf with ie_Code := code, ie_Class := IECLASS_NEWMOUSE }], by
    simp [buttonPair, injectEvent, Daemon.emit]⟩

theorem injectsOnly_iterate (n : Nat) (d : Daemon) : InjectsOnly d (Nat.iterate wheelPair n d) := by
  induction n generalizing d with
  | zero => exact InjectsOnly.refl d
  | succ n ih =>
    rw [Function.iterate_succ_apply]
    exact (injectsOnly_wheelPair d).trans (ih _)

theorem injectsOnly_eventBuf (d : Daemon) (buf : InputEvent) :
    InjectsOnly d { d with s_eventBuf := buf } :=
  ⟨[], by simp⟩

theorem injectsOnly_ProcessWheel (delta : Int) (d : Daemon) :
    InjectsOnly d (daemon_ProcessWheel delta d) := by
  unfold daemon_ProcessWheel
  split_ifs
  · exact InjectsOnly.refl d
  · exact (injectsOnly_eventBuf d _).trans (injectsOnly_iterate _ _)
  · exact (injectsOnly_eventBuf d _).trans (injectsOnly_iterate _ _)

theorem injectsOnly_ite {d x y : Daemon} (c : Prop) [Decidable c]
    (hx : InjectsOnly d x) (hy : InjectsOnly d y) : InjectsOnly d (if c then x else y) := by
  split_ifs
  · exact hx
  · exact hy

theorem injectsOnly_ProcessButtons (state : Nat) (d : Daemon) :
    InjectsOnly d (daemon_ProcessButtons state d) := by
  have h4 : InjectsOnly d
      (if (state ^^^ d.s_lastBTState) &&& SAGA_BUTTON4_MASK ≠ 0 then
        buttonPair (NM_BUTTON_FOURTH |||
          (if state &&& SAGA_BUTTON4_MASK ≠ 0 then 0 else IECODE_UP_PREFIX)) d
       else d) :=
    injectsOnly_ite _ (injectsOnly_buttonPair _ d) (InjectsOnly.refl d)
  exact injectsOnly_ite _
    (injectsOnly_ite _ (h4.trans (injectsOnly_buttonPair _ _)) h4) (InjectsOnly.refl d)

theorem injectsOnly_tickInject (env : TickEnv) (l : TickLocals) (d : Daemon) :
    InjectsOnly d (tickInject env l d) := by
  unfold tickInject
  refine injectsOnly_ite _ ?_ (InjectsOnly.refl d)
  have h0 := injectsOnly_eventBuf d
    { d.s_eventBuf with ie_SubClass := 0, ie_Qualifier := env.PeekQualifier,
                        ie_X := 0, ie_Y := 0, tv_secs := 0, tv_micro := 0 }
  have hw := injectsOnly_ite (l.hadWHActivity = true)
    (h0.trans (injectsOnly_ProcessWheel l.currentWHDelta _)) h0
  exact injectsOnly_ite _ (hw.trans (injectsOnly_ProcessButtons _ _)) hw

theorem timerArms_TimerStart (micros : Nat) (d : Daemon) :
    timerArms (daemon_TimerStart micros d).trace = timerArms d.trace ++ [micros] := by
  simp only [daemon_TimerStart, Daemon.emit, timerArms_append, timerArms]
  rw [Nat.mul_comm, Nat.div_add_mod]

theorem daemon_timerTick_configByte (env : TickEnv) (d : Daemon) :
    (daemon_timerTick env d).s_configByte = d.s_configByte := by
  have h := (injectsOnly_tickInject env (tickSample env d) d).fields.1
  unfold daemon_timerTick
  simp only []
  split_ifs <;> exact h

theorem daemon_timerTick_quit (env : TickEnv) (d : Daemon) :
    (daemon_timerTick env d).quit = d.quit := by
  have h := (injectsOnly_tickInject env (tickSample env d) d).fields.2.2.2.1
  unfold daemon_timerTick
  simp only []
  split_ifs <;> exact h

theorem daemon_timerTick_fixed (env : TickEnv) (d : Daemon)
    (hf : d.s_configByte &&& CONFIG_FIXED_MODE ≠ 0) :
    (daemon_timerTick env d).adaptive = d.adaptive
    ∧ (daemon_timerTick env d).s_pollInterval = d.s_pollInterval
    ∧ timerArms (daemon_timerTick env d).trace = timerArms d.trace ++ [d.s_pollInterval] := by
  obtain ⟨h1, h2, h3, -, -, -, -, -, h9⟩ := (injectsOnly_tickInject env (tickSample env d) d).fields
  unfold daemon_timerTick
  simp only []
  rw [if_pos (by rw [h1]; exact hf)]
  refine ⟨h3, h2, ?_⟩
  show timerArms (daemon_TimerStart _ _).trace = _
  rw [timerArms_TimerStart, h9, h2]

theorem daemon_timerTick_adaptive (env : TickEnv) (d : Daemon)
    (hf : d.s_configByte &&& CONFIG_FIXED_MODE = 0) :
    (daemon_timerTick env d).adaptive
        = (daemon_GetAdaptiveInterval (tickSample env d).hadActivity d.adaptive).2
    ∧ (daemon_timerTick env d).s_pollInterval
        = (daemon_GetAdaptiveInterval (tickSample env d).hadActivity d.adaptive).1
    ∧ timerArms (daemon_timerTick env d).trace = timerArms d.trace
        ++ [(daemon_GetAdaptiveInterval (tickSample env d).hadActivity d.adaptive).1] := by
  obtain ⟨h1, h2, h3, -, -, -, -, -, h9⟩ := (injectsOnly_tickInject env (tickSample env d) d).fields
  unfold daemon_timerTick
  simp only []
  rw [if_neg (by rw [h1]; simpa using hf)]
  rw [h3]
  refine ⟨rfl, rfl, ?_⟩
  show timerArms (daemon_TimerStart _ _).trace = _
  rw [timerArms_TimerStart]
  show timerArms (tickInject env (tickSample env d) d).trace ++ _ = _
  rw [h9]

/-! ## The message branch -/

theorem daemon_setConfig_configByte (RELEASE : Bool) (v : Nat) (d : Daemon) :
    (daemon_setConfig RELEASE v d).s_configByte
      = if RELEASE then (v % 256) &&& 127 else v % 256 := by
  unfold daemon_setConfig
  simp only [CONFIG_DEBUG_MODE]
  split_ifs <;> rfl

theorem daemon_setConfig_quit (RELEASE : Bool) (v : Nat) (d : Daemon) :
    (daemon_setConfig RELEASE v d).quit = d.quit := by
  unfold daemon_setConfig
  simp only []
  split_ifs <;> rfl

theorem and_mask_release (x : Nat) : (x &&& 127) &&& 48 = x &&& 48 := by
  rw [Nat.and_assoc]; rfl

theorem fixed_bit_eq_of_xor {a b : Nat} (h : (a ^^^ b) &&& 64 = 0) : a &&& 64 = b &&& 64 := by
  rw [Nat.and_xor_distrib_right] at h
  exact Nat.xor_eq_zero.mp h

theorem modeInv_setConfig (RELEASE : Bool) (v : Nat) (d : Daemon) (h : ModeInv d) :
    ModeInv (daemon_setConfig RELEASE v d) := by
  obtain ⟨h1, h2, h3⟩ := h
  unfold daemon_setConfig
  simp only [CONFIG_DEBUG_MODE, CONFIG_INTERVAL_MASK, CONFIG_INTERVAL_SHIFT, CONFIG_FIXED_MODE,
    modeIndexOf] at h1 h2 h3 ⊢
  by_cases hc : (d.s_configByte &&& 48) >>> 4 ≠ (v % 256 &&& 48) >>> 4
      ∨ (d.s_configByte ^^^ (if RELEASE = true then v % 256 &&& (255 - 128) else v % 256))
          &&& 64 ≠ 0
  · rw [if_pos hc]
    by_cases hfix : (if RELEASE = true then v % 256 &&& (255 - 128) else v % 256) &&& 64 ≠ 0
    · rw [if_pos hfix]
      refine ⟨?_, ?_, ?_⟩
      · simp [ModeInv, modeIndexOf, daemon_TimerStart, Daemon.emit, CONFIG_INTERVAL_MASK,
          CONFIG_INTERVAL_SHIFT]
      · intro _
        simp [ModeInv, modeIndexOf, daemon_TimerStart, Daemon.emit, CONFIG_INTERVAL_MASK,
          CONFIG_INTERVAL_SHIFT]
      · intro hz
        exact absurd hz hfix
    · rw [if_neg hfix]
      refine ⟨?_, ?_, ?_⟩
      · simp [ModeInv, modeIndexOf, daemon_TimerStart, Daemon.emit, CONFIG_INTERVAL_MASK,
          CONFIG_INTERVAL_SHIFT]
      · intro hz
        exact absurd hz hfix
      · intro _
        simp [ModeInv, modeIndexOf, daemon_TimerStart, Daemon.emit, CONFIG_INTERVAL_MASK,
          CONFIG_INTERVAL_SHIFT]
  · rw [if_neg hc]
    have hc1 : (d.s_configByte &&& 48) >>> 4 = (v % 256 &&& 48) >>> 4 := by
      by_contra hne
      exact hc (Or.inl hne)
    have hc2 : (d.s_configByte ^^^ (if RELEASE = true then v % 256 &&& (255 - 128) else v % 256))
          &&& 64 = 0 := by
      by_contra hne
      exact hc (Or.inr hne)
    have hbit := fixed_bit_eq_of_xor hc2
    have hidx : ((if RELEASE = true then v % 256 &&& (255 - 128) else v % 256) &&& 48) >>> 4
        = (d.s_configByte &&& 48) >>> 4 := by
      rw [hc1]
      cases RELEASE
      · rfl
      · show ((v % 256 &&& 127) &&& 48) >>> 4 = _
        rw [and_mask_release]
    refine ⟨?_, ?_, ?_⟩
    · show d.adaptive.s_activeMode = _
      rw [h1]
      show _ = modeAt (((if RELEASE = true then v % 256 &&& (255 - 128) else v % 256) &&& 48) >>> 4 % 4)
      rw [hidx]
    · intro hz
      show d.s_pollInterval = _
      have hz' : (if RELEASE = true then v % 256 &&& (255 - 128) else v % 256) &&& 64 ≠ 0 := hz
      rw [← hbit] at hz'
      rw [h2 hz']
      show _ = (modeAt (((if RELEASE = true then v % 256 &&& (255 - 128) else v % 256) &&& 48) >>> 4 % 4)).burstUs
      rw [hidx]
    · intro hz
      show d.s_pollInterval = d.adaptive.s_adaptiveInterval
      have hz' : (if RELEASE = true then v % 256 &&& (255 - 128) else v % 256) &&& 64 = 0 := hz
      rw [← hbit] at hz'
      exact h3 hz'

theorem daemon_handleMessage_unknown (RELEASE : Bool) (msg : XMouseMsg) (d : Daemon)
    (h0 : msg.command ≠ XMSG_CMD_QUIT) (h1 : msg.command ≠ XMSG_CMD_SET_CONFIG)
    (h2 : msg.command ≠ XMSG_CMD_GET_STATUS) :
    daemon_handleMessage RELEASE msg d
      = d.emit (Effect.ReplyMsg { msg with result := 0xFFFFFFFF }) := by
  unfold daemon_handleMessage
  rw [if_neg h0, if_neg h1, if_neg h2]

theorem daemon_handleMessage_getStatus (RELEASE : Bool) (value result : Nat) (d : Daemon) :
    daemon_handleMessage RELEASE ⟨XMSG_CMD_GET_STATUS, value, result⟩ d
      = d.emit (Effect.ReplyMsg ⟨XMSG_CMD_GET_STATUS, value, d.s_configByte⟩) := rfl

theorem daemon_handleMessage_setConfig (RELEASE : Bool) (value result : Nat) (d : Daemon) :
    daemon_handleMessage RELEASE ⟨XMSG_CMD_SET_CONFIG, value, result⟩ d
      = (daemon_setConfig RELEASE value d).emit
          (Effect.ReplyMsg ⟨XMSG_CMD_SET_CONFIG, value, 0⟩) := rfl

theorem daemon_handleMessage_configByte (RELEASE : Bool) (msg : XMouseMsg) (d : Daemon)
    (h : msg.command ≠ XMSG_CMD_SET_CONFIG) :
    (daemon_handleMessage RELEASE msg d).s_configByte = d.s_configByte := by
  unfold daemon_handleMessage
  rw [if_neg h]
  split_ifs <;> rfl

theorem modeInv_handleMessage (RELEASE : Bool) (msg : XMouseMsg) (d : Daemon) (h : ModeInv d) :
    ModeInv (daemon_handleMessage RELEASE msg d) := by
  unfold daemon_handleMessage
  split_ifs
  · exact h
  · exact modeInv_setConfig RELEASE msg.value d h
  · exact h
  · exact h

theorem modeInv_timerTick (env : TickEnv) (d : Daemon) (h : ModeInv d) :
    ModeInv (daemon_timerTick env d) := by
  obtain ⟨h1, h2, h3⟩ := h
  have hc := daemon_timerTick_configByte env d
  by_cases hf : d.s_configByte &&& CONFIG_FIXED_MODE ≠ 0
  · obtain ⟨a1, a2, -⟩ := daemon_timerTick_fixed env d hf
    refine ⟨?_, ?_, ?_⟩
    · rw [a1, hc]; exact h1
    · intro _; rw [a2, hc]; exact h2 hf
    · intro hz; rw [hc] at hz; exact absurd hz hf
  · have hf0 : d.s_configByte &&& CONFIG_FIXED_MODE = 0 := by simpa using hf
    obtain ⟨a1, a2, -⟩ := daemon_timerTick_adaptive env d hf0
    refine ⟨?_, ?_, ?_⟩
    · rw [a1, hc, daemon_GetAdaptiveInterval_mode]; exact h1
    · intro hz; rw [hc] at hz; exact absurd hz hf
    · intro _; rw [a1, a2]; rfl

theorem modeInv_InitState (env : InitEnv) (d : Daemon) : ModeInv (daemon_InitState env d) := by
  unfold daemon_InitState
  simp only []
  generalize (if d.s_configByte = 0 then DEFAULT_CONFIG_BYTE else d.s_configByte) = c
  split_ifs with hfix
  · exact ⟨rfl, fun _ => rfl, fun h => absurd h hfix⟩
  · exact ⟨rfl, fun h => absurd h hfix, fun _ => rfl⟩

theorem daemon_Init_success (env : InitEnv) (d : Daemon) (h : (daemon_Init env d).1 = true) :
    (daemon_Init env d).2
      = daemon_InitState env
          { d with handles := (daemon_InitResources env d.handles).2.1,
                   trace := d.trace ++ (daemon_InitResources env d.handles).2.2 } := by
  unfold daemon_Init at h ⊢
  simp only [] at h ⊢
  split_ifs at h ⊢ with hr
  rfl

theorem modeInv_Init (env : InitEnv) (d : Daemon) (h : (daemon_Init env d).1 = true) :
    ModeInv (daemon_Init env d).2 := by
  rw [daemon_Init_success env d h]
  exact modeInv_InitState env _

theorem modeInv_run (RELEASE : Bool) (inputs : List DaemonInput) (d : Daemon) (h : ModeInv d) :
    ModeInv (daemon_run RELEASE d inputs) := by
  induction inputs generalizing d with
  | nil => exact h
  | cons i is ih =>
    cases i with
    | message m => exact ih _ (modeInv_handleMessage RELEASE m d h)
    | tick env => exact ih _ (modeInv_timerTick env d h)

theorem modeInv_running (RELEASE : Bool) (ienv : InitEnv) (d0 : Daemon)
    (inputs : List DaemonInput) (h : (daemon_Init ienv d0).1 = true) :
    ModeInv (running RELEASE ienv d0 inputs) :=
  modeInv_run RELEASE inputs _ (modeInv_Init ienv d0 h)

/-- The SET_CONFIG case never sets `quit`, whatever the value: the byte stored is the low
byte of the value (without bit 7 in a `RELEASE` build), also when its bits 0 and 1 are
both zero. -/
theorem set_config_never_quits (RELEASE : Bool) (value result : Nat) (d : Daemon) :
    (daemon_handleMessage RELEASE ⟨XMSG_CMD_SET_CONFIG, value, result⟩ d).quit = d.quit
    ∧ (daemon_handleMessage RELEASE ⟨XMSG_CMD_SET_CONFIG, value, result⟩ d).s_configByte
        = (if RELEASE then (value % 256) &&& 127 else value % 256) := by
  rw [daemon_handleMessage_setConfig]
  exact ⟨daemon_setConfig_quit RELEASE value d, daemon_setConfig_configByte RELEASE value d⟩

/-- The adaptive branch of `daemon_Init` leaves the start state `adaptiveStart` of the
profile selected by the configuration byte. -/
theorem daemon_Init_adaptiveStart (env : InitEnv) (d : Daemon)
    (h : (daemon_Init env d).1 = true)
    (hz : d.s_configByte ≠ 0) (ha : d.s_configByte &&& CONFIG_FIXED_MODE = 0) :
    (daemon_Init env d).2.adaptive = adaptiveStart (modeIndexOf d.s_configByte) := by
  rw [daemon_Init_success env d h]
  unfold daemon_InitState
  simp only [if_neg hz]
  rw [if_neg (by simpa using ha)]
  rfl

theorem modeIndexOf_eq (c : Nat) : modeIndexOf c = c / 16 % 4 := by
  have h1 : c &&& 48 = (c % 64) &&& 48 := by
    have e : c &&& 48 = (c &&& 63) &&& 48 := by rw [Nat.and_assoc]; rfl
    rw [e]
    exact congrArg (· &&& 48) (Nat.and_pow_two_sub_one_eq_mod c 6)
  have h2 : ∀ x, x < 64 → ((x &&& 48) >>> 4) % 4 = x / 16 % 4 := by decide
  unfold modeIndexOf
  simp only [CONFIG_INTERVAL_MASK, CONFIG_INTERVAL_SHIFT]
  rw [h1, h2 _ (Nat.mod_lt _ (by decide))]
  omega

/-! ## The wrap-corrected wheel delta -/

/-- C1. In a timer tick with the wheel enabled, for every previous raw counter value
`prev` and current raw counter value `curr` in `0..255`, the wheel delta the tick
computes lies in `-128..127`, is congruent to `curr - prev` modulo 256, is 0 exactly
when `curr = prev`, and is `-128` when the naive difference is `+128` or `-128`.  The
delta of `daemon_processWheel` in the older variant `xmouse.c` has the same four
properties. -/
theorem wheel_delta_wrap_corrected (env : TickEnv) (d : Daemon) (prev curr : Nat)
    (hw : d.s_configByte &&& CONFIG_WHEEL_ENABLED ≠ 0)
    (hprev : d.s_lastWHCounter = prev) (hcurr : env.SAGA_WHEELCOUNTER = curr)
    (hp : prev ≤ 255) (hc : curr ≤ 255) :
    (-128 ≤ (tickSample env d).currentWHDelta ∧ (tickSample env d).currentWHDelta ≤ 127
      ∧ (tickSample env d).currentWHDelta % 256 = ((curr : Int) - (prev : Int)) % 256
      ∧ ((tickSample env d).currentWHDelta = 0 ↔ curr = prev)
      ∧ ((curr : Int) - (prev : Int) = 128 ∨ (curr : Int) - (prev : Int) = -128 →
          (tickSample env d).currentWHDelta = -128))
    ∧ (-128 ≤ daemon_processWheel_delta prev curr ∧ daemon_processWheel_delta prev curr ≤ 127
      ∧ daemon_processWheel_delta prev curr % 256 = ((curr : Int) - (prev : Int)) % 256
      ∧ (daemon_processWheel_delta prev curr = 0 ↔ curr = prev)
      ∧ ((curr : Int) - (prev : Int) = 128 ∨ (curr : Int) - (prev : Int) = -128 →
          daemon_processWheel_delta prev curr = -128)) := by
  subst hprev hcurr
  have hmod : env.SAGA_WHEELCOUNTER % 256 = env.SAGA_WHEELCOUNTER := Nat.mod_eq_of_lt (by omega)
  refine ⟨?_, ?_⟩
  · by_cases hne : d.s_lastWHCounter = env.SAGA_WHEELCOUNTER
    · simp [tickSample, hw, hmod, hne]
    · simp only [tickSample, hw, hmod, wheelDelta, ne_eq, hne, not_false_eq_true, if_true]
      split_ifs <;> omega
  · simp only [daemon_processWheel_delta]
    split_ifs <;> omega

theorem wheel_delta_wrap_corrected_witness :
    -128 ≤ (tickSample { tickQuiet with SAGA_WHEELCOUNTER := 3 }
              { (daemon_Init initOk (loaded 0x13)).2 with s_lastWHCounter := 250 }).currentWHDelta
    ∧ (tickSample { tickQuiet with SAGA_WHEELCOUNTER := 3 }
              { (daemon_Init initOk (loaded 0x13)).2 with s_lastWHCounter := 250 }).currentWHDelta
        % 256 = (((3 : Nat) : Int) - ((250 : Nat) : Int)) % 256 :=
  have h := wheel_delta_wrap_corrected { tickQuiet with SAGA_WHEELCOUNTER := 3 }
    { (daemon_Init initOk (loaded 0x13)).2 with s_lastWHCounter := 250 } 250 3
    (by decide) rfl rfl (by decide) (by decide)
  ⟨h.1.1, h.1.2.2.1⟩

theorem daemon_InitState_adaptive_balanced (env : InitEnv) (d : Daemon)
    (h : d.s_configByte = 0x13) : (daemon_InitState env d).adaptive = adaptiveStart 1 := by
  unfold daemon_InitState
  rw [h]
  rfl

theorem specStep32_eq_specStep (p : AdaptiveMode) (f : Bool) (state interval accumulator : Nat)
    (h : accumulator + interval < 4294967296) :
    specStep32 p f state interval accumulator = specStep p f state interval accumulator := by
  unfold specStep32 specStep
  simp only [ULONG_RANGE, Nat.mod_eq_of_lt h]

/-- C2 (as amended). For each built-in profile `modeAt i` and every scheduler state
reachable from the start state (IDLE at `idleUs`, accumulator 0) by any sequence of
activity flags, one call of `daemon_GetAdaptiveInterval` with either flag leaves exactly
the state, interval and accumulator that the rules of spec section 4.1 prescribe, where
the accumulator is reset to 0 on activity and else increased by the interval in effect
before the call modulo `2^32`; the call returns the new interval and keeps the profile.
When the state before the call is not IDLE the sum does not reach `2^32`, so there the
accumulator is increased by exactly the interval. -/
theorem adaptive_step_follows_spec (i : Nat) (flags : List Bool) (hadActivity : Bool) :
    ((daemon_GetAdaptiveInterval hadActivity
        (runTicks (adaptiveStart i) flags)).2.s_adaptiveState,
     (daemon_GetAdaptiveInterval hadActivity
        (runTicks (adaptiveStart i) flags)).2.s_adaptiveInterval,
     (daemon_GetAdaptiveInterval hadActivity
        (runTicks (adaptiveStart i) flags)).2.s_adaptiveInactive)
      = specStep32 (modeAt i) hadActivity
          (runTicks (adaptiveStart i) flags).s_adaptiveState
          (runTicks (adaptiveStart i) flags).s_adaptiveInterval
          (runTicks (adaptiveStart i) flags).s_adaptiveInactive
    ∧ (daemon_GetAdaptiveInterval hadActivity (runTicks (adaptiveStart i) flags)).1
        = (daemon_GetAdaptiveInterval hadActivity
            (runTicks (adaptiveStart i) flags)).2.s_adaptiveInterval
    ∧ (daemon_GetAdaptiveInterval hadActivity
        (runTicks (adaptiveStart i) flags)).2.s_activeMode = modeAt i
    ∧ ((runTicks (adaptiveStart i) flags).s_adaptiveState ≠ POLL_STATE_IDLE →
        ((daemon_GetAdaptiveInterval hadActivity
            (runTicks (adaptiveStart i) flags)).2.s_adaptiveState,
         (daemon_GetAdaptiveInterval hadActivity
            (runTicks (adaptiveStart i) flags)).2.s_adaptiveInterval,
         (daemon_GetAdaptiveInterval hadActivity
            (runTicks (adaptiveStart i) flags)).2.s_adaptiveInactive)
          = specStep (modeAt i) hadActivity
              (runTicks (adaptiveStart i) flags).s_adaptiveState
              (runTicks (adaptiveStart i) flags).s_adaptiveInterval
              (runTicks (adaptiveStart i) flags).s_adaptiveInactive) := by
  have hinv := schedInv_runTicks (modeAt i) (modeOK_modeAt i) flags _ (schedInv_start i)
  have hacc := accInv_runTicks (modeAt i) (modeOK_modeAt i) flags _ (schedInv_start i)
    (Or.inl rfl)
  have hspec := step_eq_specStep32 (modeAt i) (modeOK_modeAt i) hadActivity _ hinv
  refine ⟨hspec, rfl, ?_, ?_⟩
  · rw [daemon_GetAdaptiveInterval_mode]
    exact hinv.1
  · intro hs
    rw [hspec]
    exact specStep32_eq_specStep _ _ _ _ _
      (no_wrap_outside_idle (modeAt i) (modeOK_modeAt i) (modeNoWrap_modeAt i) _ hinv hacc hs)

/-- C2, counterexample. Under profile 1 the state IDLE at 100000 with accumulator
4294900000 is reached from the start state by 42949 ticks without activity; one more
such tick leaves the accumulator at 32704, whereas increasing it by the interval in
effect gives 4295000000. -/
theorem accumulator_wraps_in_idle :
    runTicks (adaptiveStart 1) (List.replicate 42949 false)
      = ⟨modeAt 1, POLL_STATE_IDLE, 100000, 4294900000⟩
    ∧ ((daemon_GetAdaptiveInterval false ⟨modeAt 1, POLL_STATE_IDLE, 100000, 4294900000⟩).2.s_adaptiveState,
       (daemon_GetAdaptiveInterval false ⟨modeAt 1, POLL_STATE_IDLE, 100000, 4294900000⟩).2.s_adaptiveInterval,
       (daemon_GetAdaptiveInterval false ⟨modeAt 1, POLL_STATE_IDLE, 100000, 4294900000⟩).2.s_adaptiveInactive)
        = (POLL_STATE_IDLE, 100000, 32704)
    ∧ specStep (modeAt 1) false POLL_STATE_IDLE 100000 4294900000
        = (POLL_STATE_IDLE, 100000, 4295000000) := by
  refine ⟨?_, by decide, by decide⟩
  have h := idle_noactivity_run (modeAt 1) 0 42949 (by decide)
  rw [balanced_idleUs] at h
  exact h

/-- C5. Configuration 0x13 (profile 1, adaptive). From the adaptive state variables that
a successful `daemon_Init` leaves, and from every state reached from them by any
sequence of activity flags, `225 + k` consecutive ticks without activity (for every
`k`) leave the scheduler in state IDLE with interval 100000, and the next tick without
activity returns 100000. -/
theorem balanced_inactivity_settles_idle (ienv : InitEnv) (d0 : Daemon) (flags : List Bool)
    (k : Nat) (hcfg : d0.s_configByte = 0x13) (hinit : (daemon_Init ienv d0).1 = true) :
    (runTicks (runTicks (daemon_Init ienv d0).2.adaptive flags)
        (List.replicate (225 + k) false)).s_adaptiveState = POLL_STATE_IDLE
    ∧ (runTicks (runTicks (daemon_Init ienv d0).2.adaptive flags)
        (List.replicate (225 + k) false)).s_adaptiveInterval = 100000
    ∧ (daemon_GetAdaptiveInterval false
        (runTicks (runTicks (daemon_Init ienv d0).2.adaptive flags)
          (List.replicate (225 + k) false))).1 = 100000 := by
  have hstart : (daemon_Init ienv d0).2.adaptive = adaptiveStart 1 := by
    rw [daemon_Init_success ienv d0 hinit]
    exact daemon_InitState_adaptive_balanced ienv _ hcfg
  rw [hstart]
  have hinv := schedInv_runTicks (modeAt 1) (modeOK_modeAt 1) flags _ (schedInv_start 1)
  have hle := ticksToIdle_le _ hinv
  obtain ⟨h1, h2⟩ := balanced_idle_within (225 + k) _ hinv (by omega)
  refine ⟨h1, h2, ?_⟩
  have hinv2 := schedInv_runTicks (modeAt 1) (modeOK_modeAt 1) (List.replicate (225 + k) false)
    _ hinv
  generalize runTicks (runTicks (adaptiveStart 1) flags) (List.replicate (225 + k) false) = a
    at h1 h2 hinv2
  obtain ⟨m, st, iv, acc⟩ := a
  simp only at h1 h2
  subst h1 h2
  rfl

theorem balanced_inactivity_settles_idle_witness :
    (runTicks (runTicks (daemon_Init initOk (loaded 0x13)).2.adaptive [true, true, false])
        (List.replicate (225 + 0) false)).s_adaptiveState = POLL_STATE_IDLE
    ∧ (runTicks (runTicks (daemon_Init initOk (loaded 0x13)).2.adaptive [true, true, false])
        (List.replicate (225 + 0) false)).s_adaptiveInterval = 100000
    ∧ (daemon_GetAdaptiveInterval false
        (runTicks (runTicks (daemon_Init initOk (loaded 0x13)).2.adaptive [true, true, false])
          (List.replicate (225 + 0) false))).1 = 100000 :=
  balanced_inactivity_settles_idle initOk (loaded 0x13) [true, true, false] 0 rfl (by decide)

set_option maxRecDepth 20000 in
/-- The bound of 225 ticks is attained: from BURST with an empty accumulator, reached by
35 ticks with activity, 224 ticks without activity are not enough. -/
theorem balanced_bound_attained :
    (runTicks (runTicks (adaptiveStart 1) (List.replicate 35 true))
        (List.replicate 224 false)).s_adaptiveState = POLL_STATE_TO_IDLE := by
  decide

theorem daemon_step_configByte (RELEASE : Bool) (d : Daemon) (i : DaemonInput)
    (h : ∀ m, i = DaemonInput.message m → m.command ≠ XMSG_CMD_SET_CONFIG) :
    (daemon_step RELEASE d i).s_configByte = d.s_configByte := by
  cases i with
  | message m => exact daemon_handleMessage_configByte RELEASE m d (h m rfl)
  | tick env => exact daemon_timerTick_configByte env d

theorem daemon_run_configByte (RELEASE : Bool) (inputs : List DaemonInput) (d : Daemon)
    (h : ∀ m, DaemonInput.message m ∈ inputs → m.command ≠ XMSG_CMD_SET_CONFIG) :
    (daemon_run RELEASE d inputs).s_configByte = d.s_configByte := by
  induction inputs generalizing d with
  | nil => rfl
  | cons i is ih =>
    have h1 : (daemon_step RELEASE d i).s_configByte = d.s_configByte :=
      daemon_step_configByte RELEASE d i (fun m hm => h m (by rw [hm]; exact List.mem_cons_self _ _))
    have h2 := ih (daemon_step RELEASE d i) (fun m hm => h m (List.mem_cons_of_mem _ hm))
    exact h2.trans h1

theorem release_mask_eq_mod (v : Nat) : (v % 256) &&& 127 = v % 128 := by
  have h := Nat.and_pow_two_sub_one_eq_mod (v % 256) 7
  have e : (v % 256) &&& 127 = (v % 256) % 128 := h
  rw [e]
  omega

/-- C6 (as amended). SET_CONFIG with value `v`, then any events other than SET_CONFIG,
then GET_STATUS: the reply to GET_STATUS carries `v mod 256` in a build without
`RELEASE`, and `v mod 128` (bit 7, the debug bit, forced to 0) in a `RELEASE` build; the
bits 0-6, among them the profile bits 4-5 and the fixed/adaptive bit 6, are those of `v`
in both builds, and the result is below 256. -/
theorem set_config_then_get_status (RELEASE : Bool) (v result value1 result1 : Nat)
    (d : Daemon) (between : List DaemonInput)
    (hno : ∀ m, DaemonInput.message m ∈ between → m.command ≠ XMSG_CMD_SET_CONFIG) :
    (daemon_handleMessage RELEASE ⟨XMSG_CMD_GET_STATUS, value1, result1⟩
        (daemon_run RELEASE
          (daemon_handleMessage RELEASE ⟨XMSG_CMD_SET_CONFIG, v, result⟩ d) between)).trace
      = (daemon_run RELEASE
          (daemon_handleMessage RELEASE ⟨XMSG_CMD_SET_CONFIG, v, result⟩ d) between).trace
        ++ [Effect.ReplyMsg ⟨XMSG_CMD_GET_STATUS, value1,
              if RELEASE then v % 128 else v % 256⟩]
    ∧ (if RELEASE then v % 128 else v % 256) % 128 = v % 128
    ∧ (if RELEASE then v % 128 else v % 256) < 256 := by
  refine ⟨?_, ?_, ?_⟩
  · rw [daemon_handleMessage_getStatus, daemon_run_configByte RELEASE between _ hno,
      daemon_handleMessage_setConfig]
    show _ ++ [Effect.ReplyMsg ⟨XMSG_CMD_GET_STATUS, value1,
        (daemon_setConfig RELEASE v d).s_configByte⟩] = _
    rw [daemon_setConfig_configByte, release_mask_eq_mod]
  · split_ifs <;> omega
  · split_ifs <;> omega

theorem set_config_then_get_status_witness :
    (daemon_handleMessage true ⟨XMSG_CMD_GET_STATUS, 0, 0⟩
        (daemon_run true
          (daemon_handleMessage true ⟨XMSG_CMD_SET_CONFIG, 0x53, 0⟩ (daemon_Init initOk (loaded 0x13)).2)
          [DaemonInput.tick tickQuiet, DaemonInput.message ⟨XMSG_CMD_GET_STATUS, 0, 0⟩])).trace
      = (daemon_run true
          (daemon_handleMessage true ⟨XMSG_CMD_SET_CONFIG, 0x53, 0⟩ (daemon_Init initOk (loaded 0x13)).2)
          [DaemonInput.tick tickQuiet, DaemonInput.message ⟨XMSG_CMD_GET_STATUS, 0, 0⟩]).trace
        ++ [Effect.ReplyMsg ⟨XMSG_CMD_GET_STATUS, 0, if true then 0x53 % 128 else 0x53 % 256⟩]
    ∧ (if true then 0x53 % 128 else 0x53 % 256) % 128 = 0x53 % 128
    ∧ (if true then 0x53 % 128 else 0x53 % 256) < 256 :=
  set_config_then_get_status true 0x53 0 0 0 (daemon_Init initOk (loaded 0x13)).2
    [DaemonInput.tick tickQuiet, DaemonInput.message ⟨XMSG_CMD_GET_STATUS, 0, 0⟩]
    (by
      intro m hm
      simp only [List.mem_cons, List.mem_singleton, List.not_mem_nil, or_false, false_or,
        reduceCtorEq, DaemonInput.message.injEq] at hm
      rw [hm]
      decide)

/-- C6, counterexample. In a `RELEASE` build, SET_CONFIG with value 0x93 followed by
GET_STATUS returns 0x13, not 0x93: the debug bit 7 is not preserved. -/
theorem release_build_drops_debug_bit :
    (daemon_handleMessage true ⟨XMSG_CMD_GET_STATUS, 0, 0⟩
        (daemon_handleMessage true ⟨XMSG_CMD_SET_CONFIG, 0x93, 0⟩
          (daemon_Init initOk (loaded 0x13)).2)).trace.getLast?
      = some (Effect.ReplyMsg ⟨XMSG_CMD_GET_STATUS, 0, 0x13⟩)
    ∧ 0x93 % 256 ≠ 0x13 := by
  decide

/-- C7. A message whose command is none of QUIT (0), SET_CONFIG (1), GET_STATUS (2) is
replied with result `0xFFFFFFFF`, and that reply is the only thing that happens: the
state after it is the state before it with the reply appended to the trace, so the
configuration byte, the adaptive state variables, the poll interval and the quit flag
are unchanged and no timer request is sent, aborted or awaited; a wake-up that handles
just this message leaves the loop only if `quit` was already set. -/
theorem unknown_command_replies_error (RELEASE : Bool) (msg : XMouseMsg) (d : Daemon)
    (timerSig : Bool) (env : TickEnv)
    (h0 : msg.command ≠ XMSG_CMD_QUIT) (h1 : msg.command ≠ XMSG_CMD_SET_CONFIG)
    (h2 : msg.command ≠ XMSG_CMD_GET_STATUS) :
    daemon_handleMessage RELEASE msg d
      = { d with trace := d.trace ++ [Effect.ReplyMsg ⟨msg.command, msg.value, 0xFFFFFFFF⟩] }
    ∧ (daemon_handleMessage RELEASE msg d).s_configByte = d.s_configByte
    ∧ (daemon_handleMessage RELEASE msg d).adaptive = d.adaptive
    ∧ (daemon_handleMessage RELEASE msg d).s_pollInterval = d.s_pollInterval
    ∧ (daemon_handleMessage RELEASE msg d).quit = d.quit
    ∧ timerArms (daemon_handleMessage RELEASE msg d).trace = timerArms d.trace
    ∧ (daemon_loopBody RELEASE ⟨false, true, timerSig, [msg], env⟩ d).2 = d.quit := by
  have h := daemon_handleMessage_unknown RELEASE msg d h0 h1 h2
  refine ⟨h, ?_, ?_, ?_, ?_, ?_, ?_⟩
  · rw [h]; rfl
  · rw [h]; rfl
  · rw [h]; rfl
  · rw [h]; rfl
  · rw [h]
    simp [Daemon.emit, timerArms_append, timerArms]
  · simp only [daemon_loopBody, daemon_drainMessages, List.foldl, h]
    cases hq : d.quit <;> simp [Daemon.emit, hq]

theorem unknown_command_replies_error_witness :
    daemon_handleMessage false ⟨7, 5, 0⟩ (daemon_Init initOk (loaded 0x13)).2
      = { (daemon_Init initOk (loaded 0x13)).2 with
            trace := (daemon_Init initOk (loaded 0x13)).2.trace
                      ++ [Effect.ReplyMsg ⟨7, 5, 0xFFFFFFFF⟩] }
    ∧ (daemon_loopBody false ⟨false, true, true, [⟨7, 5, 0⟩], tickQuiet⟩
          (daemon_Init initOk (loaded 0x13)).2).2 = false :=
  have h := unknown_command_replies_error false ⟨7, 5, 0⟩ (daemon_Init initOk (loaded 0x13)).2
    true tickQuiet (by decide) (by decide) (by decide)
  ⟨h.1, h.2.2.2.2.2.2⟩

/-- C9, the code at the failing input. The daemon started with 0x13 receives SET_CONFIG
with value 0x10 (bits 0 and 1 both zero): the message is replied with result 0, the
configuration byte becomes 0x10, `quit` stays `FALSE` and the loop is not left. -/
theorem set_config_without_features_keeps_running :
    (daemon_loopBody false ⟨false, true, false, [⟨XMSG_CMD_SET_CONFIG, 0x10, 0⟩], tickQuiet⟩
        (daemon_Init initOk (loaded 0x13)).2).2 = false
    ∧ (daemon_loopBody false ⟨false, true, false, [⟨XMSG_CMD_SET_CONFIG, 0x10, 0⟩], tickQuiet⟩
        (daemon_Init initOk (loaded 0x13)).2).1.s_configByte = 0x10
    ∧ (daemon_loopBody false ⟨false, true, false, [⟨XMSG_CMD_SET_CONFIG, 0x10, 0⟩], tickQuiet⟩
        (daemon_Init initOk (loaded 0x13)).2).1.quit = false
    ∧ 0x10 &&& CONFIG_FEATURES_MASK = 0
    ∧ (daemon_loopBody false ⟨false, true, false, [⟨XMSG_CMD_SET_CONFIG, 0x10, 0⟩], tickQuiet⟩
        (daemon_Init initOk (loaded 0x13)).2).1.trace.getLast?
        = some (Effect.ReplyMsg ⟨XMSG_CMD_SET_CONFIG, 0x10, 0⟩) := by
  decide

/-- C10. Fixed mode. For the running daemon (after a successful `daemon_Init` and any
sequence of control messages and timer ticks) whose configuration byte has bit 6 set,
one timer tick, whatever it reads, sends exactly one timer request, with a delay of
exactly the `burstUs` of the table entry selected by bits 4-5 of the configuration byte,
and leaves the adaptive state variables (profile, state, interval, accumulator), the
poll interval and the configuration byte unchanged. -/
theorem fixed_mode_tick_rearms_burst (RELEASE : Bool) (ienv : InitEnv) (d0 : Daemon)
    (inputs : List DaemonInput) (env : TickEnv)
    (hinit : (daemon_Init ienv d0).1 = true)
    (hfixed : (running RELEASE ienv d0 inputs).s_configByte &&& CONFIG_FIXED_MODE ≠ 0) :
    timerArms (daemon_timerTick env (running RELEASE ienv d0 inputs)).trace
      = timerArms (running RELEASE ienv d0 inputs).trace
        ++ [(modeAt ((running RELEASE ienv d0 inputs).s_configByte / 16 % 4)).burstUs]
    ∧ (daemon_timerTick env (running RELEASE ienv d0 inputs)).adaptive
        = (running RELEASE ienv d0 inputs).adaptive
    ∧ (daemon_timerTick env (running RELEASE ienv d0 inputs)).s_pollInterval
        = (running RELEASE ienv d0 inputs).s_pollInterval
    ∧ (daemon_timerTick env (running RELEASE ienv d0 inputs)).s_configByte
        = (running RELEASE ienv d0 inputs).s_configByte
    ∧ ((running RELEASE ienv d0 inputs).s_configByte = 0x53 →
        timerArms (daemon_timerTick env (running RELEASE ienv d0 inputs)).trace
          = timerArms (running RELEASE ienv d0 inputs).trace ++ [10000]) := by
  obtain ⟨-, h2, -⟩ := modeInv_running RELEASE ienv d0 inputs hinit
  obtain ⟨a1, a2, a3⟩ := daemon_timerTick_fixed env _ hfixed
  have hp := h2 hfixed
  rw [modeIndexOf_eq] at hp
  rw [hp] at a3
  refine ⟨a3, a1, a2, daemon_timerTick_configByte env _, ?_⟩
  intro h53
  rw [a3, h53]
  rfl

theorem fixed_mode_tick_rearms_burst_witness :
    timerArms (daemon_timerTick tickQuiet (running false initOk (loaded 0x53) [])).trace
      = timerArms (running false initOk (loaded 0x53) []).trace ++ [10000] :=
  (fixed_mode_tick_rearms_burst false initOk (loaded 0x53) [] tickQuiet
    (by decide) (by decide)).2.2.2.2 (by decide)

/-! ## The client -/

theorem dropWhile_blanks (ws t : List Nat) (hws : ∀ c ∈ ws, c = 32 ∨ c = 9) :
    (ws ++ 48 :: t).dropWhile (fun c => c == 32 || c == 9) = 48 :: t := by
  induction ws with
  | nil => rfl
  | cons w ws ih =>
    have hw : (w == 32 || w == 9) = true := by
      rcases hws w (List.mem_cons_self _ _) with h | h <;> simp [h]
    rw [List.cons_append, List.dropWhile_cons]
    simp only [hw, if_true]
    exact ih (fun c hc => hws c (List.mem_cons_of_mem _ hc))

theorem parseHexDigit_eq (c : Nat) (h : isHexDigit c) :
    parseHexDigit c = (hexValue c : Int) ∧ hexValue c < 16 := by
  unfold isHexDigit at h
  unfold parseHexDigit hexValue
  split_ifs <;> omega

theorem hex_byte (h l : Nat) (hh : h < 16) (hl : l < 16) :
    ((h <<< 4) ||| l) % 256 = 16 * h + l := by
  have key : ∀ a, a < 16 → ∀ b, b < 16 → ((a <<< 4) ||| b) % 256 = 16 * a + b := by decide
  exact key h hh l hl

theorem features_release (b : Nat) : (b &&& 127) &&& 3 = b &&& 3 := by
  rw [Nat.and_assoc]; rfl

theorem parseArguments_hex (RELEASE : Bool) (ws : List Nat) (X H L : Nat) (rest : List Nat)
    (s_configByte : Nat) (hws : ∀ c ∈ ws, c = 32 ∨ c = 9) (hX : X = 120 ∨ X = 88)
    (hH : isHexDigit H) (hL : isHexDigit L) :
    parseArguments RELEASE (ws ++ 48 :: X :: H :: L :: rest) s_configByte
      = if (16 * hexValue H + hexValue L) &&& 3 = 0 then (START_MODE_STOP, s_configByte, [])
        else (START_MODE_CONFIG,
              (if RELEASE then (16 * hexValue H + hexValue L) &&& 127
               else 16 * hexValue H + hexValue L), []) := by
  obtain ⟨eH, bH⟩ := parseHexDigit_eq H hH
  obtain ⟨eL, bL⟩ := parseHexDigit_eq L hL
  unfold parseArguments
  rw [dropWhile_blanks ws _ hws]
  have c0 : charAt (48 :: X :: H :: L :: rest) 0 = 48 := rfl
  have c1 : charAt (48 :: X :: H :: L :: rest) 1 = X := rfl
  have c2 : charAt (48 :: X :: H :: L :: rest) 2 = H := rfl
  have c3 : charAt (48 :: X :: H :: L :: rest) 3 = L := rfl
  simp only [c0, c1, c2, c3, eH, eL, Int.toNat_ofNat]
  rw [if_neg (by decide), if_neg (fun h => absurd h.1 (by decide)),
    if_neg (fun h => absurd h.1.1 (by decide)), if_neg (fun h => absurd h.1 (by decide)),
    if_pos ⟨⟨trivial, hX⟩, ⟨Int.ofNat_nonneg _, Int.ofNat_nonneg _⟩⟩]
  rw [hex_byte _ _ bH bL]
  cases RELEASE
  · rfl
  · show (if ((16 * hexValue H + hexValue L) &&& 127) &&& 3 = 0 then _ else _) = _
    rw [features_release]
    rfl



/-- C8. A hexadecimal argument `0xHL` (after any blanks, `x` in either case, whatever
follows the two digits) whose byte `b = 16 * H + L` has bits 0 and 1 both zero:
`parseArguments` returns `START_MODE_STOP`, leaves `s_configByte` as it was and prints
nothing, whatever the other six bits of `b` and in both builds; and `_start`, once
`dos.library` is open, creates no daemon process: with a daemon port present it calls
`sendDaemonMessage` once, with QUIT, and reports the outcome; without one it only prints
that the daemon is not running. -/
theorem hex_byte_without_features_is_stop (RELEASE : Bool) (env : StartEnv)
    (ws : List Nat) (X H L : Nat) (rest : List Nat) (s_configByte : Nat)
    (hws : ∀ c ∈ ws, c = 32 ∨ c = 9) (hX : X = 120 ∨ X = 88)
    (hH : isHexDigit H) (hL : isHexDigit L)
    (hb : (16 * hexValue H + hexValue L) &&& 3 = 0)
    (hargs : env.args = ws ++ 48 :: X :: H :: L :: rest)
    (hdos : env.OpenLibrary_dos = true) :
    parseArguments RELEASE env.args s_configByte = (START_MODE_STOP, s_configByte, [])
    ∧ _start RELEASE env s_configByte
        = (if env.FindPort = true then
             (if env.sendDaemonMessage XMSG_CMD_QUIT 0 = 0 then
                (RETURN_OK, s_configByte,
                 [ClientEffect.sendDaemonMessage XMSG_CMD_QUIT 0,
                  ClientEffect.Print MSG_DAEMON_STOPPED])
              else
                (RETURN_FAIL, s_configByte,
                 [ClientEffect.sendDaemonMessage XMSG_CMD_QUIT 0,
                  ClientEffect.Print MSG_ERR_STOP_DAEMON]))
           else (RETURN_OK, s_configByte, [ClientEffect.Print MSG_DAEMON_NOT_RUNNING]))
    ∧ (∀ started, ClientEffect.CreateNewProcTags started ∉ (_start RELEASE env s_configByte).2.2) := by
  have hp : parseArguments RELEASE env.args s_configByte = (START_MODE_STOP, s_configByte, []) := by
    rw [hargs, parseArguments_hex RELEASE ws X H L rest s_configByte hws hX hH hL, if_pos hb]
  have hs : _start RELEASE env s_configByte
        = (if env.FindPort = true then
             (if env.sendDaemonMessage XMSG_CMD_QUIT 0 = 0 then
                (RETURN_OK, s_configByte,
                 [ClientEffect.sendDaemonMessage XMSG_CMD_QUIT 0,
                  ClientEffect.Print MSG_DAEMON_STOPPED])
              else
                (RETURN_FAIL, s_configByte,
                 [ClientEffect.sendDaemonMessage XMSG_CMD_QUIT 0,
                  ClientEffect.Print MSG_ERR_STOP_DAEMON]))
           else (RETURN_OK, s_configByte, [ClientEffect.Print MSG_DAEMON_NOT_RUNNING])) := by
    unfold _start
    simp only [hdos, hp, START_MODE_STOP, START_MODE_STATUS, START_MODE_START, START_MODE_CONFIG,
      START_MODE_TOGGLE]
    cases hf : env.FindPort <;> simp
  refine ⟨hp, hs, ?_⟩
  intro started
  rw [hs]
  split_ifs <;> simp

theorem hex_byte_without_features_is_stop_witness :
    parseArguments false [48, 120, 49, 48, 10] 0x13 = (START_MODE_STOP, 0x13, [])
    ∧ _start false ⟨true, [48, 120, 49, 48, 10], true, fun _ _ => 0, true⟩ 0x13
        = (RETURN_OK, 0x13,
           [ClientEffect.sendDaemonMessage XMSG_CMD_QUIT 0, ClientEffect.Print MSG_DAEMON_STOPPED]) :=
  have h := hex_byte_without_features_is_stop false
    ⟨true, [48, 120, 49, 48, 10], true, fun _ _ => 0, true⟩ [] 120 49 48 [10] 0x13
    (by simp) (Or.inl rfl) (by unfold isHexDigit; decide) (by unfold isHexDigit; decide)
    (by decide) rfl rfl
  ⟨h.1, h.2.1⟩

/-! ## The SET_CONFIG case: when the scheduler is reinitialised -/

theorem xor_and_ne_zero (a b m : Nat) : (a ^^^ b) &&& m ≠ 0 ↔ a &&& m ≠ b &&& m := by
  rw [Nat.and_xor_distrib_right]
  exact not_congr Nat.xor_eq_zero

theorem intervalBits_eq (c : Nat) : (c &&& 48) >>> 4 = c / 16 % 4 := by
  have h1 : c &&& 48 = (c % 64) &&& 48 := by
    have e : c &&& 48 = (c &&& 63) &&& 48 := by rw [Nat.and_assoc]; rfl
    rw [e]
    exact congrArg (· &&& 48) (Nat.and_pow_two_sub_one_eq_mod c 6)
  have h2 : ∀ x, x < 64 → (x &&& 48) >>> 4 = x / 16 % 4 := by decide
  rw [h1, h2 _ (Nat.mod_lt _ (by decide))]
  omega

theorem fixedBit_eq (c : Nat) : c &&& 64 = c / 64 % 2 * 64 := by
  have h1 : c &&& 64 = (c % 128) &&& 64 := by
    have e : c &&& 64 = (c &&& 127) &&& 64 := by rw [Nat.and_assoc]; rfl
    rw [e]
    exact congrArg (· &&& 64) (Nat.and_pow_two_sub_one_eq_mod c 7)
  have h2 : ∀ x, x < 128 → x &&& 64 = x / 64 % 2 * 64 := by decide
  rw [h1, h2 _ (Nat.mod_lt _ (by decide))]
  omega

/-- The condition under which the SET_CONFIG case reinitialises, read on bits 4-5 and on
bit 6 of the old byte and of the low byte of the value. -/
theorem setConfig_condition (RELEASE : Bool) (v old : Nat) :
    ((old &&& CONFIG_INTERVAL_MASK) >>> CONFIG_INTERVAL_SHIFT
        ≠ ((v % 256) &&& CONFIG_INTERVAL_MASK) >>> CONFIG_INTERVAL_SHIFT
      ∨ (old ^^^ (if RELEASE then (v % 256) &&& (255 - CONFIG_DEBUG_MODE) else v % 256))
          &&& CONFIG_FIXED_MODE ≠ 0)
    ↔ (v % 256 / 16 % 4 ≠ old / 16 % 4 ∨ v % 256 / 64 % 2 ≠ old / 64 % 2) := by
  have hr : (if RELEASE then (v % 256) &&& (255 - CONFIG_DEBUG_MODE) else v % 256) / 64 % 2
      = v % 256 / 64 % 2 := by
    cases RELEASE
    · rfl
    · show ((v % 256) &&& 127) / 64 % 2 = _
      rw [release_mask_eq_mod]
      omega
  simp only [CONFIG_INTERVAL_MASK, CONFIG_INTERVAL_SHIFT, CONFIG_FIXED_MODE]
  rw [intervalBits_eq, intervalBits_eq, xor_and_ne_zero, fixedBit_eq, fixedBit_eq _, hr]
  omega

/-- The profile index and the fixed-mode test of the byte the SET_CONFIG case stores. -/
theorem setConfig_newConfig_bits (RELEASE : Bool) (v : Nat) :
    ((if RELEASE then (v % 256) &&& (255 - CONFIG_DEBUG_MODE) else v % 256)
        &&& CONFIG_INTERVAL_MASK) >>> CONFIG_INTERVAL_SHIFT % 4 = v % 256 / 16 % 4
    ∧ ((if RELEASE then (v % 256) &&& (255 - CONFIG_DEBUG_MODE) else v % 256)
        &&& CONFIG_FIXED_MODE ≠ 0 ↔ v % 256 / 64 % 2 = 1) := by
  simp only [CONFIG_INTERVAL_MASK, CONFIG_INTERVAL_SHIFT, CONFIG_FIXED_MODE]
  rw [intervalBits_eq, fixedBit_eq]
  have hr : (if RELEASE then (v % 256) &&& (255 - CONFIG_DEBUG_MODE) else v % 256)
      = (if RELEASE then v % 128 else v % 256) := by
    cases RELEASE
    · rfl
    · show (v % 256) &&& 127 = _
      rw [release_mask_eq_mod]
      rfl
  rw [hr]
  cases RELEASE
  · simp only [Bool.false_eq_true, if_false]; omega
  · simp only [if_true]; omega

/-- The SET_CONFIG case when bits 4-5 or bit 6 change: profile, accumulator, interval,
poll interval, state, and the effects appended. -/
theorem daemon_setConfig_changed (RELEASE : Bool) (v : Nat) (d : Daemon)
    (hch : v % 256 / 16 % 4 ≠ d.s_configByte / 16 % 4
      ∨ v % 256 / 64 % 2 ≠ d.s_configByte / 64 % 2) :
    (daemon_setConfig RELEASE v d).adaptive.s_activeMode = modeAt (v % 256 / 16 % 4)
    ∧ (daemon_setConfig RELEASE v d).adaptive.s_adaptiveInactive = 0
    ∧ (v % 256 / 64 % 2 = 0 →
        (daemon_setConfig RELEASE v d).adaptive.s_adaptiveState = POLL_STATE_IDLE
        ∧ (daemon_setConfig RELEASE v d).adaptive.s_adaptiveInterval
            = (modeAt (v % 256 / 16 % 4)).idleUs
        ∧ (daemon_setConfig RELEASE v d).s_pollInterval = (modeAt (v % 256 / 16 % 4)).idleUs)
    ∧ (v % 256 / 64 % 2 = 1 →
        (daemon_setConfig RELEASE v d).adaptive.s_adaptiveState = d.adaptive.s_adaptiveState
        ∧ (daemon_setConfig RELEASE v d).adaptive.s_adaptiveInterval
            = (modeAt (v % 256 / 16 % 4)).burstUs
        ∧ (daemon_setConfig RELEASE v d).s_pollInterval = (modeAt (v % 256 / 16 % 4)).burstUs)
    ∧ (daemon_setConfig RELEASE v d).trace
        = d.trace ++ [Effect.AbortIO_timer, Effect.WaitIO_timer,
            Effect.SendIO_timer ((daemon_setConfig RELEASE v d).s_pollInterval / 1000000)
              ((daemon_setConfig RELEASE v d).s_pollInterval % 1000000)] := by
  have hc := (setConfig_condition RELEASE v d.s_configByte).2 hch
  obtain ⟨hidx, hfix⟩ := setConfig_newConfig_bits RELEASE v
  unfold daemon_setConfig
  simp only []
  rw [if_pos hc, hidx]
  by_cases hf : v % 256 / 64 % 2 = 1
  · rw [if_pos (hfix.2 hf)]
    refine ⟨rfl, rfl, fun h0 => absurd hf (by omega), fun _ => ⟨rfl, rfl, rfl⟩, ?_⟩
    simp [daemon_TimerStart, Daemon.emit]
  · rw [if_neg (fun h => hf (hfix.1 h))]
    refine ⟨rfl, rfl, fun _ => ⟨rfl, rfl, rfl⟩, fun h1 => absurd h1 hf, ?_⟩
    simp [daemon_TimerStart, Daemon.emit]

/-- The SET_CONFIG case when neither bits 4-5 nor bit 6 change: only the configuration
byte is stored. -/
theorem daemon_setConfig_same (RELEASE : Bool) (v : Nat) (d : Daemon)
    (hsame : v % 256 / 16 % 4 = d.s_configByte / 16 % 4
      ∧ v % 256 / 64 % 2 = d.s_configByte / 64 % 2) :
    (daemon_setConfig RELEASE v d).adaptive = d.adaptive
    ∧ (daemon_setConfig RELEASE v d).s_pollInterval = d.s_pollInterval
    ∧ (daemon_setConfig RELEASE v d).trace = d.trace := by
  have hc : ¬ _ := fun h => ((setConfig_condition RELEASE v d.s_configByte).1 h).elim
    (fun h1 => h1 hsame.1) (fun h2 => h2 hsame.2)
  unfold daemon_setConfig
  simp only []
  rw [if_neg hc]
  exact ⟨rfl, rfl, rfl⟩

/-- C11. Handling SET_CONFIG reinitialises the scheduler exactly when the new byte (the
low byte of the value) differs from the old configuration byte in bits 4-5 or in bit 6.
When it does, the active profile becomes table entry `(new >> 4) & 3`, the accumulator
becomes 0, with bit 6 clear the state is IDLE and interval and poll interval are
`idleUs`, with bit 6 set interval and poll interval are `burstUs`, and the effects are
`AbortIO`, `WaitIO`, the `SendIO` of the timer request with that poll interval, then the
reply with result 0.  When it does not, profile, state, interval, accumulator and poll
interval are unchanged and the only effect is the reply with result 0. -/
theorem set_config_reinitialises_on_mode_change (RELEASE : Bool) (value result : Nat)
    (d : Daemon) :
    ((value % 256 / 16 % 4 ≠ d.s_configByte / 16 % 4
        ∨ value % 256 / 64 % 2 ≠ d.s_configByte / 64 % 2) →
      (daemon_handleMessage RELEASE ⟨XMSG_CMD_SET_CONFIG, value, result⟩ d).adaptive.s_activeMode
          = modeAt (value % 256 / 16 % 4)
      ∧ (daemon_handleMessage RELEASE ⟨XMSG_CMD_SET_CONFIG, value, result⟩ d).adaptive.s_adaptiveInactive
          = 0
      ∧ (value % 256 / 64 % 2 = 0 →
          (daemon_handleMessage RELEASE ⟨XMSG_CMD_SET_CONFIG, value, result⟩ d).adaptive.s_adaptiveState
              = POLL_STATE_IDLE
          ∧ (daemon_handleMessage RELEASE ⟨XMSG_CMD_SET_CONFIG, value, result⟩ d).adaptive.s_adaptiveInterval
              = (modeAt (value % 256 / 16 % 4)).idleUs
          ∧ (daemon_handleMessage RELEASE ⟨XMSG_CMD_SET_CONFIG, value, result⟩ d).s_pollInterval
              = (modeAt (value % 256 / 16 % 4)).idleUs)
      ∧ (value % 256 / 64 % 2 = 1 →
          (daemon_handleMessage RELEASE ⟨XMSG_CMD_SET_CONFIG, value, result⟩ d).adaptive.s_adaptiveInterval
              = (modeAt (value % 256 / 16 % 4)).burstUs
          ∧ (daemon_handleMessage RELEASE ⟨XMSG_CMD_SET_CONFIG, value, result⟩ d).s_pollInterval
              = (modeAt (value % 256 / 16 % 4)).burstUs)
      ∧ (daemon_handleMessage RELEASE ⟨XMSG_CMD_SET_CONFIG, value, result⟩ d).trace
          = d.trace ++ [Effect.AbortIO_timer, Effect.WaitIO_timer,
              Effect.SendIO_timer
                ((daemon_handleMessage RELEASE ⟨XMSG_CMD_SET_CONFIG, value, result⟩ d).s_pollInterval
                  / 1000000)
                ((daemon_handleMessage RELEASE ⟨XMSG_CMD_SET_CONFIG, value, result⟩ d).s_pollInterval
                  % 1000000),
              Effect.ReplyMsg ⟨XMSG_CMD_SET_CONFIG, value, 0⟩])
    ∧ ((value % 256 / 16 % 4 = d.s_configByte / 16 % 4
        ∧ value % 256 / 64 % 2 = d.s_configByte / 64 % 2) →
      (daemon_handleMessage RELEASE ⟨XMSG_CMD_SET_CONFIG, value, result⟩ d).adaptive = d.adaptive
      ∧ (daemon_handleMessage RELEASE ⟨XMSG_CMD_SET_CONFIG, value, result⟩ d).s_pollInterval
          = d.s_pollInterval
      ∧ (daemon_handleMessage RELEASE ⟨XMSG_CMD_SET_CONFIG, value, result⟩ d).trace
          = d.trace ++ [Effect.ReplyMsg ⟨XMSG_CMD_SET_CONFIG, value, 0⟩]) := by
  rw [daemon_handleMessage_setConfig]
  refine ⟨?_, ?_⟩
  · intro hch
    obtain ⟨h1, h2, h3, h4, h5⟩ := daemon_setConfig_changed RELEASE value d hch
    refine ⟨h1, h2, h3, fun hf => (h4 hf).2, ?_⟩
    show (daemon_setConfig RELEASE value d).trace ++ _ = _
    rw [h5]
    simp [Daemon.emit]
  · intro hsame
    obtain ⟨h1, h2, h3⟩ := daemon_setConfig_same RELEASE value d hsame
    refine ⟨h1, h2, ?_⟩
    show (daemon_setConfig RELEASE value d).trace ++ _ = _
    rw [h3]

/-! ## The scheduler after SET_CONFIG against the scheduler after `daemon_Init` -/

/-- The adaptive polling system as `daemon_Init` leaves it for a nonzero configuration
byte. -/
theorem daemon_InitState_sched (env : InitEnv) (d : Daemon) (hz : d.s_configByte ≠ 0) :
    (daemon_InitState env d).adaptive.s_activeMode = modeAt (d.s_configByte / 16 % 4)
    ∧ (daemon_InitState env d).adaptive.s_adaptiveState = POLL_STATE_IDLE
    ∧ (daemon_InitState env d).adaptive.s_adaptiveInactive = 0
    ∧ (d.s_configByte / 64 % 2 = 0 →
        (daemon_InitState env d).adaptive.s_adaptiveInterval
            = (modeAt (d.s_configByte / 16 % 4)).idleUs
        ∧ (daemon_InitState env d).s_pollInterval = (modeAt (d.s_configByte / 16 % 4)).idleUs)
    ∧ (d.s_configByte / 64 % 2 = 1 →
        (daemon_InitState env d).adaptive.s_adaptiveInterval
            = (modeAt (d.s_configByte / 16 % 4)).burstUs
        ∧ (daemon_InitState env d).s_pollInterval
            = (modeAt (d.s_configByte / 16 % 4)).burstUs) := by
  have hidx := modeIndexOf_eq d.s_configByte
  unfold modeIndexOf at hidx
  have hbit := fixedBit_eq d.s_configByte
  unfold daemon_InitState
  simp only [if_neg hz]
  rw [hidx]
  by_cases hf : d.s_configByte &&& CONFIG_FIXED_MODE ≠ 0
  · have h1 : d.s_configByte / 64 % 2 = 1 := by
      simp only [CONFIG_FIXED_MODE] at hf
      omega
    rw [if_pos hf]
    exact ⟨rfl, rfl, rfl, fun h0 => absurd h1 (by omega), fun _ => ⟨rfl, rfl⟩⟩
  · have h0 : d.s_configByte / 64 % 2 = 0 := by
      simp only [CONFIG_FIXED_MODE] at hf
      omega
    rw [if_neg hf]
    exact ⟨rfl, rfl, rfl, fun _ => ⟨rfl, rfl⟩, fun h1 => absurd h1 (by omega)⟩

/-- The adaptive polling system after a successful `daemon_Init` started with the nonzero
configuration byte `c`. -/
theorem daemon_Init_sched (env : InitEnv) (d : Daemon) (c : Nat)
    (h : (daemon_Init env d).1 = true) (hc : d.s_configByte = c) (hz : c ≠ 0) :
    (daemon_Init env d).2.adaptive.s_activeMode = modeAt (c / 16 % 4)
    ∧ (daemon_Init env d).2.adaptive.s_adaptiveState = POLL_STATE_IDLE
    ∧ (daemon_Init env d).2.adaptive.s_adaptiveInactive = 0
    ∧ (c / 64 % 2 = 0 →
        (daemon_Init env d).2.adaptive.s_adaptiveInterval = (modeAt (c / 16 % 4)).idleUs
        ∧ (daemon_Init env d).2.s_pollInterval = (modeAt (c / 16 % 4)).idleUs)
    ∧ (c / 64 % 2 = 1 →
        (daemon_Init env d).2.adaptive.s_adaptiveInterval = (modeAt (c / 16 % 4)).burstUs
        ∧ (daemon_Init env d).2.s_pollInterval = (modeAt (c / 16 % 4)).burstUs) := by
  subst hc
  rw [daemon_Init_success env d h]
  exact daemon_InitState_sched env
    { d with handles := (daemon_InitResources env d.handles).2.1,
             trace := d.trace ++ (daemon_InitResources env d.handles).2.2 } hz

/-- C12, counterexample. The daemon started with 0x13 is in state ACTIVE after one tick
in which the wheel moved; SET_CONFIG 0x53 (bit 6 altered) leaves the state ACTIVE, while
`daemon_Init` started with 0x53 leaves the state IDLE.  And SET_CONFIG 0x00 (profile index
altered) selects profile 0 with interval 150000, while `daemon_Init` started with 0x00
runs with the default 0x13 and selects profile 1 with interval 100000. -/
theorem set_config_reset_differs_from_init :
    (daemon_handleMessage false ⟨XMSG_CMD_SET_CONFIG, 0x53, 0⟩
        (running false initOk (loaded 0x13)
          [DaemonInput.tick { tickQuiet with SAGA_WHEELCOUNTER := 2 }])).adaptive.s_adaptiveState
      = POLL_STATE_ACTIVE
    ∧ (daemon_Init initOk (loaded 0x53)).1 = true
    ∧ (daemon_Init initOk (loaded 0x53)).2.adaptive.s_adaptiveState = POLL_STATE_IDLE
    ∧ (daemon_handleMessage false ⟨XMSG_CMD_SET_CONFIG, 0x00, 0⟩
        (running false initOk (loaded 0x13) [])).s_pollInterval = 150000
    ∧ (daemon_Init initOk (loaded 0x00)).1 = true
    ∧ (daemon_Init initOk (loaded 0x00)).2.s_pollInterval = 100000 := by
  decide

/-- C12, amended. For every daemon state and every SET_CONFIG whose new byte (the low
byte of the value) is not 0 and alters the profile index or the fixed/adaptive bit, the
scheduler after the message has the active profile, the interval, the accumulator and
the poll interval that `daemon_Init` produces when started with that same configuration
byte; the state is IDLE as after `daemon_Init` when the new byte selects adaptive mode,
and is left as it was when the new byte selects fixed mode. -/
theorem set_config_reset_matches_init (RELEASE : Bool) (value result : Nat) (d : Daemon)
    (ienv : InitEnv) (d0 : Daemon)
    (hinit : (daemon_Init ienv d0).1 = true)
    (hbyte : d0.s_configByte = value % 256)
    (hnz : value % 256 ≠ 0)
    (hch : value % 256 / 16 % 4 ≠ d.s_configByte / 16 % 4
      ∨ value % 256 / 64 % 2 ≠ d.s_configByte / 64 % 2) :
    (daemon_handleMessage RELEASE ⟨XMSG_CMD_SET_CONFIG, value, result⟩ d).adaptive.s_activeMode
        = (daemon_Init ienv d0).2.adaptive.s_activeMode
    ∧ (daemon_handleMessage RELEASE ⟨XMSG_CMD_SET_CONFIG, value, result⟩ d).adaptive.s_adaptiveInterval
        = (daemon_Init ienv d0).2.adaptive.s_adaptiveInterval
    ∧ (daemon_handleMessage RELEASE ⟨XMSG_CMD_SET_CONFIG, value, result⟩ d).adaptive.s_adaptiveInactive
        = (daemon_Init ienv d0).2.adaptive.s_adaptiveInactive
    ∧ (daemon_handleMessage RELEASE ⟨XMSG_CMD_SET_CONFIG, value, result⟩ d).s_pollInterval
        = (daemon_Init ienv d0).2.s_pollInterval
    ∧ (value % 256 / 64 % 2 = 0 →
        (daemon_handleMessage RELEASE ⟨XMSG_CMD_SET_CONFIG, value, result⟩ d).adaptive
          = (daemon_Init ienv d0).2.adaptive)
    ∧ (value % 256 / 64 % 2 = 1 →
        (daemon_handleMessage RELEASE ⟨XMSG_CMD_SET_CONFIG, value, result⟩ d).adaptive.s_adaptiveState
          = d.adaptive.s_adaptiveState) := by
  rw [daemon_handleMessage_setConfig]
  obtain ⟨a1, a2, a3, a4, -⟩ := daemon_setConfig_changed RELEASE value d hch
  obtain ⟨b1, b2, b3, b4, b5⟩ := daemon_Init_sched ienv d0 (value % 256) hinit hbyte hnz
  have e1 : ((daemon_setConfig RELEASE value d).emit
      (Effect.ReplyMsg ⟨XMSG_CMD_SET_CONFIG, value, 0⟩)).adaptive
      = (daemon_setConfig RELEASE value d).adaptive := rfl
  have e2 : ((daemon_setConfig RELEASE value d).emit
      (Effect.ReplyMsg ⟨XMSG_CMD_SET_CONFIG, value, 0⟩)).s_pollInterval
      = (daemon_setConfig RELEASE value d).s_pollInterval := rfl
  rw [e1, e2, a1, a2, b1, b3]
  have hcases : value % 256 / 64 % 2 = 0 ∨ value % 256 / 64 % 2 = 1 := by omega
  rcases hcases with h0 | h1
  · obtain ⟨s0, i0, p0⟩ := a3 h0
    obtain ⟨bi, bp⟩ := b4 h0
    refine ⟨rfl, by rw [i0, bi], rfl, by rw [p0, bp], ?_, fun h1 => absurd h1 (by omega)⟩
    intro _
    have hA : ∀ x y : Adaptive, x.s_activeMode = y.s_activeMode →
        x.s_adaptiveState = y.s_adaptiveState → x.s_adaptiveInterval = y.s_adaptiveInterval →
        x.s_adaptiveInactive = y.s_adaptiveInactive → x = y := by
      intro x y h1 h2 h3 h4
      cases x; cases y
      simp only [Adaptive.mk.injEq]
      exact ⟨h1, h2, h3, h4⟩
    exact hA _ _ (by rw [a1, b1]) (by rw [s0, b2]) (by rw [i0, bi]) (by rw [a2, b3])
  · obtain ⟨s1, i1, p1⟩ := a4 h1
    obtain ⟨bi, bp⟩ := b5 h1
    exact ⟨rfl, by rw [i1, bi], rfl, by rw [p1, bp], fun h0 => absurd h0 (by omega), fun _ => s1⟩

theorem set_config_reset_matches_init_witness :
    (daemon_handleMessage false ⟨XMSG_CMD_SET_CONFIG, 0x53, 0⟩
        (running false initOk (loaded 0x13)
          [DaemonInput.tick { tickQuiet with SAGA_WHEELCOUNTER := 2 }])).s_pollInterval
      = (daemon_Init initOk (loaded 0x53)).2.s_pollInterval
    ∧ (daemon_handleMessage false ⟨XMSG_CMD_SET_CONFIG, 0x53, 0⟩
        (running false initOk (loaded 0x13)
          [DaemonInput.tick { tickQuiet with SAGA_WHEELCOUNTER := 2 }])).adaptive.s_adaptiveState
      = (running false initOk (loaded 0x13)
          [DaemonInput.tick { tickQuiet with SAGA_WHEELCOUNTER := 2 }]).adaptive.s_adaptiveState :=
  have h := set_config_reset_matches_init false 0x53 0
    (running false initOk (loaded 0x13)
      [DaemonInput.tick { tickQuiet with SAGA_WHEELCOUNTER := 2 }])
    initOk (loaded 0x53) (by decide) (by decide) (by decide) (by decide)
  ⟨h.2.2.2.1, h.2.2.2.2.2 (by decide)⟩

/-! ## One wake-up: cancellation, the message batch, QUIT -/

theorem repliedMsgs_append (xs ys : List Effect) :
    repliedMsgs (xs ++ ys) = repliedMsgs xs ++ repliedMsgs ys := by
  induction xs with
  | nil => rfl
  | cons x xs ih => cases x <;> simp [repliedMsgs, ih]

theorem injectedEvents_append (xs ys : List Effect) :
    injectedEvents (xs ++ ys) = injectedEvents xs ++ injectedEvents ys := by
  induction xs with
  | nil => rfl
  | cons x xs ih => cases x <;> simp [injectedEvents, ih]

/-- The SET_CONFIG case replies to nothing and injects nothing. -/
theorem daemon_setConfig_observed (RELEASE : Bool) (v : Nat) (d : Daemon) :
    repliedMsgs (daemon_setConfig RELEASE v d).trace = repliedMsgs d.trace
    ∧ injectedEvents (daemon_setConfig RELEASE v d).trace = injectedEvents d.trace := by
  unfold daemon_setConfig
  simp only []
  split_ifs <;>
    simp [daemon_TimerStart, Daemon.emit, repliedMsgs_append, injectedEvents_append,
      repliedMsgs, injectedEvents]

/-- One message: exactly one reply is appended, it carries the command and the value of
the message, and its result is 0 for QUIT; nothing is injected. -/
theorem daemon_handleMessage_observed (RELEASE : Bool) (m : XMouseMsg) (d : Daemon) :
    (∃ r : XMouseMsg,
      repliedMsgs (daemon_handleMessage RELEASE m d).trace = repliedMsgs d.trace ++ [r]
      ∧ r.command = m.command ∧ r.value = m.value
      ∧ (m.command = XMSG_CMD_QUIT → r.result = 0))
    ∧ injectedEvents (daemon_handleMessage RELEASE m d).trace = injectedEvents d.trace := by
  obtain ⟨s1, s2⟩ := daemon_setConfig_observed RELEASE m.value d
  unfold daemon_handleMessage
  split_ifs with h0 h1 h2
  · exact ⟨⟨{ m with result := 0 }, by simp [Daemon.emit, repliedMsgs_append, repliedMsgs],
      rfl, rfl, fun _ => rfl⟩, by simp [Daemon.emit, injectedEvents_append, injectedEvents]⟩
  · exact ⟨⟨{ m with result := 0 },
      by simp [Daemon.emit, repliedMsgs_append, repliedMsgs, s1],
      rfl, rfl, fun _ => rfl⟩,
      by simp [Daemon.emit, injectedEvents_append, injectedEvents, s2]⟩
  · exact ⟨⟨{ m with result := d.s_configByte },
      by simp [Daemon.emit, repliedMsgs_append, repliedMsgs],
      rfl, rfl, fun h => absurd h h0⟩,
      by simp [Daemon.emit, injectedEvents_append, injectedEvents]⟩
  · exact ⟨⟨{ m with result := 0xFFFFFFFF },
      by simp [Daemon.emit, repliedMsgs_append, repliedMsgs],
      rfl, rfl, fun h => absurd h h0⟩,
      by simp [Daemon.emit, injectedEvents_append, injectedEvents]⟩

theorem daemon_handleMessage_quit (RELEASE : Bool) (m : XMouseMsg) (d : Daemon) :
    (daemon_handleMessage RELEASE m d).quit = (decide (m.command = XMSG_CMD_QUIT) || d.quit) := by
  unfold daemon_handleMessage
  split_ifs with h0 h1 h2
  · simp [Daemon.emit, h0]
  · simp [Daemon.emit, h0, daemon_setConfig_quit]
  · simp [Daemon.emit, h0]
  · simp [Daemon.emit, h0]

theorem daemon_drainMessages_cons (RELEASE : Bool) (m : XMouseMsg) (ms : List XMouseMsg)
    (d : Daemon) :
    daemon_drainMessages RELEASE (m :: ms) d
      = daemon_drainMessages RELEASE ms (daemon_handleMessage RELEASE m d) := rfl

theorem daemon_drainMessages_quit (RELEASE : Bool) (msgs : List XMouseMsg) (d : Daemon) :
    (daemon_drainMessages RELEASE msgs d).quit
      = (msgs.any (fun m => decide (m.command = XMSG_CMD_QUIT)) || d.quit) := by
  induction msgs generalizing d with
  | nil => simp [daemon_drainMessages]
  | cons m ms ih =>
    rw [daemon_drainMessages_cons, ih, daemon_handleMessage_quit]
    simp only [List.any_cons]
    cases decide (m.command = XMSG_CMD_QUIT) <;> simp

/-- The message loop: one reply per message, in arrival order, each with the command
and the value of its message and with result 0 for a QUIT; nothing is injected. -/
theorem daemon_drainMessages_observed (RELEASE : Bool) (msgs : List XMouseMsg) (d : Daemon) :
    (∃ rs : List XMouseMsg,
      repliedMsgs (daemon_drainMessages RELEASE msgs d).trace = repliedMsgs d.trace ++ rs
      ∧ List.Forall₂ (fun m r => r.command = m.command ∧ r.value = m.value
          ∧ (m.command = XMSG_CMD_QUIT → r.result = 0)) msgs rs)
    ∧ injectedEvents (daemon_drainMessages RELEASE msgs d).trace = injectedEvents d.trace := by
  induction msgs generalizing d with
  | nil => exact ⟨⟨[], by simp [daemon_drainMessages], List.Forall₂.nil⟩, rfl⟩
  | cons m ms ih =>
    obtain ⟨⟨r, hr, hc, hv, hq⟩, hi⟩ := daemon_handleMessage_observed RELEASE m d
    obtain ⟨⟨rs, hrs, hall⟩, his⟩ := ih (daemon_handleMessage RELEASE m d)
    rw [daemon_drainMessages_cons]
    refine ⟨⟨r :: rs, ?_, List.Forall₂.cons ⟨hc, hv, hq⟩ hall⟩, ?_⟩
    · rw [hrs, hr]; simp
    · rw [his, hi]

/-- C13. A wake-up without CTRL-C whose message signal is set: every pending message is
handled and replied exactly once in arrival order (the reply carries the command and the
value of its message, and result 0 for a QUIT), and the message loop injects nothing.
When the batch contains a QUIT, the loop is left with the state the message loop
produced: the tick is not processed and the tick branch does not re-arm the timer, also
when the timer signal is set.  When the batch contains no QUIT, `quit` was `FALSE`
and the timer signal is set, the tick is processed on the state after the batch and the
loop goes on. -/
theorem quit_in_batch_exits_after_drain (RELEASE : Bool) (w : Wake) (d : Daemon)
    (hc : w.ctrlC = false) (hp : w.portSig = true) :
    (∃ rs : List XMouseMsg,
      repliedMsgs (daemon_drainMessages RELEASE w.msgs d).trace = repliedMsgs d.trace ++ rs
      ∧ List.Forall₂ (fun m r => r.command = m.command ∧ r.value = m.value
          ∧ (m.command = XMSG_CMD_QUIT → r.result = 0)) w.msgs rs)
    ∧ injectedEvents (daemon_drainMessages RELEASE w.msgs d).trace = injectedEvents d.trace
    ∧ ((∃ m ∈ w.msgs, m.command = XMSG_CMD_QUIT) →
        daemon_loopBody RELEASE w d = (daemon_drainMessages RELEASE w.msgs d, true))
    ∧ ((∀ m ∈ w.msgs, m.command ≠ XMSG_CMD_QUIT) → d.quit = false → w.timerSig = true →
        daemon_loopBody RELEASE w d
          = (daemon_timerTick w.env (daemon_drainMessages RELEASE w.msgs d), false)) := by
  obtain ⟨hrep, hinj⟩ := daemon_drainMessages_observed RELEASE w.msgs d
  have hq := daemon_drainMessages_quit RELEASE w.msgs d
  refine ⟨hrep, hinj, ?_, ?_⟩
  · intro hex
    have hany : w.msgs.any (fun m => decide (m.command = XMSG_CMD_QUIT)) = true := by
      obtain ⟨m, hm, hmq⟩ := hex
      exact List.any_eq_true.2 ⟨m, hm, by simp [hmq]⟩
    rw [hany] at hq
    unfold daemon_loopBody
    simp [hc, hp, hq]
  · intro hall hq0 ht
    have hany : w.msgs.any (fun m => decide (m.command = XMSG_CMD_QUIT)) = false := by
      rw [Bool.eq_false_iff]
      intro h
      obtain ⟨m, hm, hmq⟩ := List.any_eq_true.1 h
      exact hall m hm (by simpa using hmq)
    rw [hany, hq0] at hq
    unfold daemon_loopBody
    simp [hc, hp, hq, ht]

theorem quit_in_batch_exits_after_drain_witness :
    daemon_loopBody false
        ⟨false, true, true,
          [⟨XMSG_CMD_GET_STATUS, 0, 0⟩, ⟨XMSG_CMD_QUIT, 0, 7⟩, ⟨XMSG_CMD_SET_CONFIG, 0x53, 0⟩],
          tickQuiet⟩
        (running false initOk (loaded 0x13) [])
      = (daemon_drainMessages false
          [⟨XMSG_CMD_GET_STATUS, 0, 0⟩, ⟨XMSG_CMD_QUIT, 0, 7⟩, ⟨XMSG_CMD_SET_CONFIG, 0x53, 0⟩]
          (running false initOk (loaded 0x13) []), true) :=
  (quit_in_batch_exits_after_drain false
    ⟨false, true, true,
      [⟨XMSG_CMD_GET_STATUS, 0, 0⟩, ⟨XMSG_CMD_QUIT, 0, 7⟩, ⟨XMSG_CMD_SET_CONFIG, 0x53, 0⟩],
      tickQuiet⟩
    (running false initOk (loaded 0x13) []) rfl rfl).2.2.1
    ⟨⟨XMSG_CMD_QUIT, 0, 7⟩, by decide, rfl⟩

/-- C14. A wake-up whose signal set contains CTRL-C, whatever other signals are set,
whatever messages are pending and whatever the hardware registers hold: the loop is left
with the daemon state as it was, so no message is handled or replied, nothing is read or
injected, the timer is not re-armed, and configuration and scheduler are unchanged. -/
theorem ctrl_c_leaves_loop_at_once (RELEASE : Bool) (w : Wake) (d : Daemon)
    (h : w.ctrlC = true) :
    daemon_loopBody RELEASE w d = (d, true)
    ∧ (daemon_loopBody RELEASE w d).1.trace = d.trace
    ∧ (daemon_loopBody RELEASE w d).1.s_configByte = d.s_configByte
    ∧ (daemon_loopBody RELEASE w d).1.adaptive = d.adaptive
    ∧ (daemon_loopBody RELEASE w d).1.s_pollInterval = d.s_pollInterval := by
  have e : daemon_loopBody RELEASE w d = (d, true) := by
    unfold daemon_loopBody
    rw [if_pos h]
  rw [e]
  exact ⟨rfl, rfl, rfl, rfl, rfl⟩

theorem ctrl_c_leaves_loop_at_once_witness :
    daemon_loopBody false
        ⟨true, true, true, [⟨XMSG_CMD_SET_CONFIG, 0x53, 0⟩, ⟨XMSG_CMD_QUIT, 0, 0⟩],
          { tickQuiet with SAGA_WHEELCOUNTER := 5, SAGA_MOUSE_BUTTONS := 0x100 }⟩
        (running false initOk (loaded 0x13) [])
      = (running false initOk (loaded 0x13) [], true) :=
  (ctrl_c_leaves_loop_at_once false
    ⟨true, true, true, [⟨XMSG_CMD_SET_CONFIG, 0x53, 0⟩, ⟨XMSG_CMD_QUIT, 0, 0⟩],
      { tickQuiet with SAGA_WHEELCOUNTER := 5, SAGA_MOUSE_BUTTONS := 0x100 }⟩
    (running false initOk (loaded 0x13) []) rfl).1

/-- C15, the code at the failing input. The daemon started with 0x13 (one timer request
armed, 100000 µs) wakes with the timer signal and the message signal both set and one
SET_CONFIG 0x53 pending.  The message branch aborts, awaits and re-arms the request
(10000 µs) and replies; the tick branch then sends the same request again (10000 µs)
with no `WaitIO` in between: the request is sent while it is in flight. -/
theorem tick_rearms_timer_in_flight :
    (daemon_loopBody false ⟨false, true, true, [⟨XMSG_CMD_SET_CONFIG, 0x53, 0⟩], tickQuiet⟩
        (running false initOk (loaded 0x13) [])).1.trace
      = (running false initOk (loaded 0x13) []).trace
        ++ [Effect.AbortIO_timer, Effect.WaitIO_timer, Effect.SendIO_timer 0 10000,
            Effect.ReplyMsg ⟨XMSG_CMD_SET_CONFIG, 0x53, 0⟩, Effect.SendIO_timer 0 10000]
    ∧ armsWhileInFlight false
        [Effect.AbortIO_timer, Effect.WaitIO_timer, Effect.SendIO_timer 0 10000,
         Effect.ReplyMsg ⟨XMSG_CMD_SET_CONFIG, 0x53, 0⟩, Effect.SendIO_timer 0 10000] = true
    ∧ (daemon_loopBody false ⟨false, true, true, [⟨XMSG_CMD_SET_CONFIG, 0x53, 0⟩], tickQuiet⟩
        (running false initOk (loaded 0x13) [])).2 = false := by
  decide

/-! ## Activity of a tick -/

theorem daemon_run_ticks_configByte (RELEASE : Bool) (envs : List TickEnv) (d : Daemon) :
    (daemon_run RELEASE d (envs.map DaemonInput.tick)).s_configByte = d.s_configByte := by
  apply daemon_run_configByte
  intro m hm
  simp at hm

/-- C16. In a tick with the buttons enabled, whatever the previous mask `s_lastBTState`
and the register hold: the current mask is the register value restricted to bits 8 and
9, and button activity is true exactly when the current mask differs from the previous
mask or is nonzero.  The activity of the tick is wheel activity or button activity, so
button activity makes the tick active; in particular a mask that is unchanged and
nonzero (a held button) makes the tick active, and in adaptive mode the scheduler is then
called with activity and the inactive time is reset to 0.  The tick stores the current
mask as the previous mask of the next tick and leaves the buttons enabled, and after any
number of further ticks a tick that reads a nonzero mask has button activity and is
active: every tick of a held button is active. -/
theorem button_activity_changed_or_held (env : TickEnv) (d : Daemon)
    (hb : d.s_configByte &&& CONFIG_BUTTONS_ENABLED ≠ 0) :
    (tickSample env d).currentBTState
        = (env.SAGA_MOUSE_BUTTONS % 65536) &&& (SAGA_BUTTON4_MASK ||| SAGA_BUTTON5_MASK)
    ∧ ((tickSample env d).hadBTActivity = true ↔
        ((tickSample env d).currentBTState ≠ d.s_lastBTState
          ∨ (tickSample env d).currentBTState ≠ 0))
    ∧ ((tickSample env d).currentBTState = d.s_lastBTState →
        (tickSample env d).currentBTState ≠ 0 → (tickSample env d).hadBTActivity = true)
    ∧ (daemon_timerTick env d).s_lastBTState = (tickSample env d).currentBTState
    ∧ (daemon_timerTick env d).s_configByte &&& CONFIG_BUTTONS_ENABLED ≠ 0
    ∧ (tickSample env d).hadActivity
        = ((tickSample env d).hadWHActivity || (tickSample env d).hadBTActivity)
    ∧ ((tickSample env d).hadActivity = true ↔
        ((tickSample env d).hadWHActivity = true
          ∨ (tickSample env d).currentBTState ≠ d.s_lastBTState
          ∨ (tickSample env d).currentBTState ≠ 0))
    ∧ ((tickSample env d).currentBTState = d.s_lastBTState →
        (tickSample env d).currentBTState ≠ 0 → (tickSample env d).hadActivity = true)
    ∧ (d.s_configByte &&& CONFIG_FIXED_MODE = 0 → (tickSample env d).hadBTActivity = true →
        (daemon_timerTick env d).adaptive = (daemon_GetAdaptiveInterval true d.adaptive).2
        ∧ (daemon_timerTick env d).adaptive.s_adaptiveInactive = 0)
    ∧ (∀ (RELEASE : Bool) (envs : List TickEnv) (env2 : TickEnv),
        (env2.SAGA_MOUSE_BUTTONS % 65536) &&& (SAGA_BUTTON4_MASK ||| SAGA_BUTTON5_MASK) ≠ 0 →
        (tickSample env2 (daemon_run RELEASE d (envs.map DaemonInput.tick))).hadBTActivity = true
        ∧ (tickSample env2 (daemon_run RELEASE d (envs.map DaemonInput.tick))).hadActivity
            = true) := by
  have hcfg := daemon_timerTick_configByte env d
  have hact : (tickSample env d).hadBTActivity = true ↔
        ((tickSample env d).currentBTState ≠ d.s_lastBTState
          ∨ (tickSample env d).currentBTState ≠ 0) := by
    simp [tickSample, hb]
  have hall : (tickSample env d).hadActivity
      = ((tickSample env d).hadWHActivity || (tickSample env d).hadBTActivity) := rfl
  have hiff : (tickSample env d).hadActivity = true ↔
        ((tickSample env d).hadWHActivity = true
          ∨ (tickSample env d).currentBTState ≠ d.s_lastBTState
          ∨ (tickSample env d).currentBTState ≠ 0) := by
    rw [hall, Bool.or_eq_true, hact]
  refine ⟨by simp [tickSample, hb], hact, fun _ h0 => hact.2 (Or.inr h0), rfl,
    by rw [hcfg]; exact hb, hall, hiff, fun _ h0 => hiff.2 (Or.inr (Or.inr h0)), ?_, ?_⟩
  · intro hf hbt
    have ha : (tickSample env d).hadActivity = true := by
      rw [hall, hbt, Bool.or_true]
    obtain ⟨a1, -, -⟩ := daemon_timerTick_adaptive env d hf
    rw [a1, ha]
    exact ⟨rfl, rfl⟩
  · intro RELEASE envs env2 hne
    have hb2 : (daemon_run RELEASE d (envs.map DaemonInput.tick)).s_configByte
        &&& CONFIG_BUTTONS_ENABLED ≠ 0 := by
      rw [daemon_run_ticks_configByte]; exact hb
    have hbt : (tickSample env2 (daemon_run RELEASE d (envs.map DaemonInput.tick))).hadBTActivity
        = true := by
      simp [tickSample, hb2, hne]
    refine ⟨hbt, ?_⟩
    show ((tickSample env2 (daemon_run RELEASE d (envs.map DaemonInput.tick))).hadWHActivity
      || (tickSample env2 (daemon_run RELEASE d (envs.map DaemonInput.tick))).hadBTActivity) = true
    rw [hbt, Bool.or_true]

theorem button_activity_changed_or_held_witness :
    (tickSample { tickQuiet with SAGA_MOUSE_BUTTONS := 0x100 }
        (daemon_timerTick { tickQuiet with SAGA_MOUSE_BUTTONS := 0x100 }
          (running false initOk (loaded 0x13) []))).currentBTState
      = (daemon_timerTick { tickQuiet with SAGA_MOUSE_BUTTONS := 0x100 }
          (running false initOk (loaded 0x13) [])).s_lastBTState
    ∧ (tickSample { tickQuiet with SAGA_MOUSE_BUTTONS := 0x100 }
        (daemon_timerTick { tickQuiet with SAGA_MOUSE_BUTTONS := 0x100 }
          (running false initOk (loaded 0x13) []))).hadBTActivity = true
    ∧ (tickSample { tickQuiet with SAGA_MOUSE_BUTTONS := 0x100 }
        (daemon_timerTick { tickQuiet with SAGA_MOUSE_BUTTONS := 0x100 }
          (running false initOk (loaded 0x13) []))).hadWHActivity = false
    ∧ (tickSample { tickQuiet with SAGA_MOUSE_BUTTONS := 0x100 }
        (daemon_timerTick { tickQuiet with SAGA_MOUSE_BUTTONS := 0x100 }
          (running false initOk (loaded 0x13) []))).hadActivity = true :=
  have h := button_activity_changed_or_held { tickQuiet with SAGA_MOUSE_BUTTONS := 0x100 }
    (daemon_timerTick { tickQuiet with SAGA_MOUSE_BUTTONS := 0x100 }
      (running false initOk (loaded 0x13) [])) (by decide)
  ⟨by decide, h.2.2.1 (by decide) (by decide), by decide,
   h.2.2.2.2.2.2.2.1 (by decide) (by decide)⟩

theorem wheelDelta_eq_zero (l c : Nat) (hl : l < 256) (hc : c < 256) :
    wheelDelta l c = 0 ↔ c = l := by
  unfold wheelDelta
  simp only []
  split_ifs <;> omega

/-- C17, counterexample. The daemon started with 0x13 (both features enabled) has seen
one tick in which the wheel counter moved from 0 to 2.  In the next tick the counter
still reads 2 and no button is down: the wheel delta of this tick is 0 and button
activity is false, yet the tick is active. -/
theorem wheel_activity_carries_over :
    (running false initOk (loaded 0x13)
        [DaemonInput.tick { tickQuiet with SAGA_WHEELCOUNTER := 2 }]).s_configByte = 0x13
    ∧ (tickSample { tickQuiet with SAGA_WHEELCOUNTER := 2 }
        (running false initOk (loaded 0x13)
          [DaemonInput.tick { tickQuiet with SAGA_WHEELCOUNTER := 2 }])).currentWHDelta = 0
    ∧ (tickSample { tickQuiet with SAGA_WHEELCOUNTER := 2 }
        (running false initOk (loaded 0x13)
          [DaemonInput.tick { tickQuiet with SAGA_WHEELCOUNTER := 2 }])).hadBTActivity = false
    ∧ (tickSample { tickQuiet with SAGA_WHEELCOUNTER := 2 }
        (running false initOk (loaded 0x13)
          [DaemonInput.tick { tickQuiet with SAGA_WHEELCOUNTER := 2 }])).hadActivity = true := by
  decide

/-- C17, amended. In a tick with both features enabled (the stored last counter being a
byte), overall tick activity equals (the wrap-corrected wheel delta of this tick is
nonzero) OR (the wheel counter has not moved and the delta stored by the previous tick
is nonzero) OR (button activity of this tick); the delta of this tick is 0 exactly when
the counter has not moved. -/
theorem tick_activity_with_carry_over (env : TickEnv) (d : Daemon)
    (hw : d.s_configByte &&& CONFIG_WHEEL_ENABLED ≠ 0)
    (hb : d.s_configByte &&& CONFIG_BUTTONS_ENABLED ≠ 0)
    (hl : d.s_lastWHCounter < 256) :
    ((tickSample env d).hadActivity = true ↔
      ((tickSample env d).currentWHDelta ≠ 0
        ∨ (env.SAGA_WHEELCOUNTER % 256 = d.s_lastWHCounter ∧ d.s_lastWHDelta ≠ 0)
        ∨ (tickSample env d).hadBTActivity = true))
    ∧ ((tickSample env d).currentWHDelta = 0
        ↔ env.SAGA_WHEELCOUNTER % 256 = d.s_lastWHCounter) := by
  have hc : env.SAGA_WHEELCOUNTER % 256 < 256 := Nat.mod_lt _ (by decide)
  have hz := wheelDelta_eq_zero d.s_lastWHCounter (env.SAGA_WHEELCOUNTER % 256) hl hc
  by_cases hne : d.s_lastWHCounter = env.SAGA_WHEELCOUNTER % 256
  · simp [tickSample, hw, hb, hne]
  · have hne2 : ¬ env.SAGA_WHEELCOUNTER % 256 = d.s_lastWHCounter := fun h => hne h.symm
    have hz2 : wheelDelta d.s_lastWHCounter (env.SAGA_WHEELCOUNTER % 256) ≠ 0 :=
      fun h => hne2 (hz.1 h)
    simp [tickSample, hw, hb, hne, hne2, hz2]

theorem tick_activity_with_carry_over_witness :
    (tickSample { tickQuiet with SAGA_WHEELCOUNTER := 2 }
        (running false initOk (loaded 0x13)
          [DaemonInput.tick { tickQuiet with SAGA_WHEELCOUNTER := 2 }])).hadActivity = true :=
  (tick_activity_with_carry_over { tickQuiet with SAGA_WHEELCOUNTER := 2 }
    (running false initOk (loaded 0x13)
      [DaemonInput.tick { tickQuiet with SAGA_WHEELCOUNTER := 2 }])
    (by decide) (by decide) (by decide)).1.2 (Or.inr (Or.inl (by decide)))

/-! ## The events injected -/

theorem wheelPair_trace (d : Daemon) :
    (wheelPair d).trace = d.trace
      ++ [Effect.DoIO_input { d.s_eventBuf with ie_Class := IECLASS_RAWKEY },
          Effect.DoIO_input { d.s_eventBuf with ie_Class := IECLASS_NEWMOUSE }] := by
  simp [wheelPair, injectEvent, Daemon.emit]

theorem wheelPair_eventBuf (d : Daemon) :
    (wheelPair d).s_eventBuf = { d.s_eventBuf with ie_Class := IECLASS_NEWMOUSE } := rfl

theorem iterate_wheelPair_trace (n : Nat) (d : Daemon) :
    (Nat.iterate wheelPair n d).trace = d.trace
      ++ ((List.replicate n
            [{ d.s_eventBuf with ie_Class := IECLASS_RAWKEY },
             { d.s_eventBuf with ie_Class := IECLASS_NEWMOUSE }]).flatten).map
          Effect.DoIO_input := by
  induction n generalizing d with
  | zero => simp
  | succ n ih =>
    rw [Function.iterate_succ_apply, ih, wheelPair_trace, wheelPair_eventBuf,
      List.replicate_succ]
    simp

/-- The effects of `daemon_ProcessWheel`: `|delta|` pairs of events. -/
theorem daemon_ProcessWheel_trace (delta : Int) (d : Daemon) :
    (daemon_ProcessWheel delta d).trace = d.trace
      ++ ((List.replicate delta.natAbs
            [{ d.s_eventBuf with ie_Class := IECLASS_RAWKEY,
                                 ie_Code := if delta > 0 then NM_WHEEL_UP else NM_WHEEL_DOWN },
             { d.s_eventBuf with ie_Class := IECLASS_NEWMOUSE,
                                 ie_Code := if delta > 0 then NM_WHEEL_UP else NM_WHEEL_DOWN }]
          ).flatten).map Effect.DoIO_input := by
  have hcount : (if delta > 0 then delta else -delta).toNat = delta.natAbs := by
    split_ifs <;> omega
  unfold daemon_ProcessWheel
  by_cases h0 : delta = 0
  · subst h0; simp
  · rw [if_neg h0]
    simp only []
    rw [hcount, iterate_wheelPair_trace]

/-- C18. For every wheel delta (in `-128..127` and beyond), `daemon_ProcessWheel` appends
to the effects exactly `|delta|` consecutive pairs of injected events, each pair being
the event buffer with class RAWKEY followed by the event buffer with class NEWMOUSE, all
with the code NM_WHEEL_UP when the delta is positive and NM_WHEEL_DOWN when it is
negative: that is `2 * |delta|` events, and none for delta 0. -/
theorem wheel_injects_pairs (delta : Int) (d : Daemon) :
    (daemon_ProcessWheel delta d).trace = d.trace
      ++ ((List.replicate delta.natAbs
            [{ d.s_eventBuf with ie_Class := IECLASS_RAWKEY,
                                 ie_Code := if delta > 0 then NM_WHEEL_UP else NM_WHEEL_DOWN },
             { d.s_eventBuf with ie_Class := IECLASS_NEWMOUSE,
                                 ie_Code := if delta > 0 then NM_WHEEL_UP else NM_WHEEL_DOWN }]
          ).flatten).map Effect.DoIO_input
    ∧ (injectedEvents (daemon_ProcessWheel delta d).trace).length
        = (injectedEvents d.trace).length + 2 * delta.natAbs
    ∧ (daemon_ProcessWheel delta d).trace.length = d.trace.length + 2 * delta.natAbs
    ∧ (delta = 0 → (daemon_ProcessWheel delta d).trace = d.trace) := by
  have ht := daemon_ProcessWheel_trace delta d
  have hinj : ∀ evs : List InputEvent, injectedEvents (evs.map Effect.DoIO_input) = evs := by
    intro evs
    induction evs with
    | nil => rfl
    | cons e es ih => simp [injectedEvents, ih]
  refine ⟨ht, ?_, ?_, ?_⟩
  · rw [ht, injectedEvents_append, hinj]
    simp [List.length_flatten]
    omega
  · rw [ht]
    simp [List.length_flatten]
    omega
  · intro h0
    unfold daemon_ProcessWheel
    rw [if_pos h0]

theorem buttonPair_trace (code : Nat) (d : Daemon) :
    (buttonPair code d).trace = d.trace
      ++ [Effect.DoIO_input { d.s_eventBuf with ie_Class := IECLASS_RAWKEY, ie_Code := code },
          Effect.DoIO_input { d.s_eventBuf with ie_Class := IECLASS_NEWMOUSE, ie_Code := code }] := by
  simp [buttonPair, injectEvent, Daemon.emit]

theorem buttonPair_eventBuf (code : Nat) (d : Daemon) :
    (buttonPair code d).s_eventBuf
      = { d.s_eventBuf with ie_Class := IECLASS_NEWMOUSE, ie_Code := code } := rfl

/-- The effects of `daemon_ProcessButtons`: one pair of events for button 4 if bit 8
differs, then one pair for button 5 if bit 9 differs. -/
theorem daemon_ProcessButtons_trace (state : Nat) (d : Daemon) :
    (daemon_ProcessButtons state d).trace = d.trace
      ++ ((if state &&& SAGA_BUTTON4_MASK ≠ d.s_lastBTState &&& SAGA_BUTTON4_MASK then
            [{ d.s_eventBuf with
                 ie_Class := IECLASS_RAWKEY,
                 ie_Code := NM_BUTTON_FOURTH |||
                   (if state &&& SAGA_BUTTON4_MASK ≠ 0 then 0 else IECODE_UP_PREFIX) },
             { d.s_eventBuf with
                 ie_Class := IECLASS_NEWMOUSE,
                 ie_Code := NM_BUTTON_FOURTH |||
                   (if state &&& SAGA_BUTTON4_MASK ≠ 0 then 0 else IECODE_UP_PREFIX) }]
           else [])
          ++ (if state &&& SAGA_BUTTON5_MASK ≠ d.s_lastBTState &&& SAGA_BUTTON5_MASK then
            [{ d.s_eventBuf with
                 ie_Class := IECLASS_RAWKEY,
                 ie_Code := NM_BUTTON_FIFTH |||
                   (if state &&& SAGA_BUTTON5_MASK ≠ 0 then 0 else IECODE_UP_PREFIX) },
             { d.s_eventBuf with
                 ie_Class := IECLASS_NEWMOUSE,
                 ie_Code := NM_BUTTON_FIFTH |||
                   (if state &&& SAGA_BUTTON5_MASK ≠ 0 then 0 else IECODE_UP_PREFIX) }]
           else [])).map Effect.DoIO_input := by
  have h4 := xor_and_ne_zero state d.s_lastBTState SAGA_BUTTON4_MASK
  have h5 := xor_and_ne_zero state d.s_lastBTState SAGA_BUTTON5_MASK
  have hz : state ^^^ d.s_lastBTState = 0 →
      state &&& SAGA_BUTTON4_MASK = d.s_lastBTState &&& SAGA_BUTTON4_MASK
      ∧ state &&& SAGA_BUTTON5_MASK = d.s_lastBTState &&& SAGA_BUTTON5_MASK := by
    intro h
    rw [Nat.xor_eq_zero.mp h]
    exact ⟨rfl, rfl⟩
  unfold daemon_ProcessButtons
  simp only []
  by_cases hc : state ^^^ d.s_lastBTState ≠ 0
  · rw [if_pos hc]
    by_cases c4 : (state ^^^ d.s_lastBTState) &&& SAGA_BUTTON4_MASK ≠ 0
    · rw [if_pos c4, if_pos (h4.1 c4)]
      by_cases c5 : (state ^^^ d.s_lastBTState) &&& SAGA_BUTTON5_MASK ≠ 0
      · rw [if_pos c5, if_pos (h5.1 c5), buttonPair_trace, buttonPair_trace, buttonPair_eventBuf]
        simp
      · rw [if_neg c5, if_neg (fun h => c5 (h5.2 h)), buttonPair_trace]
        simp
    · rw [if_neg c4, if_neg (fun h => c4 (h4.2 h))]
      by_cases c5 : (state ^^^ d.s_lastBTState) &&& SAGA_BUTTON5_MASK ≠ 0
      · rw [if_pos c5, if_pos (h5.1 c5), buttonPair_trace]
        simp
      · rw [if_neg c5, if_neg (fun h => c5 (h5.2 h))]
        simp
  · rw [if_neg hc]
    have hc0 : state ^^^ d.s_lastBTState = 0 := by simpa using hc
    obtain ⟨e4, e5⟩ := hz hc0
    rw [if_neg (fun h => h e4), if_neg (fun h => h e5)]
    simp

/-- C19. For every previous mask `s_lastBTState` and every current mask,
`daemon_ProcessButtons` appends to the effects two injected events (the event buffer with
class RAWKEY, then with class NEWMOUSE) for button 4 if bit 8 of the masks differs and
none if it is equal, then two such events for button 5 if bit 9 differs and none if it is
equal.  The code is `NM_BUTTON_FOURTH` (0x7E) or `NM_BUTTON_FIFTH` (0x7F), with
`IECODE_UP_PREFIX` (0x80) or-ed in exactly when the bit is now clear.  An unchanged mask
injects nothing, nonzero or not. -/
theorem buttons_inject_pair_per_changed_bit (state : Nat) (d : Daemon) :
    (daemon_ProcessButtons state d).trace = d.trace
      ++ ((if state &&& SAGA_BUTTON4_MASK ≠ d.s_lastBTState &&& SAGA_BUTTON4_MASK then
            [{ d.s_eventBuf with
                 ie_Class := IECLASS_RAWKEY,
                 ie_Code := NM_BUTTON_FOURTH |||
                   (if state &&& SAGA_BUTTON4_MASK ≠ 0 then 0 else IECODE_UP_PREFIX) },
             { d.s_eventBuf with
                 ie_Class := IECLASS_NEWMOUSE,
                 ie_Code := NM_BUTTON_FOURTH |||
                   (if state &&& SAGA_BUTTON4_MASK ≠ 0 then 0 else IECODE_UP_PREFIX) }]
           else [])
          ++ (if state &&& SAGA_BUTTON5_MASK ≠ d.s_lastBTState &&& SAGA_BUTTON5_MASK then
            [{ d.s_eventBuf with
                 ie_Class := IECLASS_RAWKEY,
                 ie_Code := NM_BUTTON_FIFTH |||
                   (if state &&& SAGA_BUTTON5_MASK ≠ 0 then 0 else IECODE_UP_PREFIX) },
             { d.s_eventBuf with
                 ie_Class := IECLASS_NEWMOUSE,
                 ie_Code := NM_BUTTON_FIFTH |||
                   (if state &&& SAGA_BUTTON5_MASK ≠ 0 then 0 else IECODE_UP_PREFIX) }]
           else [])).map Effect.DoIO_input
    ∧ (state = d.s_lastBTState → (daemon_ProcessButtons state d).trace = d.trace)
    ∧ (NM_BUTTON_FOURTH ||| 0 = 0x7E ∧ NM_BUTTON_FOURTH ||| IECODE_UP_PREFIX = 0xFE
        ∧ NM_BUTTON_FIFTH ||| 0 = 0x7F ∧ NM_BUTTON_FIFTH ||| IECODE_UP_PREFIX = 0xFF)
    ∧ (daemon_ProcessButtons 0x100 { loaded 0x13 with s_lastBTState := 0x200 }).trace
        = [Effect.DoIO_input ⟨IECLASS_RAWKEY, 0, 0x7E, 0, 0, 0, 0, 0⟩,
           Effect.DoIO_input ⟨IECLASS_NEWMOUSE, 0, 0x7E, 0, 0, 0, 0, 0⟩,
           Effect.DoIO_input ⟨IECLASS_RAWKEY, 0, 0xFF, 0, 0, 0, 0, 0⟩,
           Effect.DoIO_input ⟨IECLASS_NEWMOUSE, 0, 0xFF, 0, 0, 0, 0, 0⟩] := by
  have ht := daemon_ProcessButtons_trace state d
  refine ⟨ht, ?_, by decide, by decide⟩
  intro h
  rw [ht, if_neg (fun hne => hne (by rw [h])), if_neg (fun hne => hne (by rw [h]))]
  simp

/-! ## Locals of the timer branch that a tick does not assign -/

/-- C20, the code at the failing input. The daemon started with 0x12 (buttons enabled,
wheel disabled) takes one tick; both registers read 0.  The locals `hadWHActivity`,
`currentWHDelta` and `currentWHCounter` are not assigned in this tick.  When they hold
`FALSE`, 0 and 0 the tick injects nothing and is not active; when they hold `TRUE`, 3 and
77 the tick is active without button activity, injects six scroll events, and stores 77
and 3 as last counter and last delta.  After that, SET_CONFIG 0x13 enables the wheel and
the next tick, with the counter register still 0, computes the delta -77. -/
theorem tick_reads_unassigned_locals :
    (running false initOk (loaded 0x12) []).s_configByte &&& CONFIG_WHEEL_ENABLED = 0
    ∧ (tickSample tickQuiet (running false initOk (loaded 0x12) [])).hadActivity = false
    ∧ injectedEvents (daemon_timerTick tickQuiet (running false initOk (loaded 0x12) [])).trace
        = []
    ∧ (tickSample { tickQuiet with hadWHActivity := true, currentWHDelta := 3,
                                   currentWHCounter := 77 }
        (running false initOk (loaded 0x12) [])).hadBTActivity = false
    ∧ (tickSample { tickQuiet with hadWHActivity := true, currentWHDelta := 3,
                                   currentWHCounter := 77 }
        (running false initOk (loaded 0x12) [])).hadActivity = true
    ∧ injectedEvents
        (daemon_timerTick { tickQuiet with hadWHActivity := true, currentWHDelta := 3,
                                           currentWHCounter := 77 }
          (running false initOk (loaded 0x12) [])).trace
        = [⟨IECLASS_RAWKEY, 0, NM_WHEEL_UP, 0, 0, 0, 0, 0⟩,
           ⟨IECLASS_NEWMOUSE, 0, NM_WHEEL_UP, 0, 0, 0, 0, 0⟩,
           ⟨IECLASS_RAWKEY, 0, NM_WHEEL_UP, 0, 0, 0, 0, 0⟩,
           ⟨IECLASS_NEWMOUSE, 0, NM_WHEEL_UP, 0, 0, 0, 0, 0⟩,
           ⟨IECLASS_RAWKEY, 0, NM_WHEEL_UP, 0, 0, 0, 0, 0⟩,
           ⟨IECLASS_NEWMOUSE, 0, NM_WHEEL_UP, 0, 0, 0, 0, 0⟩]
    ∧ (daemon_timerTick { tickQuiet with hadWHActivity := true, currentWHDelta := 3,
                                         currentWHCounter := 77 }
        (running false initOk (loaded 0x12) [])).s_lastWHCounter = 77
    ∧ (daemon_timerTick { tickQuiet with hadWHActivity := true, currentWHDelta := 3,
                                         currentWHCounter := 77 }
        (running false initOk (loaded 0x12) [])).s_lastWHDelta = 3
    ∧ (tickSample tickQuiet
        (daemon_handleMessage false ⟨XMSG_CMD_SET_CONFIG, 0x13, 0⟩
          (daemon_timerTick { tickQuiet with hadWHActivity := true, currentWHDelta := 3,
                                             currentWHCounter := 77 }
            (running false initOk (loaded 0x12) [])))).currentWHDelta = -77 := by
  decide

/-! ## The client: `status`, `start`, no argument, and a hexadecimal byte -/

theorem dropWhile_blanks_cons (ws t : List Nat) (c : Nat) (hws : ∀ x ∈ ws, x = 32 ∨ x = 9)
    (hc : c ≠ 32 ∧ c ≠ 9) :
    (ws ++ c :: t).dropWhile (fun x => x == 32 || x == 9) = c :: t := by
  induction ws with
  | nil =>
    have h : (c == 32 || c == 9) = false := by simp [hc.1, hc.2]
    rw [List.nil_append, List.dropWhile_cons]
    simp only [h, Bool.false_eq_true, if_false]
  | cons w ws ih =>
    have hw : (w == 32 || w == 9) = true := by
      rcases hws w (List.mem_cons_self _ _) with h | h <;> simp [h]
    rw [List.cons_append, List.dropWhile_cons]
    simp only [hw, if_true]
    exact ih (fun x hx => hws x (List.mem_cons_of_mem _ hx))

theorem dropWhile_blanks_nil (ws : List Nat) (hws : ∀ x ∈ ws, x = 32 ∨ x = 9) :
    ws.dropWhile (fun x => x == 32 || x == 9) = [] := by
  induction ws with
  | nil => rfl
  | cons w ws ih =>
    have hw : (w == 32 || w == 9) = true := by
      rcases hws w (List.mem_cons_self _ _) with h | h <;> simp [h]
    rw [List.dropWhile_cons]
    simp only [hw, if_true]
    exact ih (fun x hx => hws x (List.mem_cons_of_mem _ hx))

/-- C22. The client invoked with `status` (after any blanks, in any letter case,
whatever follows) when `dos.library` opens and no daemon port is found: `parseArguments`
returns `START_MODE_STATUS`, and `_start` only prints that the daemon is not running,
calls `sendDaemonMessage` not at all, creates no daemon process, and returns
`RETURN_WARN`; `s_configByte` is left as it was. -/
theorem status_without_daemon_warns (RELEASE : Bool) (env : StartEnv)
    (ws : List Nat) (c0 c1 c2 c3 c4 c5 : Nat) (rest : List Nat) (s_configByte : Nat)
    (hws : ∀ c ∈ ws, c = 32 ∨ c = 9)
    (h0 : c0 = 115 ∨ c0 = 83) (h1 : c1 = 116 ∨ c1 = 84) (h2 : c2 = 97 ∨ c2 = 65)
    (h3 : c3 = 116 ∨ c3 = 84) (h4 : c4 = 117 ∨ c4 = 85) (h5 : c5 = 115 ∨ c5 = 83)
    (hargs : env.args = ws ++ c0 :: c1 :: c2 :: c3 :: c4 :: c5 :: rest)
    (hdos : env.OpenLibrary_dos = true) (hport : env.FindPort = false) :
    parseArguments RELEASE env.args s_configByte = (START_MODE_STATUS, s_configByte, [])
    ∧ _start RELEASE env s_configByte
        = (RETURN_WARN, s_configByte, [ClientEffect.Print MSG_DAEMON_NOT_RUNNING])
    ∧ (∀ cmd value,
        ClientEffect.sendDaemonMessage cmd value ∉ (_start RELEASE env s_configByte).2.2)
    ∧ (∀ started,
        ClientEffect.CreateNewProcTags started ∉ (_start RELEASE env s_configByte).2.2) := by
  have e0 : c0 ||| 32 = 115 := by rcases h0 with rfl | rfl <;> rfl
  have e1 : c1 ||| 32 = 116 := by rcases h1 with rfl | rfl <;> rfl
  have e2 : c2 ||| 32 = 97 := by rcases h2 with rfl | rfl <;> rfl
  have e3 : c3 ||| 32 = 116 := by rcases h3 with rfl | rfl <;> rfl
  have e4 : c4 ||| 32 = 117 := by rcases h4 with rfl | rfl <;> rfl
  have e5 : c5 ||| 32 = 115 := by rcases h5 with rfl | rfl <;> rfl
  have n0 : c0 ≠ 32 ∧ c0 ≠ 9 := by rcases h0 with rfl | rfl <;> decide
  have z0 : ¬ (c0 = 0 ∨ c0 = 10) := by rcases h0 with rfl | rfl <;> decide
  have hp : parseArguments RELEASE env.args s_configByte
      = (START_MODE_STATUS, s_configByte, []) := by
    unfold parseArguments
    rw [hargs, dropWhile_blanks_cons ws _ c0 hws n0]
    have a0 : charAt (c0 :: c1 :: c2 :: c3 :: c4 :: c5 :: rest) 0 = c0 := rfl
    have a1 : charAt (c0 :: c1 :: c2 :: c3 :: c4 :: c5 :: rest) 1 = c1 := rfl
    have a2 : charAt (c0 :: c1 :: c2 :: c3 :: c4 :: c5 :: rest) 2 = c2 := rfl
    have a3 : charAt (c0 :: c1 :: c2 :: c3 :: c4 :: c5 :: rest) 3 = c3 := rfl
    have a4 : charAt (c0 :: c1 :: c2 :: c3 :: c4 :: c5 :: rest) 4 = c4 := rfl
    have a5 : charAt (c0 :: c1 :: c2 :: c3 :: c4 :: c5 :: rest) 5 = c5 := rfl
    simp only [a0, a1, a2, a3, a4, a5, e0, e1, e2, e3, e4, e5]
    rw [if_neg z0, if_neg (fun h => absurd h.2.2.1 (by decide)),
      if_neg (fun h => absurd h.1.2.2.2.1 (by decide)),
      if_pos ⟨trivial, trivial, trivial, trivial, trivial, trivial⟩]
  have hs : _start RELEASE env s_configByte
      = (RETURN_WARN, s_configByte, [ClientEffect.Print MSG_DAEMON_NOT_RUNNING]) := by
    unfold _start
    simp [hdos, hp, hport, START_MODE_STOP, START_MODE_STATUS]
  refine ⟨hp, hs, ?_, ?_⟩
  · intro cmd value
    rw [hs]
    simp
  · intro started
    rw [hs]
    simp

theorem status_without_daemon_warns_witness :
    _start false ⟨true, [32, 83, 116, 65, 116, 117, 115, 10], false, fun _ _ => 0, true⟩ 0x13
      = (RETURN_WARN, 0x13, [ClientEffect.Print MSG_DAEMON_NOT_RUNNING]) :=
  (status_without_daemon_warns false
    ⟨true, [32, 83, 116, 65, 116, 117, 115, 10], false, fun _ _ => 0, true⟩
    [32] 83 116 65 116 117 115 [10] 0x13 (by simp) (Or.inr rfl) (Or.inl rfl) (Or.inr rfl)
    (Or.inl rfl) (Or.inl rfl) (Or.inl rfl) rfl rfl rfl).2.1

/-- With no argument (only blanks, then the end of the string or a newline)
`parseArguments` returns `START_MODE_TOGGLE` and stores the default byte. -/
theorem parseArguments_none (RELEASE : Bool) (ws rest : List Nat) (s_configByte : Nat)
    (hws : ∀ c ∈ ws, c = 32 ∨ c = 9) :
    parseArguments RELEASE ws s_configByte = (START_MODE_TOGGLE, DEFAULT_CONFIG_BYTE, [])
    ∧ parseArguments RELEASE (ws ++ 10 :: rest) s_configByte
        = (START_MODE_TOGGLE, DEFAULT_CONFIG_BYTE, []) := by
  refine ⟨?_, ?_⟩
  · unfold parseArguments
    rw [dropWhile_blanks_nil ws hws]
    rfl
  · unfold parseArguments
    rw [dropWhile_blanks_cons ws rest 10 hws (by decide)]
    rfl

/-- With `start` (any letter case) followed by the end of the string, a blank or a
newline, `parseArguments` returns `START_MODE_START` and stores the default byte. -/
theorem parseArguments_start (RELEASE : Bool) (ws : List Nat) (c0 c1 c2 c3 c4 : Nat)
    (rest : List Nat) (s_configByte : Nat)
    (hws : ∀ c ∈ ws, c = 32 ∨ c = 9)
    (h0 : c0 = 115 ∨ c0 = 83) (h1 : c1 = 116 ∨ c1 = 84) (h2 : c2 = 97 ∨ c2 = 65)
    (h3 : c3 = 114 ∨ c3 = 82) (h4 : c4 = 116 ∨ c4 = 84)
    (hrest : rest = [] ∨ ∃ c t, rest = c :: t ∧ (c = 0 ∨ c = 32 ∨ c = 9 ∨ c = 10)) :
    parseArguments RELEASE (ws ++ c0 :: c1 :: c2 :: c3 :: c4 :: rest) s_configByte
      = (START_MODE_START, DEFAULT_CONFIG_BYTE, []) := by
  have e0 : c0 ||| 32 = 115 := by rcases h0 with rfl | rfl <;> rfl
  have e1 : c1 ||| 32 = 116 := by rcases h1 with rfl | rfl <;> rfl
  have e2 : c2 ||| 32 = 97 := by rcases h2 with rfl | rfl <;> rfl
  have e3 : c3 ||| 32 = 114 := by rcases h3 with rfl | rfl <;> rfl
  have e4 : c4 ||| 32 = 116 := by rcases h4 with rfl | rfl <;> rfl
  have n0 : c0 ≠ 32 ∧ c0 ≠ 9 := by rcases h0 with rfl | rfl <;> decide
  have z0 : ¬ (c0 = 0 ∨ c0 = 10) := by rcases h0 with rfl | rfl <;> decide
  have a5 : charAt (c0 :: c1 :: c2 :: c3 :: c4 :: rest) 5 = 0
      ∨ charAt (c0 :: c1 :: c2 :: c3 :: c4 :: rest) 5 = 32
      ∨ charAt (c0 :: c1 :: c2 :: c3 :: c4 :: rest) 5 = 9
      ∨ charAt (c0 :: c1 :: c2 :: c3 :: c4 :: rest) 5 = 10 := by
    rcases hrest with rfl | ⟨c, t, rfl, hc⟩
    · exact Or.inl rfl
    · exact hc
  unfold parseArguments
  rw [dropWhile_blanks_cons ws _ c0 hws n0]
  have a0 : charAt (c0 :: c1 :: c2 :: c3 :: c4 :: rest) 0 = c0 := rfl
  have a1 : charAt (c0 :: c1 :: c2 :: c3 :: c4 :: rest) 1 = c1 := rfl
  have a2 : charAt (c0 :: c1 :: c2 :: c3 :: c4 :: rest) 2 = c2 := rfl
  have a3 : charAt (c0 :: c1 :: c2 :: c3 :: c4 :: rest) 3 = c3 := rfl
  have a4 : charAt (c0 :: c1 :: c2 :: c3 :: c4 :: rest) 4 = c4 := rfl
  simp only [a0, a1, a2, a3, a4, e0, e1, e2, e3, e4]
  rw [if_neg z0, if_neg (fun h => absurd h.2.2.1 (by decide)),
    if_pos ⟨⟨trivial, trivial, trivial, trivial, trivial⟩, a5⟩]

theorem daemon_Init_configByte (env : InitEnv) (d : Daemon)
    (h : (daemon_Init env d).1 = true) (hz : d.s_configByte ≠ 0) :
    (daemon_Init env d).2.s_configByte = d.s_configByte := by
  rw [daemon_Init_success env d h]
  unfold daemon_InitState
  simp only [if_neg hz]
  split_ifs <;> rfl

theorem and_127_eq_mod (b : Nat) : b &&& 127 = b % 128 :=
  Nat.and_pow_two_sub_one_eq_mod b 7

theorem features_mod_128 (b : Nat) : (b % 128) &&& 3 = b &&& 3 := by
  rw [← and_127_eq_mod, features_release]

/-- C23, counterexample. In a `RELEASE` build the argument `0x93` (byte 0x93, bit 0 set)
makes `parseArguments` return `START_MODE_CONFIG` with stored configuration 0x13, and
`_start`, with a daemon running, sends SET_CONFIG with value 0x13: bit 7 of the byte is
not carried. -/
theorem release_client_drops_debug_bit :
    parseArguments true [48, 120, 57, 51] 0 = (START_MODE_CONFIG, 0x13, [])
    ∧ 16 * hexValue 57 + hexValue 51 = 0x93
    ∧ 0x93 &&& CONFIG_FEATURES_MASK ≠ 0
    ∧ _start true ⟨true, [48, 120, 57, 51], true, fun _ _ => 0, true⟩ 0
        = (RETURN_OK, 0x13,
           [ClientEffect.sendDaemonMessage XMSG_CMD_SET_CONFIG 0x13,
            ClientEffect.PrintF MSG_CONFIG_UPDATED 0x13]) := by
  decide

/-- C23, amended. An argument `0xHL` (after any blanks, `x` in either case, hexadecimal
digits in either case, whatever follows) whose byte `b = 16 * H + L` has bit 0 or bit 1
set: the client carries `b` in a build without `RELEASE` and `b` without bit 7
(`b mod 128`) in a `RELEASE` build.  `parseArguments` returns `START_MODE_CONFIG` with
that byte stored; `_start`, once `dos.library` is open, calls `sendDaemonMessage` once,
with SET_CONFIG and that byte, when a daemon port is found, and otherwise creates the
daemon process, whose `daemon_Init`, when it succeeds, keeps that byte as the
configuration byte.  With no argument `parseArguments` returns `START_MODE_TOGGLE` and
with `start` (any letter case) `START_MODE_START`, both with 0x13 stored. -/
theorem hex_byte_with_features_is_carried (RELEASE : Bool) (env : StartEnv)
    (ws : List Nat) (X H L : Nat) (rest : List Nat) (s_configByte : Nat)
    (hws : ∀ c ∈ ws, c = 32 ∨ c = 9) (hX : X = 120 ∨ X = 88)
    (hH : isHexDigit H) (hL : isHexDigit L)
    (hb : (16 * hexValue H + hexValue L) &&& 3 ≠ 0)
    (hargs : env.args = ws ++ 48 :: X :: H :: L :: rest)
    (hdos : env.OpenLibrary_dos = true) :
    parseArguments RELEASE env.args s_configByte
      = (START_MODE_CONFIG,
         (if RELEASE then (16 * hexValue H + hexValue L) % 128
          else 16 * hexValue H + hexValue L), [])
    ∧ (env.FindPort = true →
        _start RELEASE env s_configByte
          = (if env.sendDaemonMessage XMSG_CMD_SET_CONFIG
                  (if RELEASE then (16 * hexValue H + hexValue L) % 128
                   else 16 * hexValue H + hexValue L) = 0 then
               (RETURN_OK,
                (if RELEASE then (16 * hexValue H + hexValue L) % 128
                 else 16 * hexValue H + hexValue L),
                [ClientEffect.sendDaemonMessage XMSG_CMD_SET_CONFIG
                   (if RELEASE then (16 * hexValue H + hexValue L) % 128
                    else 16 * hexValue H + hexValue L),
                 ClientEffect.PrintF MSG_CONFIG_UPDATED
                   (if RELEASE then (16 * hexValue H + hexValue L) % 128
                    else 16 * hexValue H + hexValue L)])
             else
               (RETURN_FAIL,
                (if RELEASE then (16 * hexValue H + hexValue L) % 128
                 else 16 * hexValue H + hexValue L),
                [ClientEffect.sendDaemonMessage XMSG_CMD_SET_CONFIG
                   (if RELEASE then (16 * hexValue H + hexValue L) % 128
                    else 16 * hexValue H + hexValue L),
                 ClientEffect.Print MSG_ERR_UPDATE_CONFIG])))
    ∧ (env.FindPort = false → env.CreateNewProcTags = true →
        _start RELEASE env s_configByte
          = (RETURN_OK,
             (if RELEASE then (16 * hexValue H + hexValue L) % 128
              else 16 * hexValue H + hexValue L),
             [ClientEffect.CreateNewProcTags true,
              ClientEffect.PrintF MSG_DAEMON_RUNNING
                (if RELEASE then (16 * hexValue H + hexValue L) % 128
                 else 16 * hexValue H + hexValue L)])
        ∧ ∀ ienv : InitEnv,
            (daemon_Init ienv (loaded (_start RELEASE env s_configByte).2.1)).1 = true →
            (daemon_Init ienv (loaded (_start RELEASE env s_configByte).2.1)).2.s_configByte
              = (if RELEASE then (16 * hexValue H + hexValue L) % 128
                 else 16 * hexValue H + hexValue L))
    ∧ (∀ bl tl : List Nat, (∀ c ∈ bl, c = 32 ∨ c = 9) →
        parseArguments RELEASE bl s_configByte = (START_MODE_TOGGLE, 0x13, [])
        ∧ parseArguments RELEASE (bl ++ 10 :: tl) s_configByte = (START_MODE_TOGGLE, 0x13, []))
    ∧ (∀ (bl : List Nat) (c0 c1 c2 c3 c4 : Nat) (tl : List Nat), (∀ c ∈ bl, c = 32 ∨ c = 9) →
        (c0 = 115 ∨ c0 = 83) → (c1 = 116 ∨ c1 = 84) → (c2 = 97 ∨ c2 = 65) →
        (c3 = 114 ∨ c3 = 82) → (c4 = 116 ∨ c4 = 84) →
        (tl = [] ∨ ∃ c t, tl = c :: t ∧ (c = 0 ∨ c = 32 ∨ c = 9 ∨ c = 10)) →
        parseArguments RELEASE (bl ++ c0 :: c1 :: c2 :: c3 :: c4 :: tl) s_configByte
          = (START_MODE_START, 0x13, [])) := by
  have hnz : (if RELEASE then (16 * hexValue H + hexValue L) % 128
      else 16 * hexValue H + hexValue L) ≠ 0 := by
    intro h0
    cases RELEASE
    · simp only [Bool.false_eq_true, if_false] at h0
      rw [h0] at hb
      exact hb rfl
    · simp only [if_true] at h0
      have := features_mod_128 (16 * hexValue H + hexValue L)
      rw [h0] at this
      exact hb this.symm
  have hp : parseArguments RELEASE env.args s_configByte
      = (START_MODE_CONFIG,
         (if RELEASE then (16 * hexValue H + hexValue L) % 128
          else 16 * hexValue H + hexValue L), []) := by
    rw [hargs, parseArguments_hex RELEASE ws X H L rest s_configByte hws hX hH hL, if_neg hb,
      and_127_eq_mod]
  have hs2 : env.FindPort = false → env.CreateNewProcTags = true →
      _start RELEASE env s_configByte
          = (RETURN_OK,
             (if RELEASE then (16 * hexValue H + hexValue L) % 128
              else 16 * hexValue H + hexValue L),
             [ClientEffect.CreateNewProcTags true,
              ClientEffect.PrintF MSG_DAEMON_RUNNING
                (if RELEASE then (16 * hexValue H + hexValue L) % 128
                 else 16 * hexValue H + hexValue L)]) := by
    intro hf hc
    unfold _start
    simp [hdos, hp, hf, hc, START_MODE_STOP, START_MODE_STATUS, START_MODE_START,
      START_MODE_CONFIG, START_MODE_TOGGLE]
  refine ⟨hp, ?_, ?_, ?_, ?_⟩
  · intro hf
    unfold _start
    simp only [hdos, hp, hf, START_MODE_STOP, START_MODE_STATUS, START_MODE_START,
      START_MODE_CONFIG, START_MODE_TOGGLE]
    simp
  · intro hf hc
    refine ⟨hs2 hf hc, ?_⟩
    intro ienv hinit
    rw [hs2 hf hc] at hinit ⊢
    exact daemon_Init_configByte ienv _ hinit hnz
  · intro bl tl hbl
    exact parseArguments_none RELEASE bl tl s_configByte hbl
  · intro bl c0 c1 c2 c3 c4 tl hbl h0 h1 h2 h3 h4 htl
    exact parseArguments_start RELEASE bl c0 c1 c2 c3 c4 tl s_configByte hbl h0 h1 h2 h3 h4 htl

theorem hex_byte_with_features_is_carried_witness :
    parseArguments false [32, 48, 88, 57, 51, 10] 0 = (START_MODE_CONFIG, 0x93, [])
    ∧ _start false ⟨true, [32, 48, 88, 57, 51, 10], true, fun _ _ => 0, true⟩ 0
        = (RETURN_OK, 0x93,
           [ClientEffect.sendDaemonMessage XMSG_CMD_SET_CONFIG 0x93,
            ClientEffect.PrintF MSG_CONFIG_UPDATED 0x93]) :=
  have h := hex_byte_with_features_is_carried false
    ⟨true, [32, 48, 88, 57, 51, 10], true, fun _ _ => 0, true⟩ [32] 88 57 51 [10] 0
    (by simp) (Or.inr rfl) (by unfold isHexDigit; decide) (by unfold isHexDigit; decide)
    (by decide) rfl rfl
  ⟨h.1, h.2.1 rfl⟩

/-! ## The one-tick carry-over of wheel activity -/

theorem injectedEvents_inputs (evs : List InputEvent) :
    injectedEvents (evs.map Effect.DoIO_input) = evs := by
  induction evs with
  | nil => rfl
  | cons e es ih => simp [injectedEvents, ih]

/-- The effects of a tick: those of the injection part, then one `SendIO` of the timer
request. -/
theorem daemon_timerTick_trace (env : TickEnv) (d : Daemon) :
    ∃ secs micro, (daemon_timerTick env d).trace
      = (tickInject env (tickSample env d) d).trace ++ [Effect.SendIO_timer secs micro] := by
  unfold daemon_timerTick
  simp only []
  split_ifs
  · exact ⟨_, _, rfl⟩
  · exact ⟨_, _, rfl⟩

theorem button_code_ne_wheel (b x : Nat) (hb : b = NM_BUTTON_FOURTH ∨ b = NM_BUTTON_FIFTH)
    (hx : x = 0 ∨ x = IECODE_UP_PREFIX) :
    b ||| x ≠ NM_WHEEL_UP ∧ b ||| x ≠ NM_WHEEL_DOWN := by
  rcases hb with rfl | rfl <;> rcases hx with rfl | rfl <;> decide

theorem mem_pair_ite (c : Prop) [Decidable c] (e1 e2 ev : InputEvent)
    (h : ev ∈ (if c then [e1, e2] else [])) : ev = e1 ∨ ev = e2 := by
  by_cases hc : c
  · rw [if_pos hc] at h
    simpa using h
  · rw [if_neg hc] at h
    simp at h

theorem upCode_cases (c : Prop) [Decidable c] :
    (if c then 0 else IECODE_UP_PREFIX) = 0
    ∨ (if c then 0 else IECODE_UP_PREFIX) = IECODE_UP_PREFIX := by
  by_cases hc : c
  · exact Or.inl (if_pos hc)
  · exact Or.inr (if_neg hc)

/-- The events a tick injects when its wheel delta is 0: none with a wheel code. -/
theorem tickInject_no_scroll (env : TickEnv) (l : TickLocals) (d : Daemon)
    (h0 : l.currentWHDelta = 0) :
    ∃ evs : List InputEvent,
      (tickInject env l d).trace = d.trace ++ evs.map Effect.DoIO_input
      ∧ ∀ ev ∈ evs, ev.ie_Code ≠ NM_WHEEL_UP ∧ ev.ie_Code ≠ NM_WHEEL_DOWN := by
  have hw : ∀ x : Daemon, daemon_ProcessWheel l.currentWHDelta x = x := by
    intro x
    unfold daemon_ProcessWheel
    rw [if_pos h0]
  unfold tickInject
  by_cases ha : l.hadActivity = true
  · rw [if_pos ha]
    simp only [hw, ite_self]
    by_cases hb : l.hadBTActivity = true
    · rw [if_pos hb, daemon_ProcessButtons_trace]
      refine ⟨_, rfl, ?_⟩
      intro ev hev
      rcases List.mem_append.1 hev with hev | hev
      · rcases mem_pair_ite _ _ _ _ hev with rfl | rfl <;>
          exact button_code_ne_wheel _ _ (Or.inl rfl) (upCode_cases _)
      · rcases mem_pair_ite _ _ _ _ hev with rfl | rfl <;>
          exact button_code_ne_wheel _ _ (Or.inr rfl) (upCode_cases _)
    · rw [if_neg hb]
      exact ⟨[], by simp, by simp⟩
  · rw [if_neg ha]
    exact ⟨[], by simp, by simp⟩

/-- C25. In the newer daemon with the wheel enabled: if the previous tick recorded a
nonzero wheel delta (`s_lastWHDelta`) and the raw counter has not changed since, the
current tick has wheel activity true and wheel delta 0, injects no event with a wheel
code, and records delta 0; the next tick with the counter still unchanged has wheel
activity false.  So exactly one further tick is active on account of the wheel. -/
theorem wheel_carry_over_lasts_one_tick (env env2 : TickEnv) (d : Daemon)
    (hw : d.s_configByte &&& CONFIG_WHEEL_ENABLED ≠ 0)
    (hprev : d.s_lastWHDelta ≠ 0)
    (hsame : env.SAGA_WHEELCOUNTER % 256 = d.s_lastWHCounter)
    (hsame2 : env2.SAGA_WHEELCOUNTER % 256 = env.SAGA_WHEELCOUNTER % 256) :
    (tickSample env d).hadWHActivity = true
    ∧ (tickSample env d).hadActivity = true
    ∧ (tickSample env d).currentWHDelta = 0
    ∧ (∃ evs : List InputEvent,
        injectedEvents (daemon_timerTick env d).trace = injectedEvents d.trace ++ evs
        ∧ ∀ ev ∈ evs, ev.ie_Code ≠ NM_WHEEL_UP ∧ ev.ie_Code ≠ NM_WHEEL_DOWN)
    ∧ (daemon_timerTick env d).s_lastWHDelta = 0
    ∧ (daemon_timerTick env d).s_lastWHCounter = d.s_lastWHCounter
    ∧ (tickSample env2 (daemon_timerTick env d)).hadWHActivity = false
    ∧ (tickSample env2 (daemon_timerTick env d)).currentWHDelta = 0 := by
  have hact : (tickSample env d).hadWHActivity = true := by
    simp [tickSample, hw, hsame, hprev]
  have hdelta : (tickSample env d).currentWHDelta = 0 := by
    simp [tickSample, hw, hsame]
  have hcnt : (tickSample env d).currentWHCounter = d.s_lastWHCounter := by
    simp [tickSample, hw, hsame]
  have hcfg := daemon_timerTick_configByte env d
  have hd2 : (daemon_timerTick env d).s_lastWHDelta = 0 := hdelta
  have hc2 : (daemon_timerTick env d).s_lastWHCounter = d.s_lastWHCounter := hcnt
  have hw2 : (daemon_timerTick env d).s_configByte &&& CONFIG_WHEEL_ENABLED ≠ 0 := by
    rw [hcfg]; exact hw
  refine ⟨hact, by simp [tickSample, hw, hsame, hprev], hdelta, ?_, hd2, hc2, ?_, ?_⟩
  · obtain ⟨secs, micro, ht⟩ := daemon_timerTick_trace env d
    obtain ⟨evs, he, hcodes⟩ := tickInject_no_scroll env (tickSample env d) d hdelta
    refine ⟨evs, ?_, hcodes⟩
    rw [ht, he]
    simp [injectedEvents_append, injectedEvents_inputs, injectedEvents]
  · simp [tickSample, hw2, hc2, hd2, hsame2, hsame]
  · simp [tickSample, hw2, hc2, hsame2, hsame]

theorem wheel_carry_over_lasts_one_tick_witness :
    (tickSample { tickQuiet with SAGA_WHEELCOUNTER := 2 }
        (running false initOk (loaded 0x13)
          [DaemonInput.tick { tickQuiet with SAGA_WHEELCOUNTER := 2 }])).hadWHActivity = true
    ∧ (tickSample { tickQuiet with SAGA_WHEELCOUNTER := 2 }
        (daemon_timerTick { tickQuiet with SAGA_WHEELCOUNTER := 2 }
          (running false initOk (loaded 0x13)
            [DaemonInput.tick { tickQuiet with SAGA_WHEELCOUNTER := 2 }]))).hadWHActivity
        = false :=
  have h := wheel_carry_over_lasts_one_tick { tickQuiet with SAGA_WHEELCOUNTER := 2 }
    { tickQuiet with SAGA_WHEELCOUNTER := 2 }
    (running false initOk (loaded 0x13)
      [DaemonInput.tick { tickQuiet with SAGA_WHEELCOUNTER := 2 }])
    (by decide) (by decide) (by decide) (by decide)
  ⟨h.1, h.2.2.2.2.2.2.1⟩

/-! ## The invariants of the scheduler and of the poll interval -/

/-- C27. For each built-in profile `modeAt i` and every scheduler state reached from the
start state of `daemon_Init` in adaptive mode (IDLE at `idleUs`, accumulator 0) by any
sequence of activity flags: `burstUs <= interval <= idleUs`; IDLE implies interval
`idleUs`; BURST implies interval `burstUs`; ACTIVE implies interval at most `activeUs`;
TO_IDLE implies interval below `idleUs`; and the state is one of IDLE, ACTIVE, BURST,
TO_IDLE.  The start state is the one a successful `daemon_Init` leaves for a nonzero
configuration byte with bit 6 clear. -/
theorem scheduler_state_interval_invariant (i : Nat) (flags : List Bool) :
    (modeAt i).burstUs ≤ (runTicks (adaptiveStart i) flags).s_adaptiveInterval
    ∧ (runTicks (adaptiveStart i) flags).s_adaptiveInterval ≤ (modeAt i).idleUs
    ∧ ((runTicks (adaptiveStart i) flags).s_adaptiveState = POLL_STATE_IDLE →
        (runTicks (adaptiveStart i) flags).s_adaptiveInterval = (modeAt i).idleUs)
    ∧ ((runTicks (adaptiveStart i) flags).s_adaptiveState = POLL_STATE_BURST →
        (runTicks (adaptiveStart i) flags).s_adaptiveInterval = (modeAt i).burstUs)
    ∧ ((runTicks (adaptiveStart i) flags).s_adaptiveState = POLL_STATE_ACTIVE →
        (runTicks (adaptiveStart i) flags).s_adaptiveInterval ≤ (modeAt i).activeUs)
    ∧ ((runTicks (adaptiveStart i) flags).s_adaptiveState = POLL_STATE_TO_IDLE →
        (runTicks (adaptiveStart i) flags).s_adaptiveInterval < (modeAt i).idleUs)
    ∧ ((runTicks (adaptiveStart i) flags).s_adaptiveState = POLL_STATE_IDLE
        ∨ (runTicks (adaptiveStart i) flags).s_adaptiveState = POLL_STATE_ACTIVE
        ∨ (runTicks (adaptiveStart i) flags).s_adaptiveState = POLL_STATE_BURST
        ∨ (runTicks (adaptiveStart i) flags).s_adaptiveState = POLL_STATE_TO_IDLE)
    ∧ (runTicks (adaptiveStart i) flags).s_activeMode = modeAt i
    ∧ (∀ (env : InitEnv) (d : Daemon), (daemon_Init env d).1 = true → d.s_configByte ≠ 0 →
        d.s_configByte &&& CONFIG_FIXED_MODE = 0 → d.s_configByte / 16 % 4 = i →
        (daemon_Init env d).2.adaptive = adaptiveStart i) := by
  obtain ⟨hmode, h⟩ := schedInv_runTicks (modeAt i) (modeOK_modeAt i) flags _ (schedInv_start i)
  obtain ⟨h1, h2, -⟩ := modeOK_modeAt i
  have hinit : ∀ (env : InitEnv) (d : Daemon), (daemon_Init env d).1 = true →
      d.s_configByte ≠ 0 → d.s_configByte &&& CONFIG_FIXED_MODE = 0 →
      d.s_configByte / 16 % 4 = i → (daemon_Init env d).2.adaptive = adaptiveStart i := by
    intro env d hs hz hf hi
    rw [daemon_Init_adaptiveStart env d hs hz hf, modeIndexOf_eq, hi]
  simp only [POLL_STATE_IDLE, POLL_STATE_ACTIVE, POLL_STATE_BURST, POLL_STATE_TO_IDLE] at h ⊢
  rcases h with ⟨hs, hi⟩ | ⟨hs, hb, ha, -⟩ | ⟨hs, hb, -⟩ | ⟨hs, hb, ht⟩
  · refine ⟨by omega, by omega, fun _ => hi, ?_, ?_, ?_, Or.inl hs, hmode, hinit⟩ <;>
      intro hx <;> omega
  · refine ⟨hb, by omega, ?_, ?_, fun _ => ha, ?_, Or.inr (Or.inl hs), hmode, hinit⟩ <;>
      intro hx <;> omega
  · refine ⟨by omega, by omega, ?_, fun _ => hb, ?_, ?_, Or.inr (Or.inr (Or.inl hs)), hmode,
      hinit⟩ <;> intro hx <;> omega
  · refine ⟨hb, by omega, ?_, ?_, ?_, fun _ => ht, Or.inr (Or.inr (Or.inr hs)), hmode,
      hinit⟩ <;> intro hx <;> omega

/-- The timer request a tick sends carries the poll interval the tick leaves. -/
theorem daemon_timerTick_arms_pollInterval (env : TickEnv) (d : Daemon) :
    timerArms (daemon_timerTick env d).trace
      = timerArms d.trace ++ [(daemon_timerTick env d).s_pollInterval] := by
  by_cases hf : d.s_configByte &&& CONFIG_FIXED_MODE ≠ 0
  · obtain ⟨-, a2, a3⟩ := daemon_timerTick_fixed env d hf
    rw [a3, a2]
  · have hf0 : d.s_configByte &&& CONFIG_FIXED_MODE = 0 := by simpa using hf
    obtain ⟨-, a2, a3⟩ := daemon_timerTick_adaptive env d hf0
    rw [a3, a2]

/-- C28. After a successful `daemon_Init` and any sequence of control messages and timer
ticks, the active profile is the table entry selected by bits 4-5 of the current
configuration byte; the poll interval equals that profile's `burstUs` when bit 6 is set
and the scheduler's current interval when bit 6 is clear; and the timer request that a
further tick sends carries the poll interval that tick leaves. -/
theorem poll_interval_follows_config (RELEASE : Bool) (ienv : InitEnv) (d0 : Daemon)
    (inputs : List DaemonInput) (hinit : (daemon_Init ienv d0).1 = true) :
    (running RELEASE ienv d0 inputs).adaptive.s_activeMode
        = modeAt ((running RELEASE ienv d0 inputs).s_configByte / 16 % 4)
    ∧ ((running RELEASE ienv d0 inputs).s_configByte / 64 % 2 = 1 →
        (running RELEASE ienv d0 inputs).s_pollInterval
          = (modeAt ((running RELEASE ienv d0 inputs).s_configByte / 16 % 4)).burstUs)
    ∧ ((running RELEASE ienv d0 inputs).s_configByte / 64 % 2 = 0 →
        (running RELEASE ienv d0 inputs).s_pollInterval
          = (running RELEASE ienv d0 inputs).adaptive.s_adaptiveInterval)
    ∧ (∀ env : TickEnv,
        timerArms (daemon_timerTick env (running RELEASE ienv d0 inputs)).trace
          = timerArms (running RELEASE ienv d0 inputs).trace
            ++ [(daemon_timerTick env (running RELEASE ienv d0 inputs)).s_pollInterval]) := by
  obtain ⟨h1, h2, h3⟩ := modeInv_running RELEASE ienv d0 inputs hinit
  rw [modeIndexOf_eq] at h1 h2
  have hbit := fixedBit_eq (running RELEASE ienv d0 inputs).s_configByte
  simp only [CONFIG_FIXED_MODE] at h2 h3
  refine ⟨h1, ?_, ?_, fun env => daemon_timerTick_arms_pollInterval env _⟩
  · intro hb
    exact h2 (by omega)
  · intro hb
    exact h3 (by omega)

theorem poll_interval_follows_config_witness :
    (running false initOk (loaded 0x13)
        [DaemonInput.message ⟨XMSG_CMD_SET_CONFIG, 0x63, 0⟩,
         DaemonInput.tick tickQuiet]).s_pollInterval
      = (modeAt ((running false initOk (loaded 0x13)
          [DaemonInput.message ⟨XMSG_CMD_SET_CONFIG, 0x63, 0⟩,
           DaemonInput.tick tickQuiet]).s_configByte / 16 % 4)).burstUs :=
  (poll_interval_follows_config false initOk (loaded 0x13)
    [DaemonInput.message ⟨XMSG_CMD_SET_CONFIG, 0x63, 0⟩, DaemonInput.tick tickQuiet]
    (by decide)).2.1 (by decide)

/-! ## The wheel deltas of consecutive ticks -/

/-- The wheel block of a tick with the wheel enabled. -/
theorem tickSample_wheel (env : TickEnv) (d : Daemon)
    (hw : d.s_configByte &&& CONFIG_WHEEL_ENABLED ≠ 0) :
    (tickSample env d).currentWHCounter = env.SAGA_WHEELCOUNTER % 256
    ∧ (tickSample env d).currentWHDelta
        = (if d.s_lastWHCounter ≠ env.SAGA_WHEELCOUNTER % 256 then
             wheelDelta d.s_lastWHCounter (env.SAGA_WHEELCOUNTER % 256)
           else 0) := by
  by_cases hne : d.s_lastWHCounter = env.SAGA_WHEELCOUNTER % 256
  · simp [tickSample, hw, hne]
  · simp [tickSample, hw, hne]

theorem wheelDelta_mod (l c : Nat) :
    wheelDelta l c % 256 = ((c : Int) - (l : Int)) % 256 := by
  unfold wheelDelta
  simp only []
  split_ifs <;> omega

theorem wheelDelta_exact (l c : Nat) (m : Int) (hl : l < 256)
    (h1 : -128 < m) (h2 : m < 128) (hr : (c : Int) = ((l : Int) + m) % 256) :
    wheelDelta l c = m := by
  unfold wheelDelta
  simp only []
  split_ifs <;> omega

/-- The delta of one wheel-enabled tick is congruent modulo 256 to the reading minus the
stored reading, and is the movement itself when that is below 128 steps. -/
theorem tickSample_delta (env : TickEnv) (d : Daemon)
    (hw : d.s_configByte &&& CONFIG_WHEEL_ENABLED ≠ 0) (hl : d.s_lastWHCounter < 256) :
    (tickSample env d).currentWHDelta % 256
        = (((env.SAGA_WHEELCOUNTER % 256 : Nat) : Int) - (d.s_lastWHCounter : Int)) % 256
    ∧ ∀ m : Int, -128 < m → m < 128 →
        ((env.SAGA_WHEELCOUNTER % 256 : Nat) : Int) = ((d.s_lastWHCounter : Int) + m) % 256 →
        (tickSample env d).currentWHDelta = m := by
  have hc : env.SAGA_WHEELCOUNTER % 256 < 256 := Nat.mod_lt _ (by decide)
  rw [(tickSample_wheel env d hw).2]
  refine ⟨?_, ?_⟩
  · split_ifs with hne
    · exact wheelDelta_mod _ _
    · have : d.s_lastWHCounter = env.SAGA_WHEELCOUNTER % 256 := by
        by_contra h; exact hne h
      rw [this]; simp
  · intro m h1 h2 hr
    split_ifs with hne
    · exact wheelDelta_exact _ _ m hl h1 h2 hr
    · have : d.s_lastWHCounter = env.SAGA_WHEELCOUNTER % 256 := by
        by_contra h; exact hne h
      rw [← this] at hr
      omega

theorem daemon_run_ticks_cons (RELEASE : Bool) (d : Daemon) (env : TickEnv)
    (envs : List TickEnv) :
    daemon_run RELEASE d ((env :: envs).map DaemonInput.tick)
      = daemon_run RELEASE (daemon_timerTick env d) (envs.map DaemonInput.tick) := rfl

/-- C29. For every stored startup reading `r0` of the wheel counter (a byte, as
`daemon_Init` stores it) and every sequence of register readings on consecutive
wheel-enabled ticks, the sum of the wrap-corrected deltas of the ticks is congruent
modulo 256 to the last reading minus `r0`, the last reading being the one the last tick
stored.  When between two ticks the counter moves by fewer than 128 steps in either
direction, the delta of every tick is exactly the movement since the tick before. -/
theorem wheel_deltas_sum_to_net_movement (RELEASE : Bool) (d : Daemon) (envs : List TickEnv)
    (hw : d.s_configByte &&& CONFIG_WHEEL_ENABLED ≠ 0) (hl : d.s_lastWHCounter < 256) :
    (tickDeltas d envs).sum % 256
        = (((daemon_run RELEASE d (envs.map DaemonInput.tick)).s_lastWHCounter : Int)
            - (d.s_lastWHCounter : Int)) % 256
    ∧ (daemon_run RELEASE d (envs.map DaemonInput.tick)).s_lastWHCounter
        = (match envs.getLast? with
           | some env => env.SAGA_WHEELCOUNTER % 256
           | none => d.s_lastWHCounter)
    ∧ (∀ ms : List Int, wheelMoves d.s_lastWHCounter ms envs = true → tickDeltas d envs = ms)
    ∧ (∀ (ienv : InitEnv) (d0 : Daemon), (daemon_Init ienv d0).1 = true →
        (running RELEASE ienv d0 []).s_lastWHCounter = ienv.SAGA_WHEELCOUNTER % 256) := by
  refine ⟨?_, ?_, ?_, ?_⟩
  · induction envs generalizing d with
    | nil => simp [tickDeltas, daemon_run]
    | cons env envs ih =>
      have hw2 : (daemon_timerTick env d).s_configByte &&& CONFIG_WHEEL_ENABLED ≠ 0 := by
        rw [daemon_timerTick_configByte]; exact hw
      have hc : (daemon_timerTick env d).s_lastWHCounter = env.SAGA_WHEELCOUNTER % 256 :=
        (tickSample_wheel env d hw).1
      have hl2 : (daemon_timerTick env d).s_lastWHCounter < 256 := by
        rw [hc]; exact Nat.mod_lt _ (by decide)
      have h1 := (tickSample_delta env d hw hl).1
      have h2 := ih (daemon_timerTick env d) hw2 hl2
      rw [daemon_run_ticks_cons]
      simp only [tickDeltas, List.sum_cons]
      rw [hc] at h2
      omega
  · induction envs generalizing d with
    | nil => rfl
    | cons env envs ih =>
      have hw2 : (daemon_timerTick env d).s_configByte &&& CONFIG_WHEEL_ENABLED ≠ 0 := by
        rw [daemon_timerTick_configByte]; exact hw
      have hc : (daemon_timerTick env d).s_lastWHCounter = env.SAGA_WHEELCOUNTER % 256 :=
        (tickSample_wheel env d hw).1
      have hl2 : (daemon_timerTick env d).s_lastWHCounter < 256 := by
        rw [hc]; exact Nat.mod_lt _ (by decide)
      rw [daemon_run_ticks_cons, ih (daemon_timerTick env d) hw2 hl2]
      cases envs with
      | nil => simp [hc]
      | cons e es => rw [List.getLast?_cons_cons, List.getLast?_eq_getLast _ (List.cons_ne_nil e es)]
  · induction envs generalizing d with
    | nil =>
      intro ms hm
      cases ms with
      | nil => rfl
      | cons m ms => simp [wheelMoves] at hm
    | cons env envs ih =>
      intro ms hm
      cases ms with
      | nil => simp [wheelMoves] at hm
      | cons m ms =>
        simp only [wheelMoves, Bool.and_eq_true, decide_eq_true_eq] at hm
        obtain ⟨⟨⟨h1, h2⟩, hr⟩, hrest⟩ := hm
        have hw2 : (daemon_timerTick env d).s_configByte &&& CONFIG_WHEEL_ENABLED ≠ 0 := by
          rw [daemon_timerTick_configByte]; exact hw
        have hc : (daemon_timerTick env d).s_lastWHCounter = env.SAGA_WHEELCOUNTER % 256 :=
          (tickSample_wheel env d hw).1
        have hl2 : (daemon_timerTick env d).s_lastWHCounter < 256 := by
          rw [hc]; exact Nat.mod_lt _ (by decide)
        rw [← hc] at hrest
        simp only [tickDeltas]
        rw [(tickSample_delta env d hw hl).2 m h1 h2 hr, ih (daemon_timerTick env d) hw2 hl2 ms hrest]
  · intro ienv d0 hinit
    show (daemon_Init ienv d0).2.s_lastWHCounter = _
    rw [daemon_Init_success ienv d0 hinit]
    unfold daemon_InitState
    simp only []
    split_ifs <;> rfl

theorem wheel_deltas_sum_to_net_movement_witness :
    tickDeltas (running false initOk (loaded 0x13) [])
        [{ tickQuiet with SAGA_WHEELCOUNTER := 250 }, { tickQuiet with SAGA_WHEELCOUNTER := 3 }]
      = [-6, 9] :=
  (wheel_deltas_sum_to_net_movement false (running false initOk (loaded 0x13) [])
    [{ tickQuiet with SAGA_WHEELCOUNTER := 250 }, { tickQuiet with SAGA_WHEELCOUNTER := 3 }]
    (by decide) (by decide)).2.2.1 [-6, 9] (by decide)

/-! ## A wrap of the accumulator changes no state and no interval -/

/-- In state IDLE the transition of spec section 4.1 does not read the accumulator. -/
theorem specTransition_idle (p : AdaptiveMode) (f : Bool) (interval acc1 acc2 : Nat) :
    specTransition p f POLL_STATE_IDLE interval acc1
      = specTransition p f POLL_STATE_IDLE interval acc2 := by
  cases f <;> simp [specTransition, POLL_STATE_IDLE, POLL_STATE_ACTIVE, POLL_STATE_BURST,
    POLL_STATE_TO_IDLE]

theorem agreesWith_step (m : AdaptiveMode) (hm : ModeOK m) (hw : ModeNoWrap m) (f : Bool)
    (a : Adaptive) (s : Nat × Nat × Nat) (h : SchedInv m a) (hacc : AccInv m a)
    (hag : AgreesWith a s) :
    AgreesWith (daemon_GetAdaptiveInterval f a).2 (specStep m f s.1 s.2.1 s.2.2) := by
  have hstep := step_eq_specStep32 m hm f a h
  have hnext := accInv_step m hm f a h hacc
  have hinv := schedInv_step m hm f a h
  obtain ⟨h1, h2, h3, h4⟩ := hag
  have e1 : (daemon_GetAdaptiveInterval f a).2.s_adaptiveState
      = (specStep32 m f a.s_adaptiveState a.s_adaptiveInterval a.s_adaptiveInactive).1 :=
    congrArg (fun t => t.1) hstep
  have e2 : (daemon_GetAdaptiveInterval f a).2.s_adaptiveInterval
      = (specStep32 m f a.s_adaptiveState a.s_adaptiveInterval a.s_adaptiveInactive).2.1 :=
    congrArg (fun t => t.2.1) hstep
  have e3 : (daemon_GetAdaptiveInterval f a).2.s_adaptiveInactive
      = (specStep32 m f a.s_adaptiveState a.s_adaptiveInterval a.s_adaptiveInactive).2.2 :=
    congrArg (fun t => t.2.2) hstep
  by_cases hs : a.s_adaptiveState = POLL_STATE_IDLE
  · -- IDLE: the accumulator is not read by the transition
    have hs1 : s.1 = POLL_STATE_IDLE := by rw [← h1]; exact hs
    have ht := specTransition_idle m f a.s_adaptiveInterval
      (if f then 0 else (a.s_adaptiveInactive + a.s_adaptiveInterval) % ULONG_RANGE)
      (if f then 0 else s.2.2 + a.s_adaptiveInterval)
    unfold AgreesWith
    rw [e1, e2, e3]
    simp only [specStep32, specStep]
    rw [hs, hs1, ← h2, ht]
    refine ⟨rfl, rfl, ?_, ?_⟩
    · cases f
      · simp only [Bool.false_eq_true, if_false]
        rw [h3, Nat.mod_add_mod]
      · simp [ULONG_RANGE]
    · intro hne
      cases f
      · exfalso
        apply hne
        simp [specTransition, POLL_STATE_IDLE, POLL_STATE_ACTIVE, POLL_STATE_BURST,
          POLL_STATE_TO_IDLE]
      · simp
  · have hno := no_wrap_outside_idle m hm hw a h hacc hs
    have hs32 := specStep32_eq_specStep m f a.s_adaptiveState a.s_adaptiveInterval
      a.s_adaptiveInactive hno
    have hacc_eq := h4 hs
    unfold AgreesWith
    rw [e1, e2, e3, hs32, ← h1, ← h2, ← hacc_eq]
    refine ⟨rfl, rfl, ?_, fun _ => rfl⟩
    have hlt : (specStep m f a.s_adaptiveState a.s_adaptiveInterval a.s_adaptiveInactive).2.2
        < ULONG_RANGE := by
      simp only [specStep, ULONG_RANGE]
      split_ifs <;> omega
    exact (Nat.mod_eq_of_lt hlt).symm

theorem agreesWith_runTicks (m : AdaptiveMode) (hm : ModeOK m) (hw : ModeNoWrap m)
    (flags : List Bool) (a : Adaptive) (s : Nat × Nat × Nat) (h : SchedInv m a)
    (hacc : AccInv m a) (hag : AgreesWith a s) :
    AgreesWith (runTicks a flags) (specRun m s flags) := by
  induction flags generalizing a s with
  | nil => exact hag
  | cons f fs ih =>
    exact ih _ _ (schedInv_step m hm f a h) (accInv_step m hm f a h hacc)
      (agreesWith_step m hm hw f a s h hacc hag)

/-- C30. For each built-in profile `modeAt i` and every scheduler state reached from the
start state by any sequence of activity flags: in ACTIVE, BURST and TO_IDLE the sum
accumulator + interval is below `2^32`, so the accumulation of the next call does not
wrap and the comparisons against the thresholds see the true accumulated time.  State
and interval are those of the run of spec section 4.1 over the unbounded numbers, for
every sequence of flags, whether or not the accumulator wrapped while IDLE; the
accumulator equals the unbounded one outside IDLE and is congruent to it modulo `2^32`
in IDLE.  A call in state IDLE with activity leaves state ACTIVE with the accumulator 0,
and its state and interval do not depend on the accumulator it found. -/
theorem accumulator_wrap_is_harmless (i : Nat) (flags : List Bool) :
    ((runTicks (adaptiveStart i) flags).s_adaptiveState ≠ POLL_STATE_IDLE →
        (runTicks (adaptiveStart i) flags).s_adaptiveInactive
          + (runTicks (adaptiveStart i) flags).s_adaptiveInterval < 4294967296)
    ∧ (runTicks (adaptiveStart i) flags).s_adaptiveState
        = (specRun (modeAt i) (POLL_STATE_IDLE, (modeAt i).idleUs, 0) flags).1
    ∧ (runTicks (adaptiveStart i) flags).s_adaptiveInterval
        = (specRun (modeAt i) (POLL_STATE_IDLE, (modeAt i).idleUs, 0) flags).2.1
    ∧ (runTicks (adaptiveStart i) flags).s_adaptiveInactive
        = (specRun (modeAt i) (POLL_STATE_IDLE, (modeAt i).idleUs, 0) flags).2.2 % 4294967296
    ∧ ((runTicks (adaptiveStart i) flags).s_adaptiveState ≠ POLL_STATE_IDLE →
        (runTicks (adaptiveStart i) flags).s_adaptiveInactive
          = (specRun (modeAt i) (POLL_STATE_IDLE, (modeAt i).idleUs, 0) flags).2.2)
    ∧ (∀ acc f,
        (daemon_GetAdaptiveInterval f
            ⟨modeAt i, POLL_STATE_IDLE, (modeAt i).idleUs, acc⟩).2.s_adaptiveState
          = (if f then POLL_STATE_ACTIVE else POLL_STATE_IDLE)
        ∧ (daemon_GetAdaptiveInterval f
            ⟨modeAt i, POLL_STATE_IDLE, (modeAt i).idleUs, acc⟩).2.s_adaptiveInterval
          = (if f then (modeAt i).activeUs else (modeAt i).idleUs)
        ∧ (f = true →
            (daemon_GetAdaptiveInterval f
              ⟨modeAt i, POLL_STATE_IDLE, (modeAt i).idleUs, acc⟩).2.s_adaptiveInactive = 0)) := by
  have hinv := schedInv_runTicks (modeAt i) (modeOK_modeAt i) flags _ (schedInv_start i)
  have hacc := accInv_runTicks (modeAt i) (modeOK_modeAt i) flags _ (schedInv_start i)
    (Or.inl rfl)
  have hag := agreesWith_runTicks (modeAt i) (modeOK_modeAt i) (modeNoWrap_modeAt i) flags
    (adaptiveStart i) (POLL_STATE_IDLE, (modeAt i).idleUs, 0) (schedInv_start i) (Or.inl rfl)
    ⟨rfl, rfl, rfl, fun _ => rfl⟩
  obtain ⟨a1, a2, a3, a4⟩ := hag
  refine ⟨?_, a1, a2, a3, a4, ?_⟩
  · intro hs
    exact no_wrap_outside_idle (modeAt i) (modeOK_modeAt i) (modeNoWrap_modeAt i) _ hinv hacc hs
  · intro acc f
    cases f
    · have e : POLL_STATE_IDLE = 0 := rfl
      rw [e, step_idle_noact]
      exact ⟨rfl, rfl, fun h => absurd h (by decide)⟩
    · have e : POLL_STATE_IDLE = 0 := rfl
      rw [e, step_idle_act]
      exact ⟨rfl, rfl, fun _ => rfl⟩

/-! ## The scheduler of `xmouse.c` against the scheduler of `xmoused.c` -/

theorem xmouse_modeAt_cases (i : Nat) :
    (xmouse_modeAt i = xmouse_modeAt 0 ∧ modeAt i = modeAt 0)
    ∨ (xmouse_modeAt i = xmouse_modeAt 1 ∧ modeAt i = modeAt 1)
    ∨ (xmouse_modeAt i = xmouse_modeAt 2 ∧ modeAt i = modeAt 2)
    ∨ (xmouse_modeAt i = xmouse_modeAt 3 ∧ modeAt i = modeAt 3) := by
  match i with
  | 0 => exact Or.inl ⟨rfl, rfl⟩
  | 1 => exact Or.inr (Or.inl ⟨rfl, rfl⟩)
  | 2 => exact Or.inr (Or.inr (Or.inl ⟨rfl, rfl⟩))
  | (n + 3) => exact Or.inr (Or.inr (Or.inr ⟨rfl, rfl⟩))

theorem sameTiming_modeAt (i : Nat) : SameTiming (xmouse_modeAt i) (modeAt i) := by
  rcases xmouse_modeAt_cases i with h | h | h | h <;> rw [h.1, h.2] <;> unfold SameTiming <;>
    decide

/-- One call of the two schedulers on profiles with the same timing constants and the
same state, interval and accumulator. -/
theorem getAdaptiveInterval_eq (pm : xmouse_AdaptiveMode) (m : AdaptiveMode)
    (h : SameTiming pm m) (f : Bool) (state interval accumulator : Nat) :
    (getAdaptiveInterval f ⟨pm, state, interval, accumulator⟩).1
        = (daemon_GetAdaptiveInterval f ⟨m, state, interval, accumulator⟩).1
    ∧ (getAdaptiveInterval f ⟨pm, state, interval, accumulator⟩).2.s_adaptiveState
        = (daemon_GetAdaptiveInterval f ⟨m, state, interval, accumulator⟩).2.s_adaptiveState
    ∧ (getAdaptiveInterval f ⟨pm, state, interval, accumulator⟩).2.s_adaptiveInterval
        = (daemon_GetAdaptiveInterval f ⟨m, state, interval, accumulator⟩).2.s_adaptiveInterval
    ∧ (getAdaptiveInterval f ⟨pm, state, interval, accumulator⟩).2.s_adaptiveInactive
        = (daemon_GetAdaptiveInterval f ⟨m, state, interval, accumulator⟩).2.s_adaptiveInactive := by
  obtain ⟨h1, h2, h3, h4, h5, h6, h7⟩ := h
  simp only [getAdaptiveInterval, daemon_GetAdaptiveInterval, adaptiveSwitch, h1, h2, h3, h4, h5,
    h6, h7]
  exact ⟨trivial, trivial, trivial, trivial⟩

/-- C26. The profile tables of `xmouse.c` and `xmoused.c` hold the same timing constants
for each of the four profiles, and for every profile, state, interval, accumulator and
activity flag, `getAdaptiveInterval` (`xmouse.c`) and `daemon_GetAdaptiveInterval`
(`xmoused.c`) return the same interval and leave the same state, interval and
accumulator; the profile is kept by both. -/
theorem older_scheduler_equals_newer (i state interval accumulator : Nat) (hadActivity : Bool) :
    ((xmouse_modeAt i).idleUs = (modeAt i).idleUs
      ∧ (xmouse_modeAt i).activeUs = (modeAt i).activeUs
      ∧ (xmouse_modeAt i).burstUs = (modeAt i).burstUs
      ∧ (xmouse_modeAt i).stepDecUs = (modeAt i).stepDecUs
      ∧ (xmouse_modeAt i).stepIncUs = (modeAt i).stepIncUs
      ∧ (xmouse_modeAt i).activeThreshold = (modeAt i).activeThreshold
      ∧ (xmouse_modeAt i).idleThreshold = (modeAt i).idleThreshold)
    ∧ (getAdaptiveInterval hadActivity ⟨xmouse_modeAt i, state, interval, accumulator⟩).1
        = (daemon_GetAdaptiveInterval hadActivity ⟨modeAt i, state, interval, accumulator⟩).1
    ∧ (getAdaptiveInterval hadActivity
          ⟨xmouse_modeAt i, state, interval, accumulator⟩).2.s_adaptiveState
        = (daemon_GetAdaptiveInterval hadActivity
          ⟨modeAt i, state, interval, accumulator⟩).2.s_adaptiveState
    ∧ (getAdaptiveInterval hadActivity
          ⟨xmouse_modeAt i, state, interval, accumulator⟩).2.s_adaptiveInterval
        = (daemon_GetAdaptiveInterval hadActivity
          ⟨modeAt i, state, interval, accumulator⟩).2.s_adaptiveInterval
    ∧ (getAdaptiveInterval hadActivity
          ⟨xmouse_modeAt i, state, interval, accumulator⟩).2.s_adaptiveInactive
        = (daemon_GetAdaptiveInterval hadActivity
          ⟨modeAt i, state, interval, accumulator⟩).2.s_adaptiveInactive
    ∧ (getAdaptiveInterval hadActivity
          ⟨xmouse_modeAt i, state, interval, accumulator⟩).2.s_activeMode = xmouse_modeAt i
    ∧ (daemon_GetAdaptiveInterval hadActivity
          ⟨modeAt i, state, interval, accumulator⟩).2.s_activeMode = modeAt i
    ∧ xmouse_s_adaptiveModes.length = 4 ∧ s_adaptiveModes.length = 4 := by
  have ht := sameTiming_modeAt i
  obtain ⟨e1, e2, e3, e4⟩ :=
    getAdaptiveInterval_eq (xmouse_modeAt i) (modeAt i) ht hadActivity state interval accumulator
  exact ⟨ht, e1, e2, e3, e4, rfl, rfl, rfl, rfl⟩

/-! ## Start-up is all-or-nothing -/

/-- When an acquisition of `daemon_Init` fails, the acquisitions and releases made
there followed by those of `daemon_Cleanup` leave nothing held, release nothing twice
and nothing that was not acquired, and contain no timer effect. -/
theorem daemon_InitResources_failure (env : InitEnv) (pending : Bool)
    (hfail : (daemon_InitResources env (loaded 0).handles).1 = false) :
    heldAfter []
        ((daemon_InitResources env (loaded 0).handles).2.2
          ++ daemon_CleanupEffects pending (daemon_InitResources env (loaded 0).handles).2.1)
      = some []
    ∧ onlyResourceEffects ((daemon_InitResources env (loaded 0).handles).2.2
          ++ daemon_CleanupEffects pending (daemon_InitResources env (loaded 0).handles).2.1)
      = true
    ∧ (∀ r, ((daemon_InitResources env (loaded 0).handles).2.2
          ++ daemon_CleanupEffects pending
              (daemon_InitResources env (loaded 0).handles).2.1).count (Effect.release r)
        = ((daemon_InitResources env (loaded 0).handles).2.2).count (Effect.acquire r))
    ∧ (∀ r, ((daemon_InitResources env (loaded 0).handles).2.2).count (Effect.acquire r) ≤ 1) := by
  obtain ⟨b1, b2, b3, b4, b5, b6, b7, b8, x, y⟩ := env
  cases b1
  · simp only [daemon_InitResources, loaded, Bool.not_false, Bool.not_true, if_true,
      Bool.false_eq_true, if_false]
    cases pending <;> exact ⟨by decide, by decide, by intro r; cases r <;> decide,
      by intro r; cases r <;> decide⟩
  cases b2
  · simp only [daemon_InitResources, loaded, Bool.not_false, Bool.not_true, if_true,
      Bool.false_eq_true, if_false]
    cases pending <;> exact ⟨by decide, by decide, by intro r; cases r <;> decide,
      by intro r; cases r <;> decide⟩
  cases b3
  · simp only [daemon_InitResources, loaded, Bool.not_false, Bool.not_true, if_true,
      Bool.false_eq_true, if_false]
    cases pending <;> exact ⟨by decide, by decide, by intro r; cases r <;> decide,
      by intro r; cases r <;> decide⟩
  cases b4
  · simp only [daemon_InitResources, loaded, Bool.not_false, Bool.not_true, if_true,
      Bool.false_eq_true, if_false]
    cases pending <;> exact ⟨by decide, by decide, by intro r; cases r <;> decide,
      by intro r; cases r <;> decide⟩
  cases b5
  · simp only [daemon_InitResources, loaded, Bool.not_false, Bool.not_true, if_true,
      Bool.false_eq_true, if_false]
    cases pending <;> exact ⟨by decide, by decide, by intro r; cases r <;> decide,
      by intro r; cases r <;> decide⟩
  cases b6
  · simp only [daemon_InitResources, loaded, Bool.not_false, Bool.not_true, if_true,
      Bool.false_eq_true, if_false]
    cases pending <;> exact ⟨by decide, by decide, by intro r; cases r <;> decide,
      by intro r; cases r <;> decide⟩
  cases b7
  · simp only [daemon_InitResources, loaded, Bool.not_false, Bool.not_true, if_true,
      Bool.false_eq_true, if_false]
    cases pending <;> exact ⟨by decide, by decide, by intro r; cases r <;> decide,
      by intro r; cases r <;> decide⟩
  cases b8
  · simp only [daemon_InitResources, loaded, Bool.not_false, Bool.not_true, if_true,
      Bool.false_eq_true, if_false]
    cases pending <;> exact ⟨by decide, by decide, by intro r; cases r <;> decide,
      by intro r; cases r <;> decide⟩
  · exact absurd hfail (by simp [daemon_InitResources])

/-- C21. Start-up is all-or-nothing. Whichever acquisition of `daemon_Init` fails
(`dos.library`, public port, input port, input request, input device, timer port, timer
request, timer device), `daemon()` started from the freshly loaded image returns after
`daemon_Init` and `daemon_Cleanup` alone, whatever wake-ups would follow: every effect
is an acquisition or a release, so the timer is not armed and the loop is not entered;
after `daemon_Cleanup` no resource is held, none was released twice or without having
been acquired, and each resource, the public port name among them, was released as often
as it was acquired, at most once. -/
theorem startup_is_all_or_nothing (RELEASE : Bool) (env : InitEnv) (wakes : List Wake)
    (CheckIO_inProgress : Bool) (s_configByte : Nat)
    (hfail : (daemon_Init env (loaded s_configByte)).1 = false) :
    daemon RELEASE env wakes CheckIO_inProgress (loaded s_configByte)
      = (daemon_Cleanup CheckIO_inProgress (daemon_Init env (loaded s_configByte)).2, true)
    ∧ onlyResourceEffects
        (daemon RELEASE env wakes CheckIO_inProgress (loaded s_configByte)).1.trace = true
    ∧ timerArms (daemon RELEASE env wakes CheckIO_inProgress (loaded s_configByte)).1.trace = []
    ∧ heldAfter [] (daemon RELEASE env wakes CheckIO_inProgress (loaded s_configByte)).1.trace
        = some []
    ∧ (∀ r : Res,
        (daemon RELEASE env wakes CheckIO_inProgress (loaded s_configByte)).1.trace.count
            (Effect.release r)
          = (daemon RELEASE env wakes CheckIO_inProgress (loaded s_configByte)).1.trace.count
            (Effect.acquire r)
        ∧ (daemon RELEASE env wakes CheckIO_inProgress (loaded s_configByte)).1.trace.count
            (Effect.acquire r) ≤ 1)
    ∧ (daemon RELEASE env wakes CheckIO_inProgress (loaded s_configByte)).1.trace.count
          (Effect.release Res.portName)
        = (daemon_Init env (loaded s_configByte)).2.trace.count (Effect.acquire Res.portName) := by
  have hres : (daemon_InitResources env (loaded 0).handles).1 = false := by
    unfold daemon_Init at hfail
    simp only [] at hfail
    split_ifs at hfail with hr
    simpa using hr
  obtain ⟨k1, k2, k3, k4⟩ := daemon_InitResources_failure env CheckIO_inProgress hres
  have hinit : (daemon_Init env (loaded s_configByte)).2.trace
      = (daemon_InitResources env (loaded 0).handles).2.2
      ∧ (daemon_Init env (loaded s_configByte)).2.handles
      = (daemon_InitResources env (loaded 0).handles).2.1 := by
    unfold daemon_Init
    simp only []
    rw [if_neg (by rw [show (loaded s_configByte).handles = (loaded 0).handles from rfl, hres]
                   decide)]
    exact ⟨by simp [loaded], rfl⟩
  have hd : daemon RELEASE env wakes CheckIO_inProgress (loaded s_configByte)
      = (daemon_Cleanup CheckIO_inProgress (daemon_Init env (loaded s_configByte)).2, true) := by
    unfold daemon
    rw [if_neg (by rw [hfail]; decide)]
  have ht : (daemon RELEASE env wakes CheckIO_inProgress (loaded s_configByte)).1.trace
      = (daemon_InitResources env (loaded 0).handles).2.2
        ++ daemon_CleanupEffects CheckIO_inProgress
            (daemon_InitResources env (loaded 0).handles).2.1 := by
    rw [hd]
    show (daemon_Init env (loaded s_configByte)).2.trace
      ++ daemon_CleanupEffects CheckIO_inProgress (daemon_Init env (loaded s_configByte)).2.handles
      = _
    rw [hinit.1, hinit.2]
  have hcount : ∀ r : Res,
      ((daemon_InitResources env (loaded 0).handles).2.2
        ++ daemon_CleanupEffects CheckIO_inProgress
            (daemon_InitResources env (loaded 0).handles).2.1).count (Effect.acquire r)
      = ((daemon_InitResources env (loaded 0).handles).2.2).count (Effect.acquire r) := by
    intro r
    have hz : ∀ (p : Bool) (h : Handles),
        (daemon_CleanupEffects p h).count (Effect.acquire r) = 0 := by
      intro p h
      unfold daemon_CleanupEffects
      simp only [List.count_append]
      split_ifs <;> simp
    rw [List.count_append, hz, Nat.add_zero]
  have harms : ∀ l : List Effect, onlyResourceEffects l = true → timerArms l = [] := by
    intro l
    induction l with
    | nil => intro _; rfl
    | cons e es ih =>
      intro h
      unfold onlyResourceEffects at h ih
      rw [List.all_cons, Bool.and_eq_true] at h
      cases e <;> first | exact ih h.2 | exact absurd h.1 Bool.false_ne_true
  refine ⟨hd, ?_, ?_, ?_, ?_, ?_⟩
  · rw [ht]; exact k2
  · rw [ht]; exact harms _ k2
  · rw [ht]; exact k1
  · intro r
    rw [ht, hcount r]
    exact ⟨k3 r, k4 r⟩
  · rw [ht, hinit.1]
    exact k3 Res.portName

theorem startup_is_all_or_nothing_witness :
    (daemon false { initOk with OpenDevice_timer := false }
        [⟨false, true, true, [⟨XMSG_CMD_QUIT, 0, 0⟩], tickQuiet⟩] true (loaded 0x13)).1.trace
      = [Effect.acquire Res.dosLibrary, Effect.acquire Res.publicPort,
         Effect.acquire Res.portName, Effect.acquire Res.inputPort, Effect.acquire Res.inputReq,
         Effect.acquire Res.inputDevice, Effect.acquire Res.timerPort,
         Effect.acquire Res.timerReq, Effect.release Res.timerReq, Effect.release Res.timerPort,
         Effect.release Res.inputDevice, Effect.release Res.inputReq,
         Effect.release Res.inputPort, Effect.release Res.portName,
         Effect.release Res.publicPort, Effect.release Res.dosLibrary] :=
  (congrArg (fun r => r.1.trace)
    (startup_is_all_or_nothing false { initOk with OpenDevice_timer := false }
      [⟨false, true, true, [⟨XMSG_CMD_QUIT, 0, 0⟩], tickQuiet⟩] true 0x13 (by decide)).1).trans
    (by decide)

/-! ## The client: the reply timeout of `sendDaemonMessage` -/

/-- C24. `sendDaemonMessage` with all its resources created sends the message, then arms
its timer request with exactly 2 seconds and 0 microseconds, then waits.  When the reply
signal is set, with or without the timer signal, it takes the reply, returns the result
found in the message, and aborts and awaits the timer request.  When only the timer
signal is set it returns 0xFFFFFFFF; it then takes the timer reply and prints the
timeout text, and does nothing to the message at the daemon but free its memory.  When
one of its resources (reply port, timer port, timer request, timer device, message
memory) cannot be created it returns 0xFFFFFFFF, sends no message and arms no timer, and
releases what it had created. -/
theorem send_replies_or_times_out_after_two_seconds (env : SendEnv) (cmd value : Nat) :
    ((env.CreateMsgPort_reply = true ∧ env.CreateMsgPort_timer = true
        ∧ env.CreateIORequest_timer = true ∧ env.OpenDevice_timer = true
        ∧ env.AllocMem_msg = true) →
      (env.replySig = true →
        sendDaemonMessage env cmd value
          = (env.msg_result,
             [SendEffect.acquire SendRes.replyPort, SendEffect.acquire SendRes.timerPort,
              SendEffect.acquire SendRes.timerReq, SendEffect.acquire SendRes.timerDevice,
              SendEffect.acquire SendRes.msg,
              SendEffect.PutMsg (cmd % 256) (value % 4294967296),
              SendEffect.SendIO_timer 2 0, SendEffect.Wait,
              SendEffect.GetMsg_replyPort, SendEffect.AbortIO_timer, SendEffect.WaitIO_timer,
              SendEffect.release SendRes.msg, SendEffect.release SendRes.timerDevice,
              SendEffect.release SendRes.timerReq, SendEffect.release SendRes.timerPort,
              SendEffect.release SendRes.replyPort]))
      ∧ (env.replySig = false → env.timerSig = true →
        sendDaemonMessage env cmd value
          = (0xFFFFFFFF,
             [SendEffect.acquire SendRes.replyPort, SendEffect.acquire SendRes.timerPort,
              SendEffect.acquire SendRes.timerReq, SendEffect.acquire SendRes.timerDevice,
              SendEffect.acquire SendRes.msg,
              SendEffect.PutMsg (cmd % 256) (value % 4294967296),
              SendEffect.SendIO_timer 2 0, SendEffect.Wait,
              SendEffect.GetMsg_timerPort, SendEffect.Print MSG_ERR_DAEMON_TIMEOUT,
              SendEffect.release SendRes.msg, SendEffect.release SendRes.timerDevice,
              SendEffect.release SendRes.timerReq, SendEffect.release SendRes.timerPort,
              SendEffect.release SendRes.replyPort])))
    ∧ (¬ (env.CreateMsgPort_reply = true ∧ env.CreateMsgPort_timer = true
        ∧ env.CreateIORequest_timer = true ∧ env.OpenDevice_timer = true
        ∧ env.AllocMem_msg = true) →
      (sendDaemonMessage env cmd value).1 = 0xFFFFFFFF
      ∧ (∀ c v, SendEffect.PutMsg c v ∉ (sendDaemonMessage env cmd value).2)
      ∧ (∀ s m, SendEffect.SendIO_timer s m ∉ (sendDaemonMessage env cmd value).2)
      ∧ (∀ r, (sendDaemonMessage env cmd value).2.count (SendEffect.release r)
            = (sendDaemonMessage env cmd value).2.count (SendEffect.acquire r)))
    ∧ DAEMON_REPLY_TIMEOUT = 2 := by
  obtain ⟨b1, b2, b3, b4, b5, rs, ts, res⟩ := env
  refine ⟨?_, ?_, rfl⟩
  · rintro ⟨h1, h2, h3, h4, h5⟩
    simp only at h1 h2 h3 h4 h5
    subst h1 h2 h3 h4 h5
    refine ⟨?_, ?_⟩
    · intro hr
      simp only at hr
      subst hr
      rfl
    · intro hr ht
      simp only at hr ht
      subst hr ht
      rfl
  · intro hno
    simp only at hno
    cases b1
    · simp [sendDaemonMessage]
    cases b2
    · simp only [sendDaemonMessage, Bool.not_false, Bool.not_true, if_true, Bool.false_eq_true,
        if_false]
      exact ⟨trivial, by simp, by simp, by intro r; cases r <;> decide⟩
    cases b3
    · simp only [sendDaemonMessage, Bool.not_false, Bool.not_true, if_true, Bool.false_eq_true,
        if_false]
      exact ⟨trivial, by simp, by simp, by intro r; cases r <;> decide⟩
    cases b4
    · simp only [sendDaemonMessage, Bool.not_false, Bool.not_true, if_true, Bool.false_eq_true,
        if_false]
      exact ⟨trivial, by simp, by simp, by intro r; cases r <;> decide⟩
    cases b5
    · simp only [sendDaemonMessage, Bool.not_false, Bool.not_true, if_true, Bool.false_eq_true,
        if_false]
      exact ⟨trivial, by simp, by simp, by intro r; cases r <;> decide⟩
    · exact absurd ⟨rfl, rfl, rfl, rfl, rfl⟩ hno

end XMouseD
